import Mathlib

/-!
# osde2e: provider lifecycle operations and convergence pollers

A shallow embedding of `pkg/common/providers/ocmprovider/cluster.go` and of the
pollers and the operator upgrade of `pkg/e2e/operators/operators.go`.

Conventions of the embedding.

* The provider is a deterministic environment `Provider`: every `Send()` is
  answered from the list of requests sent so far (`Hist`) and the request
  itself, so an answer may depend on every earlier write.  Every operation
  threads the history explicitly and appends one `Request` per `Send()`.
* A Go function that may hit a runtime panic returns an `Outcome`; a function
  that cannot returns an `Except`.
* Every accessor of the provider SDK is nil-safe (a nil object reads as an
  object with no field set), so a nil `*v1.Cluster` is the empty `OcmCluster`
  and a nil response has no error and an empty body.
* `log.Printf` lines are observability only and are left out.
-/

namespace Osde2e

/-! ## Time -/

/-- Wrap an integer into the range of a Go `int64`. -/
def wrapInt64 (x : Int) : Int := (x + 2 ^ 63) % 2 ^ 64 - 2 ^ 63

/-- Go `time.Second`, in nanoseconds. -/
def Second : Int := 1000000000

/-- Go `time.Minute`, in nanoseconds. -/
def Minute : Int := 60 * Second

/-- Go `time.Hour`, in nanoseconds. -/
def Hour : Int := 60 * Minute

/-- Go `int64(a) * int64(b)` on `time.Duration` values: the product wraps. -/
def Duration.mul (a b : Int) : Int := wrapInt64 (a * b)

/-- Go `time.Duration(u)` for an unsigned 64-bit `u`: the bits are reread as signed. -/
def Duration.ofUInt64 (u : Nat) : Int := wrapInt64 (u % 2 ^ 64)

/-- A Go `time.Time` without monotonic reading: the instant, in nanoseconds since
the Unix epoch, and the identity of its `*Location` (`none` is UTC, the nil
location; `some p` any other location pointer).  Go compares two `time.Time`
with `==` and `!=` field by field, so both components take part.  The instant
is unbounded: a timestamp read from the provider has a four-digit year, and
adding an `int64` number of nanoseconds to it stays inside Go's range. -/
structure Time where
  unixNano : Int
  loc : Option Nat
  deriving DecidableEq, Repr

/-- Go `t.Add(d)`: the instant moves by `d` nanoseconds, the location stays. -/
def Time.Add (t : Time) (d : Int) : Time := { t with unixNano := t.unixNano + d }

/-- Go `t.UTC()`: same instant, location set to UTC. -/
def Time.UTC (t : Time) : Time := { t with loc := none }

/-! ## Errors -/

/-- A structured error object carried by a provider response (`*errors.Error`). -/
structure OcmError where
  reason : String
  deriving DecidableEq, Repr

/-- Go `e.Error()` on a structured error: its text, of which the model keeps
the reason. -/
def OcmError.Error (e : OcmError) : String := e.reason

/-- The Go `error` values of `cluster.go`, one constructor per place that builds one. -/
inductive Err where
  /-- The error `Send()` returned. -/
  | transport (msg : String)
  /-- The value of `errResp(e)` for a non-nil `e`. -/
  | apiError (e : OcmError)
  /-- A response's `*errors.Error` returned as the error (`return resp.Error()`). -/
  | ocm (e : OcmError)
  /-- The retry executor gave up: the attempts made and the last error. -/
  | retriesExhausted (attempts : Nat) (last : Err)
  /-- An error of a builder's `Build()`. -/
  | build (msg : String)
  | couldntCreateCluster (cause : Err)
  | couldntDeleteCluster (clusterID : String) (cause : Err)
  | couldntUpdateCluster (clusterID : String) (cause : Err)
  | couldntRetrieveCluster (clusterID : String) (cause : Err)
  | couldntRetrieveAddons (clusterID : String) (cause : Err)
  | couldntRetrieveCredentials (clusterID : String) (cause : Err)
  | buildingScaledCluster (cause : Err)
  | buildingExpirationCluster (cause : Err)
  | gettingClusterStateForAddon (addonID : String)
  | addonSendError (status : Int) (e : OcmError)
  /-- The text "expected number of compute nodes (%d) not reflected in OCM (found %d)". -/
  | computeNodesNotReflected (expected found : Int)
  /-- The text "expected expiration time %s not reflected in OCM (found %s)". -/
  | expirationNotReflected (expected found : Time)
  /-- The error `user.Current()` returned. -/
  | osUser (msg : String)
  | unableToGetCurrentUser (cause : Err)
  | generatingClusterProperties (cause : Err)
  | couldntBuildClusterDescription (cause : Err)
  deriving DecidableEq, Repr

/-- The result of a Go function that may also end in a runtime panic. -/
inductive Outcome (α : Type) where
  | ok (a : α)
  | error (e : Err)
  | panic
  deriving DecidableEq, Repr

/-! ## Provider objects -/

/-- A `*v1.Cluster`: every field is optional, and a nil pointer is the value
with no field set.  `regionID`, `flavourID`, `versionID`, `cloudProviderID` and
`nodesCompute` are the nested `Region().ID()`, ..., `Nodes().Compute()`;
`nodesComputeMachineTypeID` is `Nodes().ComputeMachineType().ID()` and `addons`
the addon ids of the `Addons()` list. -/
structure OcmCluster where
  id : Option String := none
  name : Option String := none
  regionID : Option String := none
  flavourID : Option String := none
  versionID : Option String := none
  cloudProviderID : Option String := none
  state : Option String := none
  properties : Option (List (String × String)) := none
  expirationTimestamp : Option Time := none
  nodesCompute : Option Int := none
  multiAZ : Option Bool := none
  nodesComputeMachineTypeID : Option String := none
  addons : Option (List String) := none
  deriving DecidableEq, Repr

def OcmCluster.ID (c : OcmCluster) : String := c.id.getD ""
def OcmCluster.Name (c : OcmCluster) : String := c.name.getD ""
def OcmCluster.RegionID (c : OcmCluster) : String := c.regionID.getD ""
def OcmCluster.FlavourID (c : OcmCluster) : String := c.flavourID.getD ""
def OcmCluster.Compute (c : OcmCluster) : Int := c.nodesCompute.getD 0

/-- Go `ocmCluster.ExpirationTimestamp()`: the zero `time.Time` when absent
(the instant of January 1, year 1, 00:00 UTC). -/
def OcmCluster.ExpirationTimestamp (c : OcmCluster) : Time :=
  c.expirationTimestamp.getD { unixNano := -62135596800 * Second, loc := none }

/-- A `*v1.AddOn` of the catalog. -/
structure AddOn where
  id : String
  enabled : Bool
  deriving DecidableEq, Repr, Inhabited

/-- A request sent to the provider (one per `Send()`). -/
inductive Request where
  | clustersAdd (body : OcmCluster)
  | clusterGet (clusterID : String)
  | clusterUpdate (clusterID : String) (body : OcmCluster)
  | clusterDelete (clusterID : String)
  | credentialsGet (clusterID : String)
  | addonGet (addonID : String)
  | addonsList (clusterID : String)
  | addonsAdd (clusterID : String) (body : AddOn)
  | regionsList (cloudProvider : String)
  deriving DecidableEq, Repr

/-- The requests sent so far, oldest first. -/
abbrev Hist := List Request

/-- A non-nil response object: its structured error, its HTTP status, its body. -/
structure Resp (α : Type) where
  error : Option OcmError
  status : Int
  body : α

/-- What `Send()` returns: a response pointer (possibly nil) and a transport error. -/
structure Sent (α : Type) where
  resp : Option (Resp α)
  err : Option String

/-- Go `resp.Error()`, nil-safe. -/
def Resp.Error {α : Type} (r : Option (Resp α)) : Option OcmError := r.bind (fun x => x.error)

/-- Go `resp.Status()`, nil-safe. -/
def Resp.Status {α : Type} (r : Option (Resp α)) : Int := (r.map (fun x => x.status)).getD 0

/-- Go `resp.Body()`, nil-safe: the empty object for a nil response. -/
def Resp.Body {α : Type} [Inhabited α] (r : Option (Resp α)) : α :=
  (r.map (fun x => x.body)).getD default

instance : Inhabited OcmCluster := ⟨{}⟩

/-- One region of a provider's region list. -/
structure CloudRegion where
  id : String
  enabled : Bool
  deriving DecidableEq, Repr

/-- The body of a region listing: the items of the page and the reported total. -/
structure RegionList where
  items : List CloudRegion
  total : Int
  deriving DecidableEq, Repr

instance : Inhabited RegionList := ⟨{ items := [], total := 0 }⟩

/-- The provider and the SDK pieces the code calls.  Each `Send()` is answered
from the history and the request; `clusterBuildError` and `addonBuildError`
are the outcomes of the two `Build()` calls on a request object. -/
structure Provider where
  clustersAdd : Hist → OcmCluster → Sent OcmCluster
  clusterGet : Hist → String → Sent OcmCluster
  clusterUpdate : Hist → String → OcmCluster → Sent OcmCluster
  clusterDelete : Hist → String → Sent Unit
  credentialsGet : Hist → String → Sent String
  addonGet : Hist → String → Sent AddOn
  addonsList : Hist → String → Sent (Option (List String))
  addonsAdd : Hist → String → AddOn → Sent Unit
  regionsList : Hist → String → Sent RegionList
  clusterBuildError : OcmCluster → Option String
  addonBuildError : AddOn → Option String

/-! ## Helpers declared outside the two files -/

/-- Modelled from the spec: `errResp` is declared outside `cluster.go`.  §4.1 has
the wrapped operation return "an error from a provider-side error object present
in the response": a present object gives an error naming it, an absent (nil)
object gives no error. -/
def errResp (e : Option OcmError) : Option Err := e.map Err.apiError

/-- Modelled from the spec: the retry executor `retryer().Do` is declared outside
`cluster.go`.  §4.1: run the operation; on success return at once; on an error,
if all attempts are used up surface the final error annotated with the attempt
count, otherwise wait and run it again.  `more` is the number of attempts left
after this one, `made` the number already made, so there is always a first
attempt (§3: attempts ≥ 1).  The operation assigns the captured response
variable on every attempt; its last value is returned next to the error. -/
def retryDo {ρ : Type} (op : Hist → (ρ × Option Err) × Hist) :
    (more made : Nat) → Hist → (ρ × Option Err) × Hist
  | 0, made, h =>
    match op h with
    | ((r, none), h1) => ((r, none), h1)
    | ((r, some e), h1) => ((r, some (Err.retriesExhausted (made + 1) e)), h1)
  | more + 1, made, h =>
    match op h with
    | ((r, none), h1) => ((r, none), h1)
    | ((_, some _), h1) => retryDo op more (made + 1) h1

/-- The retry policy of `retryer()`: the number of attempts after the first. -/
structure RetryPolicy where
  more : Nat
  deriving DecidableEq, Repr

/-- Go `retryer().Do(op)`. -/
def RetryPolicy.Do {ρ : Type} (p : RetryPolicy) (op : Hist → (ρ × Option Err) × Hist)
    (h : Hist) : (ρ × Option Err) × Hist :=
  retryDo op p.more 0 h

/-- Modelled from the spec: the internal status enum of `spi` (§3: one of
unknown, pending, installing, ready, uninstalling, error). -/
inductive ClusterState where
  | unknown | pending | installing | ready | uninstalling | error
  deriving DecidableEq, Repr

/-- Modelled from the spec: the internal `spi.Cluster` record (§3) that
`spi.NewClusterBuilder()` fills; a field the builder is never told stays at the
empty value. -/
structure SpiCluster where
  id : String := ""
  name : String := ""
  region : String := ""
  flavour : String := ""
  version : String := ""
  cloudProvider : String := ""
  state : Option ClusterState := none
  properties : List (String × String) := []
  addons : List String := []
  expirationTimestamp : Time := { unixNano := -62135596800 * Second, loc := none }
  numComputeNodes : Int := 0
  deriving DecidableEq, Repr

/-! ## `cluster.go` -/

/-- The wrapped operation of `LaunchCluster` (lines 123-134): send the creation
request; a structured error in a non-nil response wins over the transport error. -/
def LaunchCluster.attempt (w : Provider) (cluster : OcmCluster) (h : Hist) :
    (Option (Resp OcmCluster) × Option Err) × Hist :=
  let s := w.clustersAdd h cluster
  let h1 := h ++ [Request.clustersAdd cluster]
  if s.resp.isSome && (Resp.Error s.resp).isSome then
    ((s.resp, errResp (Resp.Error s.resp)), h1)
  else
    ((s.resp, s.err.map Err.transport), h1)

/-- The wrapped operation of `DeleteCluster` (lines 172-189). -/
def DeleteCluster.attempt (w : Provider) (clusterID : String) (h : Hist) :
    (Option (Resp Unit) × Option Err) × Hist :=
  let s := w.clusterDelete h clusterID
  let h1 := h ++ [Request.clusterDelete clusterID]
  match s.err with
  | some m => ((s.resp, some (Err.couldntDeleteCluster clusterID (Err.transport m))), h1)
  | none =>
    if s.resp.isSome && (Resp.Error s.resp).isSome then
      ((s.resp, errResp (Resp.Error s.resp)), h1)
    else
      ((s.resp, none), h1)

/-- Go `DeleteCluster`: requests the deletion of `clusterID`. -/
def DeleteCluster (w : Provider) (p : RetryPolicy) (clusterID : String) (h : Hist) :
    Except Err Unit × Hist :=
  match p.Do (DeleteCluster.attempt w clusterID) h with
  | ((_, some e), h1) => (.error (Err.couldntDeleteCluster clusterID e), h1)
  | ((_, none), h1) => (.ok (), h1)

/-- The wrapped operation of `getOCMCluster` (lines 305-323). -/
def getOCMCluster.attempt (w : Provider) (clusterID : String) (h : Hist) :
    (Option (Resp OcmCluster) × Option Err) × Hist :=
  let s := w.clusterGet h clusterID
  let h1 := h ++ [Request.clusterGet clusterID]
  match s.err with
  | some m => ((s.resp, some (Err.couldntRetrieveCluster clusterID (Err.transport m))), h1)
  | none =>
    if s.resp.isSome && (Resp.Error s.resp).isSome then
      ((s.resp, errResp (Resp.Error s.resp)), h1)
    else
      ((s.resp, none), h1)

/-- Go `getOCMCluster`: the retried read of the provider's cluster record. -/
def getOCMCluster (w : Provider) (p : RetryPolicy) (clusterID : String) (h : Hist) :
    Except Err OcmCluster × Hist :=
  match p.Do (getOCMCluster.attempt w clusterID) h with
  | ((_, some e), h1) => (.error e, h1)
  | ((resp, none), h1) =>
    match Resp.Error resp with
    | some e => (.error (Err.ocm e), h1)
    | none => (.ok (Resp.Body resp), h1)

/-- Go `ocmStateToInternalState`; `v1.ClusterState` is a string type. -/
def ocmStateToInternalState (state : String) : ClusterState :=
  if state = "error" then ClusterState.error
  else if state = "installing" then ClusterState.installing
  else if state = "pending" then ClusterState.pending
  else if state = "ready" then ClusterState.ready
  else if state = "uninstalling" then ClusterState.uninstalling
  else ClusterState.unknown

/-- The wrapped operation of `ocmToSPICluster` (lines 497-515).  On a structured
error in the listing response it returns `errResp(resp.Error())`, where `resp`
is the `*v1.ClusterGetResponse` declared at line 469 and never assigned: a nil
response, whose `Error()` is nil. -/
def ocmToSPICluster.attempt (w : Provider) (ocmCluster : OcmCluster) (h : Hist) :
    (Option (Resp (Option (List String))) × Option Err) × Hist :=
  let resp : Option (Resp OcmCluster) := none
  let s := w.addonsList h ocmCluster.ID
  let h1 := h ++ [Request.addonsList ocmCluster.ID]
  match s.err with
  | some m => ((s.resp, some (Err.couldntRetrieveAddons ocmCluster.ID (Err.transport m))), h1)
  | none =>
    if s.resp.isSome && (Resp.Error s.resp).isSome then
      ((s.resp, errResp (Resp.Error resp)), h1)
    else
      ((s.resp, none), h1)

/-- The builder calls of `ocmToSPICluster` before the addon listing (lines 471-494). -/
def ocmToSPICluster.fields (ocmCluster : OcmCluster) : SpiCluster :=
  let cluster : SpiCluster :=
    { name := ocmCluster.Name, region := ocmCluster.RegionID, flavour := ocmCluster.FlavourID }
  let cluster := match ocmCluster.id with
    | some id => { cluster with id := id }
    | none => cluster
  let cluster := match ocmCluster.versionID with
    | some v => { cluster with version := v }
    | none => cluster
  let cluster := match ocmCluster.cloudProviderID with
    | some c => { cluster with cloudProvider := c }
    | none => cluster
  let cluster := match ocmCluster.state with
    | some s => { cluster with state := some (ocmStateToInternalState s) }
    | none => cluster
  match ocmCluster.properties with
  | some ps => { cluster with properties := ps }
  | none => cluster

/-- Go `ocmToSPICluster`: translate a provider record, listing (retried) the
cluster's installed addons. -/
def ocmToSPICluster (w : Provider) (p : RetryPolicy) (ocmCluster : OcmCluster) (h : Hist) :
    Except Err SpiCluster × Hist :=
  let cluster := ocmToSPICluster.fields ocmCluster
  match p.Do (ocmToSPICluster.attempt w ocmCluster) h with
  | ((_, some e), h1) => (.error e, h1)
  | ((addonsResp, none), h1) =>
    match Resp.Error addonsResp with
    | some e => (.error (Err.ocm e), h1)
    | none =>
      let cluster := match Resp.Body addonsResp with
        | some items => { cluster with addons := cluster.addons ++ items }
        | none => cluster
      (.ok { cluster with
              expirationTimestamp := ocmCluster.ExpirationTimestamp,
              numComputeNodes := ocmCluster.Compute }, h1)

/-- Go `GetCluster`: read the provider record, then translate it. -/
def GetCluster (w : Provider) (p : RetryPolicy) (clusterID : String) (h : Hist) :
    Except Err SpiCluster × Hist :=
  match getOCMCluster w p clusterID h with
  | (.error e, h1) => (.error e, h1)
  | (.ok ocmCluster, h1) =>
    match ocmToSPICluster w p ocmCluster h1 with
    | (.error e, h2) => (.error e, h2)
    | (.ok cluster, h2) => (.ok cluster, h2)

/-- The wrapped operation of `ScaleCluster` and of `ExtendExpiry` (lines 222-240
and 589-607, the same text): send the partial update `body`. -/
def updateAttempt (w : Provider) (clusterID : String) (body : OcmCluster) (h : Hist) :
    (Option (Resp OcmCluster) × Option Err) × Hist :=
  let s := w.clusterUpdate h clusterID body
  let h1 := h ++ [Request.clusterUpdate clusterID body]
  match s.err with
  | some m => ((s.resp, some (Err.couldntUpdateCluster clusterID (Err.transport m))), h1)
  | none =>
    if s.resp.isSome && (Resp.Error s.resp).isSome then
      ((s.resp, errResp (Resp.Error s.resp)), h1)
    else
      ((s.resp, none), h1)

/-- Go `ScaleCluster`.  After an acknowledged update the cluster is read again
with `GetCluster`; an error of that read is only logged, and the nil
`finalCluster` is then dereferenced by `NumComputeNodes()`: a runtime panic. -/
def ScaleCluster (w : Provider) (p : RetryPolicy) (clusterID : String) (numComputeNodes : Int)
    (h : Hist) : Outcome Unit × Hist :=
  match getOCMCluster w p clusterID h with
  | (.error e, h1) => (.error e, h1)
  | (.ok ocmCluster, h1) =>
    if numComputeNodes = ocmCluster.Compute then (.ok (), h1)
    else
      let scaledCluster : OcmCluster := { nodesCompute := some numComputeNodes }
      match w.clusterBuildError scaledCluster with
      | some m => (.error (Err.buildingScaledCluster (Err.build m)), h1)
      | none =>
        match p.Do (updateAttempt w clusterID scaledCluster) h1 with
        | ((_, some e), h2) => (.error e, h2)
        | ((resp, none), h2) =>
          match Resp.Error resp with
          | some e => (.error (Err.ocm e), h2)
          | none =>
            match GetCluster w p clusterID h2 with
            | (.error _, h3) => (.panic, h3)
            | (.ok finalCluster, h3) =>
              if finalCluster.numComputeNodes ≠ numComputeNodes then
                (.error (Err.computeNodesNotReflected numComputeNodes
                  finalCluster.numComputeNodes), h3)
              else (.ok (), h3)

/-- The timestamp `ExtendExpiry` computes (lines 571-581): each non-zero
component is added in turn, and each addition is followed by `.UTC()`. -/
def ExtendExpiry.target (t : Time) (hours minutes seconds : Nat) : Time :=
  let t1 := if hours ≠ 0 then (t.Add (Duration.mul (Duration.ofUInt64 hours) Hour)).UTC else t
  let t2 := if minutes ≠ 0 then (t1.Add (Duration.mul (Duration.ofUInt64 minutes) Minute)).UTC else t1
  if seconds ≠ 0 then (t2.Add (Duration.mul (Duration.ofUInt64 seconds) Second)).UTC else t2

/-- Go `ExtendExpiry`; `hours`, `minutes`, `seconds` are `uint64` values.  As in
`ScaleCluster`, a failed verification read is only logged and the nil
`finalCluster` is then dereferenced. -/
def ExtendExpiry (w : Provider) (p : RetryPolicy) (clusterID : String)
    (hours minutes seconds : Nat) (h : Hist) : Outcome Unit × Hist :=
  match getOCMCluster w p clusterID h with
  | (.error e, h1) => (.error e, h1)
  | (.ok ocmCluster, h1) =>
    match ocmToSPICluster w p ocmCluster h1 with
    | (.error e, h2) => (.error e, h2)
    | (.ok cluster, h2) =>
      let extendexpirytime := ExtendExpiry.target cluster.expirationTimestamp hours minutes seconds
      let extendexpiryCluster : OcmCluster := { expirationTimestamp := some extendexpirytime }
      match w.clusterBuildError extendexpiryCluster with
      | some m => (.error (Err.buildingExpirationCluster (Err.build m)), h2)
      | none =>
        match p.Do (updateAttempt w clusterID extendexpiryCluster) h2 with
        | ((_, some e), h3) => (.error e, h3)
        | ((resp, none), h3) =>
          match Resp.Error resp with
          | some e => (.error (Err.ocm e), h3)
          | none =>
            match GetCluster w p clusterID h3 with
            | (.error _, h4) => (.panic, h4)
            | (.ok finalCluster, h4) =>
              if finalCluster.expirationTimestamp ≠ extendexpirytime then
                (.error (Err.expirationNotReflected extendexpirytime
                  finalCluster.expirationTimestamp), h4)
              else (.ok (), h4)


/-- The wrapped operation of `ClusterKubeconfig` (lines 340-359). -/
def ClusterKubeconfig.attempt (w : Provider) (clusterID : String) (h : Hist) :
    (Option (Resp String) × Option Err) × Hist :=
  let s := w.credentialsGet h clusterID
  let h1 := h ++ [Request.credentialsGet clusterID]
  match s.err with
  | some m => ((s.resp, some (Err.transport m)), h1)
  | none =>
    if s.resp.isSome && (Resp.Error s.resp).isSome then
      ((s.resp, errResp (Resp.Error s.resp)), h1)
    else
      ((s.resp, none), h1)

/-- Go `ClusterKubeconfig`: the kubeconfig text of the cluster. -/
def ClusterKubeconfig (w : Provider) (p : RetryPolicy) (clusterID : String) (h : Hist) :
    Except Err String × Hist :=
  match p.Do (ClusterKubeconfig.attempt w clusterID) h with
  | ((_, some e), h1) => (.error (Err.couldntRetrieveCredentials clusterID e), h1)
  | ((resp, none), h1) => (.ok (Resp.Body resp), h1)

/-- The first wrapped operation of `InstallAddons` (lines 390-403): read the
catalog definition of `addonID`. -/
def InstallAddons.catalogAttempt (w : Provider) (addonID : String) (h : Hist) :
    (Option (Resp AddOn) × Option Err) × Hist :=
  let s := w.addonGet h addonID
  let h1 := h ++ [Request.addonGet addonID]
  match s.err with
  | some m => ((s.resp, some (Err.transport m)), h1)
  | none =>
    if s.resp.isSome && (Resp.Error s.resp).isSome then
      ((s.resp, errResp (Resp.Error s.resp)), h1)
    else
      ((s.resp, none), h1)

/-- The second wrapped operation of `InstallAddons` (lines 437-452): send the
installation of `addon` (the body built from a copy of the catalog definition). -/
def InstallAddons.installAttempt (w : Provider) (clusterID : String) (addon : AddOn)
    (h : Hist) : (Option (Resp Unit) × Option Err) × Hist :=
  let s := w.addonsAdd h clusterID addon
  let h1 := h ++ [Request.addonsAdd clusterID addon]
  match s.err with
  | some m => ((s.resp, some (Err.transport m)), h1)
  | none =>
    match Resp.Error s.resp with
    | some e => ((s.resp, some (Err.addonSendError (Resp.Status s.resp) e)), h1)
    | none => ((s.resp, none), h1)

/-- The `for _, addonID := range addonIDs` loop of `InstallAddons` with the
running count `num`; every `return 0, err` leaves the loop with count 0. -/
def InstallAddons.loop (w : Provider) (p : RetryPolicy) (clusterID : String) :
    List String → Nat → Hist → (Nat × Option Err) × Hist
  | [], num, h => ((num, none), h)
  | addonID :: rest, num, h =>
    match p.Do (InstallAddons.catalogAttempt w addonID) h with
    | ((_, some e), h1) => ((0, some e), h1)
    | ((addonResp, none), h1) =>
      let addon : AddOn := Resp.Body addonResp
      match GetCluster w p clusterID h1 with
      | (.error _, h2) => ((0, some (Err.gettingClusterStateForAddon addonID)), h2)
      | (.ok cluster, h2) =>
        let alreadyInstalled : Bool := decide (addonID ∈ cluster.addons)
        if alreadyInstalled then InstallAddons.loop w p clusterID rest num h2
        else if addon.enabled then
          match w.addonBuildError addon with
          | some m => ((0, some (Err.build m)), h2)
          | none =>
            match p.Do (InstallAddons.installAttempt w clusterID addon) h2 with
            | ((_, some e), h3) => ((0, some e), h3)
            | ((_, none), h3) => InstallAddons.loop w p clusterID rest (num + 1) h3
        else InstallAddons.loop w p clusterID rest num h2

/-- Go `InstallAddons`: returns the number of addons newly installed and the error. -/
def InstallAddons (w : Provider) (p : RetryPolicy) (clusterID : String)
    (addonIDs : List String) (h : Hist) : (Nat × Option Err) × Hist :=
  InstallAddons.loop w p clusterID addonIDs 0 h

/-! ### Region resolution of `LaunchCluster` -/

/-- The configuration values `LaunchCluster` reads through `viper`. -/
structure Config where
  multiAZ : Bool
  computeMachineType : String
  region : String
  cloudProviderID : String
  version : String
  expiryInMinutes : Int
  addonIDsAtCreation : String
  jobID : Int
  userOverride : String
  deriving DecidableEq, Repr

/-- The sampling loop of `LaunchCluster` (lines 48-55): one round per item of
the listing (`left` rounds to go).  The `k`-th call of `rand.Intn(n)` returns
`draws k % n`, any value below `n`, and panics when `n ≤ 0`; indexing the slice
outside its length panics.  Returns the value of `region` after the loop. -/
def LaunchCluster.sample (items : List CloudRegion) (total : Int) (draws : Nat → Nat) :
    (left k : Nat) → (region : String) → Outcome String
  | 0, _, region => .ok region
  | left + 1, k, _ =>
    if total ≤ 0 then .panic
    else
      match items[draws k % total.toNat]? with
      | none => .panic
      | some regionObj =>
        if regionObj.enabled then .ok regionObj.id
        else LaunchCluster.sample items total draws left (k + 1) regionObj.id

/-- The region block of `LaunchCluster` (lines 35-59): returns the local
`region` and the configuration store after the block. -/
def LaunchCluster.resolveRegion (w : Provider) (cfg : Config) (draws : Nat → Nat) (h : Hist) :
    Outcome (String × Config) × Hist :=
  let region := cfg.region
  let cloudProvider := cfg.cloudProviderID
  if region = "random" then
    let s := w.regionsList h cloudProvider
    let h1 := h ++ [Request.regionsList cloudProvider]
    match s.err with
    | some m => (.error (Err.transport m), h1)
    | none =>
      let regions : RegionList := Resp.Body s.resp
      match LaunchCluster.sample regions.items regions.total draws regions.items.length 0 region with
      | .ok region1 => (.ok (region1, { cfg with region := region1 }), h1)
      | .error e => (.error e, h1)
      | .panic => (.panic, h1)
  else
    (.ok (region, cfg), h)

/-! ### `GenerateProperties` and the creation request of `LaunchCluster` -/

/-- Go constant `DefaultFlavour`. -/
def DefaultFlavour : String := "osd-4"

/-- Go constant `MadeByOSDe2e`. -/
def MadeByOSDe2e : String := "MadeByOSDe2e"

/-- Go constant `OwnedBy`. -/
def OwnedBy : String := "OwnedBy"

/-- What `LaunchCluster` reads from the machine it runs on: the clock
(`time.Now()`), the outcome of `user.Current()` (the user name, or the text of
the error), and the results of `rand.Intn`. -/
structure Host where
  now : Time
  currentUser : Except String String
  draws : Nat → Nat

/-- Go `GenerateProperties`: the map is the list of its key/value pairs. -/
def GenerateProperties (cfg : Config) (host : Host) : Except Err (List (String × String)) :=
  let username : Except Err String :=
    if cfg.jobID ≠ -1 then .ok "prow"
    else if cfg.userOverride ≠ "" then .ok cfg.userOverride
    else
      match host.currentUser with
      | .error m => .error (Err.unableToGetCurrentUser (Err.osUser m))
      | .ok user => .ok user
  match username with
  | .error e => .error e
  | .ok username => .ok [(MadeByOSDe2e, "true"), (OwnedBy, username)]

/-- Go `strings.Split(s, ",")` on the characters of `s`; `acc` holds the
characters of the current piece, last first. -/
def splitComma : List Char → List Char → List String
  | acc, [] => [String.mk acc.reverse]
  | acc, c :: cs =>
    if c = ',' then String.mk acc.reverse :: splitComma [] cs
    else splitComma (c :: acc) cs

/-- The cluster description `LaunchCluster` builds (lines 61-114) from the
configuration, the resolved region, the generated properties and the clock. -/
def LaunchCluster.request (cfg : Config) (region : String)
    (clusterProperties : List (String × String)) (now : Time) (clusterName : String) :
    OcmCluster :=
  let multiAZ := cfg.multiAZ
  let computeMachineType := cfg.computeMachineType
  let newCluster : OcmCluster :=
    { name := some clusterName, flavourID := some DefaultFlavour, regionID := some region,
      multiAZ := some multiAZ, versionID := some cfg.version,
      cloudProviderID := some cfg.cloudProviderID, properties := some clusterProperties }
  let expiryInMinutes := cfg.expiryInMinutes
  let newCluster :=
    if expiryInMinutes > 0 then
      { newCluster with
        expirationTimestamp := some (now.Add (Duration.mul expiryInMinutes Minute)).UTC }
    else newCluster
  let nodesCompute : Option Int := if multiAZ then some 9 else none
  let newCluster :=
    if multiAZ then { newCluster with multiAZ := some cfg.multiAZ } else newCluster
  let nodesComputeMachineTypeID : Option String :=
    if computeMachineType ≠ "" then some computeMachineType else none
  let newCluster :=
    { newCluster with
      nodesCompute := nodesCompute, nodesComputeMachineTypeID := nodesComputeMachineTypeID }
  if cfg.addonIDsAtCreation.length > 0 then
    { newCluster with addons := some (splitComma [] cfg.addonIDsAtCreation.data) }
  else newCluster

/-- Go `LaunchCluster`: the id of the new cluster (or the error), the
configuration store after the call, and the requests sent. -/
def LaunchCluster (w : Provider) (p : RetryPolicy) (cfg : Config) (host : Host)
    (clusterName : String) (h : Hist) : (Outcome String × Config) × Hist :=
  match LaunchCluster.resolveRegion w cfg host.draws h with
  | (.error e, h1) => ((.error e, cfg), h1)
  | (.panic, h1) => ((.panic, cfg), h1)
  | (.ok (region, cfg1), h1) =>
    match GenerateProperties cfg1 host with
    | .error e => ((.error (Err.generatingClusterProperties e), cfg1), h1)
    | .ok clusterProperties =>
      let newCluster := LaunchCluster.request cfg1 region clusterProperties host.now clusterName
      match w.clusterBuildError newCluster with
      | some m => ((.error (Err.couldntBuildClusterDescription (Err.build m)), cfg1), h1)
      | none =>
        match p.Do (LaunchCluster.attempt w newCluster) h1 with
        | ((_, some e), h2) => ((.error (Err.couldntCreateCluster e), cfg1), h2)
        | ((resp, none), h2) => ((.ok (Resp.Body resp : OcmCluster).ID, cfg1), h2)

/-! ## `operators.go`: the pollers -/

/-- Go `strings.HasPrefix` on the characters of two strings. -/
def startsWith : List Char → List Char → Bool
  | _, [] => true
  | [], _ :: _ => false
  | c :: s, d :: t => c == d && startsWith s t

/-- Go `strings.Contains` on the characters of two strings. -/
def containsChars : List Char → List Char → Bool
  | [], t => startsWith [] t
  | c :: s, t => startsWith (c :: s) t || containsChars s t

/-- Go `strings.Contains(s, substr)`. -/
def stringsContains (s substr : String) : Bool := containsChars s.data substr.data

/-- What a poller does besides returning: a check against the cluster API, or a
`time.Sleep(d)`. -/
inductive PollEvent where
  | check
  | sleep (d : Int)
  deriving DecidableEq, Repr

/-- An `appsv1.Deployment` as far as the checks read it. -/
structure Deployment where
  name : String
  readyReplicas : Int
  replicas : Int
  deriving DecidableEq, Repr

/-- A `ClusterServiceVersion` as far as the checks read it. -/
structure CSV where
  name : String
  displayName : String
  phase : String
  deriving DecidableEq, Repr

/-- The cluster API and the clock as one run of a poller sees them.  The
argument `k` is the number of calls the run has made before; an error is its
message (`err.Error()`).  `since k` is the value of `time.Since(start)` read
right after call `k`.  A listing always returns a list object. -/
structure Kube where
  getClusterRoleBinding : Nat → String → Option String
  getRoleBinding : Nat → String → String → Option String
  getConfigMap : Nat → String → String → Option String
  getDeployment : Nat → String → String → Deployment × Option String
  listCSV : Nat → String → List CSV × Option String
  since : Nat → Int

/-- The `Loop:` of the five pollers, which differ in the check, the interval and
the text of the timeout error only.  `check k` is the value and the error of
tick `k`.  Returns the value (nil on failure), the error, and the events, or
`none` when `fuel` ticks did not end the loop. -/
def pollLoop {α : Type} (check : Nat → α × Option String) (since : Nat → Int)
    (timeoutDuration intervalDuration : Int) (timeoutError : String) :
    (fuel k : Nat) → List PollEvent → Option ((Option α × Option String) × List PollEvent)
  | 0, _, _ => none
  | fuel + 1, k, tr =>
    let r := check k
    let elapsed := since k
    let tr1 := tr ++ [PollEvent.check]
    match r.2 with
    | none => some ((some r.1, none), tr1)
    | some msg =>
      if stringsContains msg "forbidden" then some ((none, some msg), tr1)
      else if elapsed < timeoutDuration then
        pollLoop check since timeoutDuration intervalDuration timeoutError fuel (k + 1)
          (tr1 ++ [PollEvent.sleep intervalDuration])
      else some ((none, some timeoutError), tr1)

/-- Go `time.Duration(viper.GetFloat64(config.Tests.PollingTimeout)) * time.Minute`;
`pollingTimeout` is the configured value already cut to an `int64`. -/
def timeoutDuration (pollingTimeout : Int) : Int := Duration.mul pollingTimeout Minute

/-- Go `time.Duration(interval) * time.Second`. -/
def intervalDuration (interval : Int) : Int := Duration.mul interval Second

/-- Go `pollClusterRoleBinding`: the error returned and the events. -/
def pollClusterRoleBinding (c : Kube) (pollingTimeout : Int) (clusterRoleBindingName : String)
    (fuel : Nat) : Option (Option String × List PollEvent) :=
  (pollLoop (fun k => ((), c.getClusterRoleBinding k clusterRoleBindingName)) c.since
    (timeoutDuration pollingTimeout) (intervalDuration 5)
    ("Failed to get clusterRolebinding " ++ clusterRoleBindingName ++ " before timeout")
    fuel 0 []).map (fun r => (r.1.2, r.2))

/-- Go `pollRoleBinding`: the error returned and the events. -/
def pollRoleBinding (c : Kube) (pollingTimeout : Int) (projectName roleBindingName : String)
    (fuel : Nat) : Option (Option String × List PollEvent) :=
  (pollLoop (fun k => ((), c.getRoleBinding k projectName roleBindingName)) c.since
    (timeoutDuration pollingTimeout) (intervalDuration 5)
    ("Failed to get rolebinding " ++ roleBindingName ++ " before timeout")
    fuel 0 []).map (fun r => (r.1.2, r.2))

/-- Go `pollLockFile`: the error returned and the events. -/
def pollLockFile (c : Kube) (pollingTimeout : Int) (ns operatorLockFile : String)
    (fuel : Nat) : Option (Option String × List PollEvent) :=
  (pollLoop (fun k => ((), c.getConfigMap k ns operatorLockFile)) c.since
    (timeoutDuration pollingTimeout) (intervalDuration 30)
    ("Failed to get configMap " ++ operatorLockFile ++ " before timeout")
    fuel 0 []).map (fun r => (r.1.2, r.2))

/-- Go `pollDeployment`: the deployment (nil on failure), the error, the events. -/
def pollDeployment (c : Kube) (pollingTimeout : Int) (ns deploymentName : String)
    (fuel : Nat) : Option ((Option Deployment × Option String) × List PollEvent) :=
  pollLoop (fun k => c.getDeployment k ns deploymentName) c.since
    (timeoutDuration pollingTimeout) (intervalDuration 5)
    ("Failed to get " ++ deploymentName ++ " Deployment before timeout")
    fuel 0 []

/-- The `for _, csv := range csvList.Items` loop of `pollCsvList` (lines 439-447):
every item overwrites `err`. -/
def pollCsvList.scan (csvDisplayName : String) : List CSV → Option String → Option String
  | [], err => err
  | csv :: rest, _ =>
    if csvDisplayName = csv.displayName then pollCsvList.scan csvDisplayName rest none
    else pollCsvList.scan csvDisplayName rest (some "No matching clusterServiceVersion in CSV List")

/-- One check of `pollCsvList`: the listing call followed by the scan of its items. -/
def pollCsvList.check (c : Kube) (ns csvDisplayName : String) (k : Nat) :
    List CSV × Option String :=
  let r := c.listCSV k ns
  (r.1, pollCsvList.scan csvDisplayName r.1 r.2)

/-- Go `pollCsvList`: the listing (nil on failure), the error, the events. -/
def pollCsvList (c : Kube) (pollingTimeout : Int) (ns csvDisplayName : String)
    (fuel : Nat) : Option ((Option (List CSV) × Option String) × List PollEvent) :=
  pollLoop (pollCsvList.check c ns csvDisplayName) c.since
    (timeoutDuration pollingTimeout) (intervalDuration 5)
    ("Failed to get " ++ csvDisplayName ++ " clusterServiceVersion before timeout")
    fuel 0 []


/-! ## `operators.go`: the operator upgrade -/

/-- An error of the cluster API: its text, and whether `IsNotFound` holds of it. -/
structure ApiError where
  msg : String
  notFound : Bool
  deriving DecidableEq, Repr

/-- The error `wait.ErrWaitTimeout`. -/
def ErrWaitTimeout : ApiError :=
  { msg := "timed out waiting for the condition", notFound := false }

/-- Constant `operatorv1.ApprovalManual`. -/
def ApprovalManual : String := "Manual"

/-- Constant `operatorv1.ApprovalAutomatic`. -/
def ApprovalAutomatic : String := "Automatic"

/-- Constant `operatorv1.CSVPhaseSucceeded`. -/
def CSVPhaseSucceeded : String := "Succeeded"

/-- A `SubscriptionSpec` as far as `checkUpgrade` reads and writes it. -/
structure SubscriptionSpec where
  package : String
  channel : String
  catalogSource : String
  catalogSourceNamespace : String
  installPlanApproval : String
  startingCSV : String
  deriving DecidableEq, Repr

/-- A `Subscription`: its name and namespace, its `Spec` (a pointer), and of
its status the current CSV and the names in `InstallPlanRef` and `Install`
(both pointers). -/
structure Subscription where
  name : String
  ns : String
  spec : Option SubscriptionSpec
  currentCSV : String
  installPlanRef : Option String
  install : Option String
  deriving DecidableEq, Repr

/-- An `InstallPlan`: its name and namespace and the flag `Spec.Approved`. -/
structure InstallPlan where
  name : String
  ns : String
  approved : Bool
  deriving DecidableEq, Repr

instance : Inhabited Subscription :=
  ⟨{ name := "", ns := "", spec := none, currentCSV := "", installPlanRef := none,
     install := none }⟩

instance : Inhabited InstallPlan := ⟨{ name := "", ns := "", approved := false }⟩

instance : Inhabited CSV := ⟨{ name := "", displayName := "", phase := "" }⟩

/-- A request of `checkUpgrade` to the cluster API. -/
inductive OpRequest where
  | subGet (ns name : String)
  | subDelete (ns name : String)
  | subCreate (ns : String) (body : Subscription)
  | subUpdate (ns : String) (body : Subscription)
  | csvGet (ns name : String)
  | csvDelete (ns name : String)
  | installPlanGet (ns name : String)
  | installPlanUpdate (ns : String) (body : InstallPlan)
  deriving DecidableEq, Repr

/-- The requests sent to the cluster API so far, oldest first. -/
abbrev OpHist := List OpRequest

/-- The cluster API of the operator lifecycle manager, answering from the
requests sent so far.  `runs h` is the number of further runs of its condition
that the timer of a poll started at history `h` allows after the first one. -/
structure OperatorAPI where
  subGet : OpHist → String → String → Except ApiError Subscription
  subDelete : OpHist → String → String → Option ApiError
  subCreate : OpHist → String → Subscription → Except ApiError Subscription
  subUpdate : OpHist → String → Subscription → Except ApiError Subscription
  csvGet : OpHist → String → String → Except ApiError CSV
  csvDelete : OpHist → String → String → Option ApiError
  installPlanGet : OpHist → String → String → Except ApiError InstallPlan
  installPlanUpdate : OpHist → String → InstallPlan → Except ApiError InstallPlan
  runs : OpHist → Nat

/-- What a typed client call returns: the object and the error.  The client
allocates an empty object and fills it on success only. -/
def readObj {α : Type} [Inhabited α] (r : Except ApiError α) : α × Option ApiError :=
  match r with
  | .ok a => (a, none)
  | .error e => (default, some e)

/-- The result of a Go function of `operators.go` that may also panic. -/
inductive GoResult (α : Type) where
  | ok (a : α)
  | error (e : ApiError)
  | panic
  deriving DecidableEq, Repr

/-- Go `wait.PollImmediate(interval, timeout, condition)` of
k8s.io/apimachinery: the condition runs at once and then again on every tick
of the timer, `more + 1` times at most; the poll returns the first error of the
condition, nil as soon as the condition holds, and `ErrWaitTimeout` when the
runs are used up.  `σ` is the state of the variables the condition captures. -/
def PollImmediate {σ : Type}
    (condition : σ → OpHist → ((Bool × Option ApiError) × σ) × OpHist) :
    (more : Nat) → σ → OpHist → (Option ApiError × σ) × OpHist
  | 0, s, h =>
    match condition s h with
    | (((_, some e), s1), h1) => ((some e, s1), h1)
    | (((true, none), s1), h1) => ((none, s1), h1)
    | (((false, none), s1), h1) => ((some ErrWaitTimeout, s1), h1)
  | more + 1, s, h =>
    match condition s h with
    | (((_, some e), s1), h1) => ((some e, s1), h1)
    | (((true, none), s1), h1) => ((none, s1), h1)
    | (((false, none), s1), h1) => PollImmediate condition more s1 h1

/-- Gomega `Eventually(f, timeout, interval).Should(BeTrue())`: `f` runs at once
and then again on every tick, `more + 1` times at most; the assertion holds as
soon as `f` returns true. -/
def Eventually (f : OpHist → Bool × OpHist) : (more : Nat) → OpHist → Bool × OpHist
  | 0, h => f h
  | more + 1, h =>
    match f h with
    | (true, h1) => (true, h1)
    | (false, h1) => Eventually f more h1

/-- The condition of the poll in `getInstallPlan` (lines 138-149); it captures `sub`. -/
def getInstallPlan.condition (api : OperatorAPI) (subNamespace subName : String)
    (sub : Subscription) (h : OpHist) : ((Bool × Option ApiError) × Subscription) × OpHist :=
  let r := readObj (api.subGet h subNamespace subName)
  let h1 := h ++ [OpRequest.subGet subNamespace subName]
  match r.2 with
  | some _ => (((false, none), sub), h1)
  | none =>
    if r.1.installPlanRef.isSome then (((true, none), r.1), h1)
    else (((false, none), sub), h1)

/-- Go `getInstallPlan`. -/
def getInstallPlan (api : OperatorAPI) (sub : Subscription) (h : OpHist) :
    GoResult InstallPlan × OpHist :=
  let subNamespace := sub.ns
  let subName := sub.name
  match PollImmediate (getInstallPlan.condition api subNamespace subName) (api.runs h) sub h with
  | ((some e, _), h1) => (.error e, h1)
  | ((none, sub1), h1) =>
    match sub1.installPlanRef with
    | none => (.panic, h1)
    | some ref =>
      match api.installPlanGet h1 subNamespace ref with
      | .error e => (.error e, h1 ++ [OpRequest.installPlanGet subNamespace ref])
      | .ok ip => (.ok ip, h1 ++ [OpRequest.installPlanGet subNamespace ref])

/-- Go `approveInstallPlan`. -/
def approveInstallPlan (api : OperatorAPI) (ip : InstallPlan) (h : OpHist) :
    Option ApiError × OpHist :=
  let ip1 := { ip with approved := true }
  ((readObj (api.installPlanUpdate h ip1.ns ip1)).2, h ++ [OpRequest.installPlanUpdate ip1.ns ip1])

/-- The condition of the poll in `ensureCSVIsInstalled` (lines 168-178). -/
def ensureCSVIsInstalled.condition (api : OperatorAPI) (csvName ns : String) (s : Unit)
    (h : OpHist) : ((Bool × Option ApiError) × Unit) × OpHist :=
  let r := readObj (api.csvGet h ns csvName)
  let h1 := h ++ [OpRequest.csvGet ns csvName]
  match r.2 with
  | some e =>
    if !e.notFound then (((false, some e), s), h1)
    else if r.1.phase = CSVPhaseSucceeded then (((true, none), s), h1)
    else (((false, none), s), h1)
  | none =>
    if r.1.phase = CSVPhaseSucceeded then (((true, none), s), h1)
    else (((false, none), s), h1)

/-- Go `ensureCSVIsInstalled`: the error returned (nil on success) and the requests. -/
def ensureCSVIsInstalled (api : OperatorAPI) (csvName ns : String) (h : OpHist) :
    Option ApiError × OpHist :=
  let r := PollImmediate (ensureCSVIsInstalled.condition api csvName ns) (api.runs h) () h
  (r.1.1, r.2)

/-- How a test body that did not pass ended: a failed assertion with its
text, or a runtime panic. -/
inductive Abort where
  | failed (msg : String)
  | panicked
  deriving DecidableEq, Repr

/-- The Subscription that `checkUpgrade` creates (lines 206-219) from the
Subscription `sub` read first, whose `Spec` is `spec`. -/
def checkUpgrade.recreated (spec : SubscriptionSpec) (subNamespace subName previousCSV : String) :
    Subscription :=
  { name := subName, ns := subNamespace,
    spec := some
      { package := spec.package, channel := spec.channel,
        catalogSourceNamespace := spec.catalogSourceNamespace,
        catalogSource := spec.catalogSource, installPlanApproval := ApprovalManual,
        startingCSV := previousCSV },
    currentCSV := "", installPlanRef := none, install := none }

/-- The first part of the test body of `checkUpgrade` (lines 190-220): read the
Subscription, delete it and its current CSV, wait for the InstallPlan to be
gone, and create the Subscription to the previous version.  A failed `Expect`
ends the body.  Returns the Subscription the create call returned and the
`startingCSV` recorded. -/
def checkUpgrade.reinstall (api : OperatorAPI) (subNamespace subName previousCSV : String)
    (h : OpHist) : Except Abort (Subscription × String) × OpHist :=
  let r := readObj (api.subGet h subNamespace subName)
  let h1 := h ++ [OpRequest.subGet subNamespace subName]
  match r.2 with
  | some _ => (.error (Abort.failed
      ("failed trying to get Subscription " ++ subName ++ " in " ++ subNamespace ++
        " namespace")), h1)
  | none =>
    let sub := r.1
    let startingCSV := sub.currentCSV
    let h2 := h1 ++ [OpRequest.subDelete subNamespace subName]
    match api.subDelete h1 subNamespace subName with
    | some _ => (.error (Abort.failed ("failed trying to delete Subscription " ++ subName)), h2)
    | none =>
      let h3 := h2 ++ [OpRequest.csvDelete subNamespace startingCSV]
      match api.csvDelete h2 subNamespace startingCSV with
      | some _ => (.error (Abort.failed
          ("failed trying to delete ClusterServiceVersion " ++ startingCSV)), h3)
      | none =>
        match sub.install with
        | none => (.error Abort.panicked, h3)
        | some installName =>
          match Eventually (fun h0 =>
              ((readObj (api.installPlanGet h0 subNamespace installName)).2.elim false
                (fun e => e.notFound),
                h0 ++ [OpRequest.installPlanGet subNamespace installName]))
              (api.runs h3) h3 with
          | (false, h4) => (.error (Abort.failed "installplan never garbage collected"), h4)
          | (true, h4) =>
            match sub.spec with
            | none => (.error Abort.panicked, h4)
            | some spec =>
              let body := checkUpgrade.recreated spec subNamespace subName previousCSV
              let c := readObj (api.subCreate h4 subNamespace body)
              let h5 := h4 ++ [OpRequest.subCreate subNamespace body]
              match c.2 with
              | some _ => (.error (Abort.failed
                  ("failed trying to create Subscription " ++ subName)), h5)
              | none => (.ok (c.1, startingCSV), h5)

/-- The steps "get the InstallPlan, approve it, wait for the CSV" that
`checkUpgrade` runs twice (lines 223-228 and 239-244) for the CSV `csv`. -/
def checkUpgrade.install (api : OperatorAPI) (sub : Subscription) (csv subNamespace : String)
    (h : OpHist) : Except Abort Unit × OpHist :=
  match getInstallPlan api sub h with
  | (.panic, h1) => (.error Abort.panicked, h1)
  | (.error _, h1) => (.error (Abort.failed ("Failed getting InstallPlan for CSV " ++ csv)), h1)
  | (.ok ip, h1) =>
    match approveInstallPlan api ip h1 with
    | (some _, h2) => (.error (Abort.failed ("Failed approving InstallPlan for CSV " ++ csv)), h2)
    | (none, h2) =>
      match ensureCSVIsInstalled api csv subNamespace h2 with
      | (some _, h3) => (.error (Abort.failed
          ("CSV " ++ csv ++ " did not install successfully")), h3)
      | (none, h3) => (.ok (), h3)

/-- The second part of the test body of `checkUpgrade` (lines 222-244): install
the previous version by hand, switch the Subscription to automatic approval,
and install the starting version. -/
def checkUpgrade.upgrade (api : OperatorAPI) (subNamespace subName previousCSV : String)
    (sub : Subscription) (startingCSV : String) (h : OpHist) : Except Abort Unit × OpHist :=
  match checkUpgrade.install api sub previousCSV subNamespace h with
  | (.error a, h1) => (.error a, h1)
  | (.ok _, h1) =>
    let r := readObj (api.subGet h1 subNamespace subName)
    let h2 := h1 ++ [OpRequest.subGet subNamespace subName]
    match r.2 with
    | some _ => (.error (Abort.failed
        ("Failed retrieving updated subscription for " ++ subName)), h2)
    | none =>
      match r.1.spec with
      | none => (.error Abort.panicked, h2)
      | some spec =>
        let sub1 : Subscription :=
          { r.1 with spec := some { spec with installPlanApproval := ApprovalAutomatic } }
        let u := readObj (api.subUpdate h2 subNamespace sub1)
        let h3 := h2 ++ [OpRequest.subUpdate subNamespace sub1]
        match u.2 with
        | some _ => (.error (Abort.failed
            ("Failed updating subscription to Automatic for CSV " ++ previousCSV)), h3)
        | none => checkUpgrade.install api u.1 startingCSV subNamespace h3

/-- The test body of Go `checkUpgrade`: how it ended and the requests sent. -/
def checkUpgrade (api : OperatorAPI) (subNamespace subName previousCSV : String) (h : OpHist) :
    Except Abort Unit × OpHist :=
  match checkUpgrade.reinstall api subNamespace subName previousCSV h with
  | (.error a, h1) => (.error a, h1)
  | (.ok (sub, startingCSV), h1) =>
    checkUpgrade.upgrade api subNamespace subName previousCSV sub startingCSV h1

/-! ## Calendar dates (for stating examples) -/

/-- Days from 1970-01-01 to the given day of the proleptic Gregorian calendar. -/
def daysFromCivil (year month day : Int) : Int :=
  let y := if month ≤ 2 then year - 1 else year
  let era := y / 400
  let yoe := y - era * 400
  let doy := (153 * (month + (if month > 2 then -3 else 9)) + 2) / 5 + day - 1
  let doe := yoe * 365 + yoe / 4 - yoe / 100 + doy
  era * 146097 + doe - 719468

/-- The `time.Time` written `YYYY-MM-DDThh:mm:ssZ`. -/
def utcTime (year month day hour minute second : Int) : Time :=
  { unixNano := (((daysFromCivil year month day * 24 + hour) * 60 + minute) * 60 + second) * Second,
    loc := none }

/-! ## Example providers -/

/-- A response without any error. -/
def okSent {α : Type} (a : α) : Sent α :=
  { resp := some { error := none, status := 200, body := a }, err := none }

/-- A failed `Send()`: no response, a transport error. -/
def failedSent {α : Type} (msg : String) : Sent α := { resp := none, err := some msg }

/-- A `Send()` that the provider answered with an HTTP status of 500: the
response carries the structured error, and the SDK returns that error as the
error of `Send()` too (`err = result.err`). -/
def rejectedSent {α : Type} (a : α) (reason : String) : Sent α :=
  { resp := some { error := some { reason := reason }, status := 500, body := a },
    err := some (OcmError.Error { reason := reason }) }

/-- The record a provider keeps when it applies an update request. -/
def applyRequest (c : OcmCluster) : Request → OcmCluster
  | .clusterUpdate _ body =>
    { c with
      nodesCompute := (body.nodesCompute).orElse (fun _ => c.nodesCompute),
      expirationTimestamp := (body.expirationTimestamp).orElse (fun _ => c.expirationTimestamp) }
  | _ => c

/-- The installed addon an installation request adds. -/
def addedAddon : Request → Option String
  | .addonsAdd _ body => some body.id
  | _ => none

/-- Whether a request is a cluster update. -/
def Request.isUpdate : Request → Bool
  | .clusterUpdate _ _ => true
  | _ => false

/-- Whether a request is an addon installation. -/
def Request.isInstall : Request → Bool
  | .addonsAdd _ _ => true
  | _ => false

/-- A provider without failures that applies every write: it starts from the
record `init`, the catalog `catalog` and the installed addons `installed`. -/
def honest (init : OcmCluster) (catalog : List AddOn) (installed : List String) : Provider where
  clustersAdd := fun _ c => okSent c
  clusterGet := fun h _ => okSent (h.foldl applyRequest init)
  clusterUpdate := fun h _ body =>
    okSent (applyRequest (h.foldl applyRequest init) (Request.clusterUpdate "" body))
  clusterDelete := fun _ _ => okSent ()
  credentialsGet := fun _ _ => okSent "kubeconfig"
  addonGet := fun _ addonID => okSent ((catalog.find? (fun a => a.id == addonID)).getD default)
  addonsList := fun h _ => okSent (some (installed ++ h.filterMap addedAddon))
  addonsAdd := fun _ _ _ => okSent ()
  regionsList := fun _ _ => okSent { items := [], total := 0 }
  clusterBuildError := fun _ => none
  addonBuildError := fun _ => none

/-- A cluster with three compute nodes that expires at 2024-01-01T00:00:00Z. -/
def threeNodes : OcmCluster :=
  { id := some "c1", name := some "e2e-1", nodesCompute := some 3,
    expirationTimestamp := some (utcTime 2024 1 1 0 0 0) }

/-- The provider `honest threeNodes [] []`, except that it ignores updates when
the cluster is read. -/
def forgetful : Provider :=
  { honest threeNodes [] [] with clusterGet := fun _ _ => okSent threeNodes }

/-- The provider `honest threeNodes [] []`, except that every read of the cluster
after an update fails. -/
def unreadable : Provider :=
  { honest threeNodes [] [] with
    clusterGet := fun h _ =>
      if h.any Request.isUpdate then failedSent "connection reset" else okSent threeNodes }

/-- The provider of the addon examples: the three-node cluster with addon "c"
installed, and a catalog in which "a" is enabled and "b" is not. -/
def addonProvider : Provider :=
  honest threeNodes [{ id := "a", enabled := true }, { id := "b", enabled := false }] ["c"]

/-- The three-node cluster as `GetCluster` returns it from `addonProvider`
before any installation. -/
def threeNodesRead : SpiCluster :=
  { id := "c1", name := "e2e-1", addons := ["c"],
    expirationTimestamp := utcTime 2024 1 1 0 0 0, numComputeNodes := 3 }

/-- The provider `addonProvider`, except that the catalog read of addon "x"
always fails. -/
def brokenCatalog : Provider :=
  { addonProvider with
    addonGet := fun h addonID =>
      if addonID = "x" then failedSent "timeout" else addonProvider.addonGet h addonID }

/-- The events of `n` ticks that each end in a sleep of `d`: check, sleep, ..., check, sleep. -/
def waits (d : Int) : Nat → List PollEvent
  | 0 => []
  | n + 1 => PollEvent.check :: PollEvent.sleep d :: waits d n

/-- A cluster API that answers every read with a permission error; the clock
advances five seconds per tick. -/
def deniedKube : Kube where
  getClusterRoleBinding := fun _ _ => some "clusterrolebindings is forbidden: User cannot get resource"
  getRoleBinding := fun _ _ _ => some "rolebindings is forbidden: User cannot get resource"
  getConfigMap := fun _ _ _ => some "configmaps is forbidden: User cannot get resource"
  getDeployment := fun _ _ name =>
    ({ name := name, readyReplicas := 0, replicas := 0 },
      some "deployments.apps is forbidden: User cannot get resource")
  listCSV := fun _ _ => ([], some "clusterserviceversions is forbidden: User cannot list resource")
  since := fun k => (k : Int) * (5 * Second)

/-- A cluster API on which nothing exists yet; the clock advances thirty
seconds per tick. -/
def absentKube : Kube where
  getClusterRoleBinding := fun _ _ => some "clusterrolebindings not found"
  getRoleBinding := fun _ _ _ => some "rolebindings not found"
  getConfigMap := fun _ _ _ => some "configmaps not found"
  getDeployment := fun _ _ name =>
    ({ name := name, readyReplicas := 0, replicas := 0 }, some "deployments.apps not found")
  listCSV := fun _ _ => ([], some "the server could not find the requested resource")
  since := fun k => (k : Int) * (30 * Second)

/-- A provider that answers every request with the HTTP status 500 and the
structured error "quota exceeded". -/
def rejecting : Provider where
  clustersAdd := fun _ _ => rejectedSent default "quota exceeded"
  clusterGet := fun _ _ => rejectedSent default "quota exceeded"
  clusterUpdate := fun _ _ _ => rejectedSent default "quota exceeded"
  clusterDelete := fun _ _ => rejectedSent () "quota exceeded"
  credentialsGet := fun _ _ => rejectedSent "" "quota exceeded"
  addonGet := fun _ _ => rejectedSent default "quota exceeded"
  addonsList := fun _ _ => rejectedSent none "quota exceeded"
  addonsAdd := fun _ _ _ => rejectedSent () "quota exceeded"
  regionsList := fun _ _ => rejectedSent default "quota exceeded"
  clusterBuildError := fun _ => none
  addonBuildError := fun _ => none

/-- A region list with exactly one enabled region among two disabled ones. -/
def threeRegions : List CloudRegion :=
  [{ id := "us-east-1", enabled := true }, { id := "us-west-1", enabled := false },
    { id := "eu-west-1", enabled := false }]

/-- The provider `honest threeNodes [] []` with the region list `threeRegions`. -/
def regionProvider : Provider :=
  { honest threeNodes [] [] with
    regionsList := fun _ _ => okSent { items := threeRegions, total := 3 } }

/-- A configuration whose region is the sentinel "random". -/
def randomConfig : Config :=
  { multiAZ := false, computeMachineType := "", region := "random", cloudProviderID := "aws",
    version := "", expiryInMinutes := 0, addonIDsAtCreation := "", jobID := -1,
    userOverride := "" }

/-- The region that the `j`-th draw picks from `items` when the listing reports
`items.length` as its total. -/
def drawn (items : List CloudRegion) (draws : Nat → Nat) (j : Nat) : Option CloudRegion :=
  items[draws j % items.length]?

/-- A configuration that asks for a multi-AZ cluster of machine type
"m5.xlarge" in a fixed region, run by the CI job 7. -/
def multiAZConfig : Config :=
  { multiAZ := true, computeMachineType := "m5.xlarge", region := "us-east-1",
    cloudProviderID := "aws", version := "openshift-v4.5.0", expiryInMinutes := 360,
    addonIDsAtCreation := "a,b", jobID := 7, userOverride := "" }

/-- A machine whose clock reads 2024-01-01T00:00:00Z and whose user is "dev". -/
def devHost : Host :=
  { now := utcTime 2024 1 1 0 0 0, currentUser := .ok "dev", draws := fun _ => 0 }

/-- The quotient `a / b` rounded up, for a positive `b`. -/
def ceilDiv (a b : Int) : Int := -((-a) / b)

/-- Whether tick `k` ends the loop of a poller: the check succeeds, or fails
with a "forbidden" error, or fails at an elapsed time of at least the timeout. -/
def stopsAt {α : Type} (check : Nat → α × Option String) (since : Nat → Int) (T : Int)
    (k : Nat) : Bool :=
  match (check k).2 with
  | none => true
  | some msg => stringsContains msg "forbidden" || decide (T ≤ since k)

/-- What a poller returns when tick `k` ends its loop: the value of a
successful check, the error of a "forbidden" check, or the timeout error. -/
def tickResult {α : Type} (check : Nat → α × Option String) (timeoutError : String)
    (k : Nat) : Option α × Option String :=
  match (check k).2 with
  | none => (some (check k).1, none)
  | some msg => if stringsContains msg "forbidden" then (none, some msg)
    else (none, some timeoutError)

/-- A clock on which the first reading is not negative and every tick (a check
and the sleep before it) advances the elapsed time by at least `I`. -/
def Advances (since : Nat → Int) (I : Int) : Prop :=
  0 ≤ since 0 ∧ ∀ k, since k + I ≤ since (k + 1)

/-- A run (by fuel) ends at the first tick `n` that ends the loop, with that
tick's result seen through `proj`, after `n` sleeps of `I` and `n + 1` checks,
and `n` is at most `ceil(T / I)`, or 0 when that is negative. -/
def EndsWithin {α β : Type} (check : Nat → α × Option String) (since : Nat → Int) (T I : Int)
    (timeoutError : String) (proj : Option α × Option String → β)
    (run : Nat → Option (β × List PollEvent)) : Prop :=
  ∃ n : Nat, (n : Int) ≤ max (ceilDiv T I) 0 ∧ stopsAt check since T n = true ∧
    (∀ j, j < n → stopsAt check since T j = false) ∧
    ∀ fuel, n < fuel →
      run fuel = some (proj (tickResult check timeoutError n), waits I n ++ [PollEvent.check])

/-- A cluster API whose listing of cluster service versions succeeds and is
empty; the clock advances five seconds per tick. -/
def emptyListingKube : Kube :=
  { absentKube with listCSV := fun _ _ => ([], none), since := fun k => (k : Int) * (5 * Second) }

/-- A cluster API whose listing holds the wanted operator first and another
one last. -/
def lastOtherKube : Kube :=
  { emptyListingKube with
    listCSV := fun _ _ =>
      ([{ name := "op.v1", displayName := "operator", phase := "Succeeded" },
        { name := "other.v1", displayName := "other", phase := "Succeeded" }], none) }

/-- Whether a request creates a Subscription. -/
def OpRequest.isCreate : OpRequest → Bool
  | .subCreate _ _ => true
  | _ => false

/-- A computation on the request history only appends requests, and none that
creates a Subscription. -/
def NoCreate {β : Type} (f : OpHist → β × OpHist) : Prop :=
  ∀ h, ∃ t, (f h).2 = h ++ t ∧ ∀ r, r ∈ t → r.isCreate = false

/-- An operator "op" installed from the catalog "cat", as every read of the
Subscription returns it. -/
def opSubscription : Subscription :=
  { name := "op", ns := "ns",
    spec := some
      { package := "op-pkg", channel := "stable", catalogSource := "cat",
        catalogSourceNamespace := "cat-ns", installPlanApproval := ApprovalAutomatic,
        startingCSV := "" },
    currentCSV := "op.v2", installPlanRef := some "plan-new", install := some "plan-old" }

/-- A cluster API on which the upgrade goes through: the old InstallPlan is
gone, every other object is there, every write is accepted, and a CSV is read
as not found twice before it is read with the phase "Succeeded". -/
def smoothAPI : OperatorAPI where
  subGet := fun _ _ _ => .ok opSubscription
  subDelete := fun _ _ _ => none
  subCreate := fun _ _ body => .ok { body with installPlanRef := some "plan-new" }
  subUpdate := fun _ _ body => .ok body
  csvGet := fun h ns name =>
    if h.count (OpRequest.csvGet ns name) < 2 then
      .error { msg := "clusterserviceversions not found", notFound := true }
    else .ok { name := name, displayName := "operator", phase := CSVPhaseSucceeded }
  csvDelete := fun _ _ _ => none
  installPlanGet := fun _ ns name =>
    if name = "plan-old" then .error { msg := "installplans not found", notFound := true }
    else .ok { name := name, ns := ns, approved := false }
  installPlanUpdate := fun _ _ body => .ok body
  runs := fun _ => 5

/-- The contract of the SDK's `Send()`: when the response carries a structured
error (an HTTP status of 400 or more), `Send()` returns that error as its error
as well (`err = result.err`). -/
def Sent.Conforms {α : Type} (s : Sent α) : Prop :=
  ∀ e, Resp.Error s.resp = some e → s.err = some e.Error

/-- Every `Send()` of the provider keeps the contract `Sent.Conforms`, whatever
was sent before. -/
structure SendContract (w : Provider) : Prop where
  clustersAdd : ∀ h body, (w.clustersAdd h body).Conforms
  clusterGet : ∀ h clusterID, (w.clusterGet h clusterID).Conforms
  clusterUpdate : ∀ h clusterID body, (w.clusterUpdate h clusterID body).Conforms
  clusterDelete : ∀ h clusterID, (w.clusterDelete h clusterID).Conforms
  credentialsGet : ∀ h clusterID, (w.credentialsGet h clusterID).Conforms
  addonGet : ∀ h addonID, (w.addonGet h addonID).Conforms
  addonsList : ∀ h clusterID, (w.addonsList h clusterID).Conforms
  addonsAdd : ∀ h clusterID body, (w.addonsAdd h clusterID body).Conforms

/-- A `Send()` that succeeded: no transport error and no structured error. -/
def Sent.Succeeded {α : Type} (s : Sent α) : Prop := s.err = none ∧ Resp.Error s.resp = none

/-- All calls that `InstallAddons` makes succeed, whatever was sent before: the
catalog read, the cluster read, the addon listing, the installation write, and
the build of the installation request. -/
structure AllSucceed (w : Provider) : Prop where
  addonGet : ∀ h addonID, (w.addonGet h addonID).Succeeded
  clusterGet : ∀ h clusterID, (w.clusterGet h clusterID).Succeeded
  addonsList : ∀ h clusterID, (w.addonsList h clusterID).Succeeded
  addonsAdd : ∀ h clusterID body, (w.addonsAdd h clusterID body).Succeeded
  build : ∀ addon, w.addonBuildError addon = none

/-! ## The retry executor -/

/-- A retried operation that returned no error ended on an attempt that
returned no error. -/
theorem retryDo_ok {ρ : Type} (op : Hist → (ρ × Option Err) × Hist) :
    ∀ (more made : Nat) (h h1 : Hist) (r : ρ),
      retryDo op more made h = ((r, none), h1) → ∃ h0, op h0 = ((r, none), h1) := by
  intro more
  induction more with
  | zero =>
    intro made h h1 r hd
    refine ⟨h, ?_⟩
    unfold retryDo at hd
    split at hd
    · exact hd ▸ (by assumption)
    · simp at hd
  | succ n ih =>
    intro made h h1 r hd
    unfold retryDo at hd
    split at hd
    · exact ⟨h, hd ▸ (by assumption)⟩
    · exact ih _ _ _ _ hd

/-- An operation that sends the one request `q` per attempt sends it between
one and `more + 1` times under the retry executor, and nothing else. -/
theorem retryDo_hist {ρ : Type} (op : Hist → (ρ × Option Err) × Hist) (q : Request)
    (hop : ∀ h, (op h).2 = h ++ [q]) :
    ∀ (more made : Nat) (h : Hist),
      ∃ k, 1 ≤ k ∧ k ≤ more + 1 ∧ (retryDo op more made h).2 = h ++ List.replicate k q := by
  intro more
  induction more with
  | zero =>
    intro made h
    refine ⟨1, le_refl _, le_refl _, ?_⟩
    have := hop h
    unfold retryDo
    split <;> simp_all
  | succ n ih =>
    intro made h
    have h1 := hop h
    unfold retryDo
    split
    · refine ⟨1, le_refl _, by omega, ?_⟩
      simp_all
    · rename_i r e h2 heq
      obtain ⟨k, hk1, hk2, hk⟩ := ih (made + 1) h2
      refine ⟨k + 1, by omega, by omega, ?_⟩
      rw [hk]
      rw [heq] at h1
      simp only at h1
      rw [h1, List.replicate_succ]
      simp

/-- An operation whose first attempt returns no error is run once. -/
theorem retryDo_first {ρ : Type} (op : Hist → (ρ × Option Err) × Hist)
    (more made : Nat) (h h1 : Hist) (r : ρ) (hop : op h = ((r, none), h1)) :
    retryDo op more made h = ((r, none), h1) := by
  cases more <;> simp [retryDo, hop]


/-! ## Submit, then verify -/

/-- A response with `resp != nil && resp.Error() != nil` false has no structured error. -/
theorem Resp.Error_eq_none_of_guard {α : Type} (r : Option (Resp α))
    (hg : ¬ ((r.isSome && (Resp.Error r).isSome) = true)) : Resp.Error r = none := by
  cases r with
  | none => rfl
  | some x =>
    cases hx : x.error with
    | none => simp [Resp.Error, hx]
    | some e => simp [Resp.Error, hx] at hg

/-- An update attempt that returns no error leaves a response without structured error. -/
theorem updateAttempt_ok (w : Provider) (clusterID : String) (body : OcmCluster)
    (h0 h2 : Hist) (resp : Option (Resp OcmCluster))
    (ha : updateAttempt w clusterID body h0 = ((resp, none), h2)) : Resp.Error resp = none := by
  unfold updateAttempt at ha
  simp only at ha
  split at ha
  · simp at ha
  · split at ha
    · rename_i hg
      simp only [Prod.mk.injEq] at ha
      obtain ⟨⟨-, he⟩, -⟩ := ha
      cases hx : Resp.Error (w.clusterUpdate h0 clusterID body).resp with
      | none => simp [hx] at hg
      | some e => simp [hx, errResp] at he
    · rename_i hg
      simp only [Prod.mk.injEq] at ha
      obtain ⟨⟨hr, -⟩, -⟩ := ha
      exact hr ▸ Resp.Error_eq_none_of_guard _ hg

/-- An acknowledged (retried) update leaves a response without structured error. -/
theorem update_acknowledged (w : Provider) (p : RetryPolicy) (clusterID : String)
    (body : OcmCluster) (h1 h2 : Hist) (resp : Option (Resp OcmCluster))
    (hd : p.Do (updateAttempt w clusterID body) h1 = ((resp, none), h2)) :
    Resp.Error resp = none := by
  obtain ⟨h0, ha⟩ := retryDo_ok _ _ _ _ _ _ hd
  exact updateAttempt_ok w clusterID body h0 h2 resp ha

/-- `ScaleCluster` after an acknowledged update: one `GetCluster`, then the comparison. -/
theorem ScaleCluster_after_ack (w : Provider) (p : RetryPolicy) (clusterID : String)
    (h : Hist) (numComputeNodes : Int) (ocmCluster : OcmCluster) (h1 h2 : Hist)
    (resp : Option (Resp OcmCluster))
    (hread : getOCMCluster w p clusterID h = (.ok ocmCluster, h1))
    (hne : numComputeNodes ≠ ocmCluster.Compute)
    (hbuild : w.clusterBuildError { nodesCompute := some numComputeNodes } = none)
    (hack : p.Do (updateAttempt w clusterID { nodesCompute := some numComputeNodes }) h1
      = ((resp, none), h2)) :
    ScaleCluster w p clusterID numComputeNodes h =
      match GetCluster w p clusterID h2 with
      | (.error _, h3) => (.panic, h3)
      | (.ok finalCluster, h3) =>
        if finalCluster.numComputeNodes ≠ numComputeNodes then
          (.error (Err.computeNodesNotReflected numComputeNodes finalCluster.numComputeNodes), h3)
        else (.ok (), h3) := by
  have herr := update_acknowledged w p clusterID _ h1 h2 resp hack
  unfold ScaleCluster
  simp only [hread, if_neg hne, hbuild, hack, herr]

/-- `ExtendExpiry` after an acknowledged update: one `GetCluster`, then the comparison. -/
theorem ExtendExpiry_after_ack (w : Provider) (p : RetryPolicy) (clusterID : String)
    (h : Hist) (hours minutes seconds : Nat) (ocmCluster : OcmCluster) (cluster : SpiCluster)
    (h1 h2 h3 : Hist) (resp : Option (Resp OcmCluster)) (target : Time)
    (hread : getOCMCluster w p clusterID h = (.ok ocmCluster, h1))
    (htrans : ocmToSPICluster w p ocmCluster h1 = (.ok cluster, h2))
    (htarget : target = ExtendExpiry.target cluster.expirationTimestamp hours minutes seconds)
    (hbuild : w.clusterBuildError { expirationTimestamp := some target } = none)
    (hack : p.Do (updateAttempt w clusterID { expirationTimestamp := some target }) h2
      = ((resp, none), h3)) :
    ExtendExpiry w p clusterID hours minutes seconds h =
      match GetCluster w p clusterID h3 with
      | (.error _, h4) => (.panic, h4)
      | (.ok finalCluster, h4) =>
        if finalCluster.expirationTimestamp ≠ target then
          (.error (Err.expirationNotReflected target finalCluster.expirationTimestamp), h4)
        else (.ok (), h4) := by
  have herr := update_acknowledged w p clusterID _ h2 h3 resp hack
  subst htarget
  unfold ExtendExpiry
  simp only [hread, htrans, hbuild, hack, herr]


/-- C1: for `ScaleCluster` and `ExtendExpiry`, once the initial read has succeeded
and the retried update has been acknowledged, the operation runs `GetCluster`
exactly once (its requests are the last ones sent), returns success if and only
if that read returned a cluster whose value (compute-node count, expiration
timestamp) equals the target, and returns the verification-mismatch error
whenever the read returned a different value. -/
theorem verify_after_acknowledged_update (w : Provider) (p : RetryPolicy) (clusterID : String)
    (h : Hist) :
    (∀ (numComputeNodes : Int) (ocmCluster : OcmCluster) (h1 h2 : Hist)
        (resp : Option (Resp OcmCluster)),
      getOCMCluster w p clusterID h = (.ok ocmCluster, h1) →
      numComputeNodes ≠ ocmCluster.Compute →
      w.clusterBuildError { nodesCompute := some numComputeNodes } = none →
      p.Do (updateAttempt w clusterID { nodesCompute := some numComputeNodes }) h1
        = ((resp, none), h2) →
      (ScaleCluster w p clusterID numComputeNodes h).2 = (GetCluster w p clusterID h2).2 ∧
      ((ScaleCluster w p clusterID numComputeNodes h).1 = .ok () ↔
        ∃ fc, (GetCluster w p clusterID h2).1 = .ok fc ∧ fc.numComputeNodes = numComputeNodes) ∧
      (∀ fc, (GetCluster w p clusterID h2).1 = .ok fc → fc.numComputeNodes ≠ numComputeNodes →
        (ScaleCluster w p clusterID numComputeNodes h).1 =
          .error (Err.computeNodesNotReflected numComputeNodes fc.numComputeNodes))) ∧
    (∀ (hours minutes seconds : Nat) (ocmCluster : OcmCluster) (cluster : SpiCluster)
        (h1 h2 h3 : Hist) (resp : Option (Resp OcmCluster)) (target : Time),
      getOCMCluster w p clusterID h = (.ok ocmCluster, h1) →
      ocmToSPICluster w p ocmCluster h1 = (.ok cluster, h2) →
      target = ExtendExpiry.target cluster.expirationTimestamp hours minutes seconds →
      w.clusterBuildError { expirationTimestamp := some target } = none →
      p.Do (updateAttempt w clusterID { expirationTimestamp := some target }) h2
        = ((resp, none), h3) →
      (ExtendExpiry w p clusterID hours minutes seconds h).2 = (GetCluster w p clusterID h3).2 ∧
      ((ExtendExpiry w p clusterID hours minutes seconds h).1 = .ok () ↔
        ∃ fc, (GetCluster w p clusterID h3).1 = .ok fc ∧ fc.expirationTimestamp = target) ∧
      (∀ fc, (GetCluster w p clusterID h3).1 = .ok fc → fc.expirationTimestamp ≠ target →
        (ExtendExpiry w p clusterID hours minutes seconds h).1 =
          .error (Err.expirationNotReflected target fc.expirationTimestamp))) := by
  constructor
  · intro n c h1 h2 resp hread hne hbuild hack
    rw [ScaleCluster_after_ack w p clusterID h n c h1 h2 resp hread hne hbuild hack]
    rcases hg : GetCluster w p clusterID h2 with ⟨r, h3⟩
    cases r with
    | error e => simp
    | ok fc =>
      by_cases hv : fc.numComputeNodes = n
      · simp [hv]
      · simp only [ne_eq, hv, not_false_eq_true, if_true, Except.ok.injEq, true_and]
        refine ⟨?_, ?_⟩
        · constructor
          · intro hc; cases hc
          · rintro ⟨fc1, rfl, hfc⟩; exact absurd hfc hv
        · rintro fc1 rfl _; rfl
  · intro hours minutes seconds c cluster h1 h2 h3 resp target hread htrans htarget hbuild hack
    rw [ExtendExpiry_after_ack w p clusterID h hours minutes seconds c cluster h1 h2 h3 resp
      target hread htrans htarget hbuild hack]
    rcases hg : GetCluster w p clusterID h3 with ⟨r, h4⟩
    cases r with
    | error e => simp
    | ok fc =>
      by_cases hv : fc.expirationTimestamp = target
      · simp [hv]
      · simp only [ne_eq, hv, not_false_eq_true, if_true, Except.ok.injEq, true_and]
        refine ⟨?_, ?_⟩
        · constructor
          · intro hc; cases hc
          · rintro ⟨fc1, rfl, hfc⟩; exact absurd hfc hv
        · rintro fc1 rfl _; rfl


/-- Witness of C1: on the provider that applies every write, scaling the
three-node cluster to 5 and extending its expiry by 2h30m are verified; on the
provider that ignores updates, both end in the verification-mismatch error. -/
theorem verify_after_acknowledged_update_witness :
    (ScaleCluster (honest threeNodes [] []) ⟨2⟩ "c1" 5 []).1 = .ok () ∧
    (ScaleCluster forgetful ⟨2⟩ "c1" 5 []).1 = .error (Err.computeNodesNotReflected 5 3) ∧
    (ExtendExpiry (honest threeNodes [] []) ⟨2⟩ "c1" 2 30 0 []).1 = .ok () ∧
    (ExtendExpiry forgetful ⟨2⟩ "c1" 0 0 1 []).1 =
      .error (Err.expirationNotReflected (utcTime 2024 1 1 0 0 1) (utcTime 2024 1 1 0 0 0)) :=
  ⟨((verify_after_acknowledged_update (honest threeNodes [] []) ⟨2⟩ "c1" []).1 5 threeNodes
      [Request.clusterGet "c1"]
      [Request.clusterGet "c1", Request.clusterUpdate "c1" { nodesCompute := some 5 }]
      _ rfl (by decide) rfl rfl).2.1.mpr ⟨_, rfl, rfl⟩,
   ((verify_after_acknowledged_update forgetful ⟨2⟩ "c1" []).1 5 threeNodes
      [Request.clusterGet "c1"]
      [Request.clusterGet "c1", Request.clusterUpdate "c1" { nodesCompute := some 5 }]
      _ rfl (by decide) rfl rfl).2.2 _ rfl (by decide),
   ((verify_after_acknowledged_update (honest threeNodes [] []) ⟨2⟩ "c1" []).2 2 30 0 threeNodes
      _ [Request.clusterGet "c1"] [Request.clusterGet "c1", Request.addonsList "c1"] _ _ _
      rfl rfl rfl rfl rfl).2.1.mpr ⟨_, rfl, rfl⟩,
   ((verify_after_acknowledged_update forgetful ⟨2⟩ "c1" []).2 0 0 1 threeNodes
      _ [Request.clusterGet "c1"] [Request.clusterGet "c1", Request.addonsList "c1"] _ _ _
      rfl rfl rfl rfl rfl).2.2 _ rfl (by decide)⟩


/-! ## Scaling to the current size -/

/-- The reads of `getOCMCluster` are between one and `more + 1` cluster reads,
and nothing else. -/
theorem getOCMCluster_hist (w : Provider) (p : RetryPolicy) (clusterID : String) (h : Hist) :
    ∃ k, 1 ≤ k ∧ k ≤ p.more + 1 ∧
      (getOCMCluster w p clusterID h).2 = h ++ List.replicate k (Request.clusterGet clusterID) := by
  obtain ⟨k, hk1, hk2, hk⟩ := retryDo_hist (getOCMCluster.attempt w clusterID)
    (Request.clusterGet clusterID)
    (by intro h0; unfold getOCMCluster.attempt; simp only; split <;> [rfl; (split <;> rfl)])
    p.more 0 h
  refine ⟨k, hk1, hk2, ?_⟩
  unfold getOCMCluster RetryPolicy.Do
  rw [← hk]
  split
  · simp_all
  · split <;> simp_all

/-- C2: if the initial read of the cluster succeeds and reports a compute-node
count equal to the desired one, `ScaleCluster` returns success, and the
requests it has sent are the cluster reads of that initial read only: the
number of update requests in the history is unchanged. -/
theorem ScaleCluster_same_size_sends_no_update (w : Provider) (p : RetryPolicy)
    (clusterID : String) (numComputeNodes : Int) (h h1 : Hist) (ocmCluster : OcmCluster)
    (hread : getOCMCluster w p clusterID h = (.ok ocmCluster, h1))
    (hsame : ocmCluster.Compute = numComputeNodes) :
    ScaleCluster w p clusterID numComputeNodes h = (.ok (), h1) ∧
    (∃ k, 1 ≤ k ∧ k ≤ p.more + 1 ∧ h1 = h ++ List.replicate k (Request.clusterGet clusterID)) ∧
    h1.countP Request.isUpdate = h.countP Request.isUpdate := by
  obtain ⟨k, hk1, hk2, hk⟩ := getOCMCluster_hist w p clusterID h
  rw [hread] at hk
  simp only at hk
  refine ⟨?_, ⟨k, hk1, hk2, hk⟩, ?_⟩
  · unfold ScaleCluster
    simp [hread, hsame]
  · rw [hk, List.countP_append, List.countP_replicate]
    simp [Request.isUpdate]

/-- Witness of C2: scaling the three-node cluster to 3 succeeds after a single
cluster read and sends no update. -/
theorem ScaleCluster_same_size_sends_no_update_witness :
    ScaleCluster (honest threeNodes [] []) ⟨2⟩ "c1" 3 [] = (.ok (), [Request.clusterGet "c1"]) ∧
    [Request.clusterGet "c1"].countP Request.isUpdate = 0 :=
  have hw := ScaleCluster_same_size_sends_no_update (honest threeNodes [] []) ⟨2⟩ "c1" 3 []
    [Request.clusterGet "c1"] threeNodes rfl rfl
  ⟨hw.1, hw.2.2⟩

/-! ## A failed verification read -/

/-- Whenever the update is acknowledged and the verification read fails,
`ScaleCluster` and `ExtendExpiry` do not return: the error is dropped and the
nil cluster is dereferenced. -/
theorem failed_verification_read_panics (w : Provider) (p : RetryPolicy) (clusterID : String)
    (h h1 h2 : Hist) (ocmCluster : OcmCluster) (resp : Option (Resp OcmCluster)) (e : Err)
    (hread : getOCMCluster w p clusterID h = (.ok ocmCluster, h1)) :
    (∀ numComputeNodes : Int, numComputeNodes ≠ ocmCluster.Compute →
      w.clusterBuildError { nodesCompute := some numComputeNodes } = none →
      p.Do (updateAttempt w clusterID { nodesCompute := some numComputeNodes }) h1
        = ((resp, none), h2) →
      (GetCluster w p clusterID h2).1 = .error e →
      (ScaleCluster w p clusterID numComputeNodes h).1 = .panic) ∧
    (∀ (hours minutes seconds : Nat) (cluster : SpiCluster) (h3 : Hist) (target : Time),
      ocmToSPICluster w p ocmCluster h1 = (.ok cluster, h2) →
      target = ExtendExpiry.target cluster.expirationTimestamp hours minutes seconds →
      w.clusterBuildError { expirationTimestamp := some target } = none →
      p.Do (updateAttempt w clusterID { expirationTimestamp := some target }) h2
        = ((resp, none), h3) →
      (GetCluster w p clusterID h3).1 = .error e →
      (ExtendExpiry w p clusterID hours minutes seconds h).1 = .panic) := by
  constructor
  · intro n hne hbuild hack hfail
    rw [ScaleCluster_after_ack w p clusterID h n ocmCluster h1 h2 resp hread hne hbuild hack]
    rcases hg : GetCluster w p clusterID h2 with ⟨r, h3⟩
    rw [hg] at hfail
    simp only at hfail
    subst hfail
    rfl
  · intro hours minutes seconds cluster h3 target htrans htarget hbuild hack hfail
    rw [ExtendExpiry_after_ack w p clusterID h hours minutes seconds ocmCluster cluster h1 h2 h3
      resp target hread htrans htarget hbuild hack]
    rcases hg : GetCluster w p clusterID h3 with ⟨r, h4⟩
    rw [hg] at hfail
    simp only at hfail
    subst hfail
    rfl

/-- C9 (the code at the failing input): on the provider whose cluster reads fail
after an update, the update is acknowledged and the verification read returns
an error, yet neither `ScaleCluster` nor `ExtendExpiry` returns an error: both
go on to dereference the nil cluster. -/
theorem verification_read_error_is_not_returned :
    (GetCluster unreadable ⟨2⟩ "c1"
      [Request.clusterGet "c1", Request.clusterUpdate "c1" { nodesCompute := some 5 }]).1 =
      .error (Err.retriesExhausted 3
        (Err.couldntRetrieveCluster "c1" (Err.transport "connection reset"))) ∧
    (ScaleCluster unreadable ⟨2⟩ "c1" 5 []).1 = .panic ∧
    (ExtendExpiry unreadable ⟨2⟩ "c1" 2 30 0 []).1 = .panic :=
  ⟨rfl, rfl, rfl⟩


/-! ## The extended expiration -/

/-- The duration of `u` units of `unit` nanoseconds is exact while the product
fits an `int64`. -/
theorem Duration_exact (u : Nat) (unit bound : Int) (hunit : 0 ≤ unit)
    (hu : (u : Int) ≤ bound) (hb : bound * unit < 2 ^ 63) (hb64 : bound < 2 ^ 63) :
    Duration.mul (Duration.ofUInt64 u) unit = u * unit := by
  have h0 : (0 : Int) ≤ u := Int.ofNat_nonneg u
  have h1 : Duration.ofUInt64 u = u := by
    unfold Duration.ofUInt64 wrapInt64
    have : ((u : Int) % 2 ^ 64) = u := Int.emod_eq_of_lt h0 (by omega)
    rw [this]
    have : ((u : Int) + 2 ^ 63) % 2 ^ 64 = u + 2 ^ 63 := Int.emod_eq_of_lt (by omega) (by omega)
    rw [this]; ring
  rw [h1]
  unfold Duration.mul wrapInt64
  have h2 : (u : Int) * unit ≤ bound * unit := Int.mul_le_mul_of_nonneg_right hu hunit
  have h3 : 0 ≤ (u : Int) * unit := Int.mul_nonneg h0 hunit
  have : ((u : Int) * unit + 2 ^ 63) % 2 ^ 64 = u * unit + 2 ^ 63 :=
    Int.emod_eq_of_lt (by omega) (by omega)
  rw [this]; ring


/-- The listing calls of `ocmToSPICluster` are between one and `more + 1` addon
listings, and nothing else. -/
theorem ocmToSPICluster_hist (w : Provider) (p : RetryPolicy) (c : OcmCluster) (h : Hist) :
    ∃ k, 1 ≤ k ∧ k ≤ p.more + 1 ∧
      (ocmToSPICluster w p c h).2 = h ++ List.replicate k (Request.addonsList c.ID) := by
  obtain ⟨k, hk1, hk2, hk⟩ := retryDo_hist (ocmToSPICluster.attempt w c)
    (Request.addonsList c.ID)
    (by intro h0; unfold ocmToSPICluster.attempt; simp only; split <;> [rfl; (split <;> rfl)])
    p.more 0 h
  refine ⟨k, hk1, hk2, ?_⟩
  unfold ocmToSPICluster RetryPolicy.Do
  rw [← hk]
  simp only
  split
  · simp_all
  · split <;> simp_all

/-- The requests of `GetCluster` extend the history. -/
theorem GetCluster_hist (w : Provider) (p : RetryPolicy) (clusterID : String) (h : Hist) :
    ∃ t, (GetCluster w p clusterID h).2 = h ++ t := by
  obtain ⟨k, -, -, hk⟩ := getOCMCluster_hist w p clusterID h
  unfold GetCluster
  rcases hg : getOCMCluster w p clusterID h with ⟨r, h1⟩
  rw [hg] at hk
  simp only at hk
  cases r with
  | error e => exact ⟨_, hk⟩
  | ok c =>
    obtain ⟨j, -, -, hj⟩ := ocmToSPICluster_hist w p c h1
    simp only
    rcases ho : ocmToSPICluster w p c h1 with ⟨r2, h2⟩
    rw [ho] at hj
    simp only at hj
    cases r2 <;> exact ⟨_, by simp only [hj, hk, List.append_assoc]; rfl⟩

/-- The requests of a retried update are between one and `more + 1` copies of
the update, and nothing else. -/
theorem update_hist (w : Provider) (p : RetryPolicy) (clusterID : String) (body : OcmCluster)
    (h : Hist) :
    ∃ k, 1 ≤ k ∧ k ≤ p.more + 1 ∧ (p.Do (updateAttempt w clusterID body) h).2 =
      h ++ List.replicate k (Request.clusterUpdate clusterID body) :=
  retryDo_hist (updateAttempt w clusterID body) (Request.clusterUpdate clusterID body)
    (by intro h0; unfold updateAttempt; simp only; split <;> [rfl; (split <;> rfl)])
    p.more 0 h

/-- After a successful initial read and build, the first request `ExtendExpiry`
sends is the update that carries the computed timestamp. -/
theorem ExtendExpiry_submits (w : Provider) (p : RetryPolicy) (clusterID : String)
    (hours minutes seconds : Nat) (h h1 h2 : Hist) (ocmCluster : OcmCluster)
    (cluster : SpiCluster) (target : Time)
    (hread : getOCMCluster w p clusterID h = (.ok ocmCluster, h1))
    (htrans : ocmToSPICluster w p ocmCluster h1 = (.ok cluster, h2))
    (htarget : target = ExtendExpiry.target cluster.expirationTimestamp hours minutes seconds)
    (hbuild : w.clusterBuildError { expirationTimestamp := some target } = none) :
    ∃ rest, (ExtendExpiry w p clusterID hours minutes seconds h).2 =
      h2 ++ Request.clusterUpdate clusterID { expirationTimestamp := some target } :: rest := by
  obtain ⟨k, hk1, -, hk⟩ := update_hist w p clusterID { expirationTimestamp := some target } h2
  obtain ⟨k, rfl⟩ : ∃ j, k = j + 1 := ⟨k - 1, by omega⟩
  rw [List.replicate_succ] at hk
  unfold ExtendExpiry
  simp only [hread, htrans, ← htarget, hbuild]
  rcases hd : p.Do (updateAttempt w clusterID { expirationTimestamp := some target }) h2
    with ⟨⟨resp, e⟩, h3⟩
  rw [hd] at hk
  simp only at hk
  cases e with
  | some e => exact ⟨_, hk⟩
  | none =>
    simp only
    cases Resp.Error resp with
    | some e => exact ⟨_, hk⟩
    | none =>
      simp only
      obtain ⟨t, ht⟩ := GetCluster_hist w p clusterID h3
      rcases hg : GetCluster w p clusterID h3 with ⟨r, h4⟩
      rw [hg] at ht
      simp only at ht
      subst ht hk
      have hw : ∃ rest, h2 ++ Request.clusterUpdate clusterID { expirationTimestamp := some target }
          :: List.replicate k (Request.clusterUpdate clusterID { expirationTimestamp := some target })
          ++ t = h2 ++ Request.clusterUpdate clusterID { expirationTimestamp := some target } :: rest :=
        ⟨List.replicate k (Request.clusterUpdate clusterID { expirationTimestamp := some target })
          ++ t, by simp⟩
      cases r with
      | error e => exact hw
      | ok fc =>
        simp only
        split <;> exact hw

/-- C3 (amended): while each offset fits a `time.Duration` (an `int64` of
nanoseconds: hours ≤ 2562047, minutes ≤ 153722867, seconds ≤ 9223372036), the
timestamp `ExtendExpiry` computes from the current expiration `t` is `t` plus
`3600*hours + 60*minutes + seconds` seconds (a zero component adds nothing), in
UTC as soon as one component is not zero; it is the timestamp of the update
that is sent; and 2024-01-01T00:00:00Z extended by 2h30m0s is
2024-01-01T02:30:00Z. -/
theorem ExtendExpiry_target_exact (t : Time) (hours minutes seconds : Nat)
    (hh : hours ≤ 2562047) (hm : minutes ≤ 153722867) (hs : seconds ≤ 9223372036) :
    ExtendExpiry.target t hours minutes seconds =
      { unixNano := t.unixNano + (3600 * hours + 60 * minutes + seconds) * Second,
        loc := if hours = 0 ∧ minutes = 0 ∧ seconds = 0 then t.loc else none } ∧
    ExtendExpiry.target (utcTime 2024 1 1 0 0 0) 2 30 0 = utcTime 2024 1 1 2 30 0 ∧
    ∀ (w : Provider) (p : RetryPolicy) (clusterID : String) (h h1 h2 : Hist)
      (ocmCluster : OcmCluster) (cluster : SpiCluster),
      getOCMCluster w p clusterID h = (.ok ocmCluster, h1) →
      ocmToSPICluster w p ocmCluster h1 = (.ok cluster, h2) →
      cluster.expirationTimestamp = t →
      w.clusterBuildError { expirationTimestamp := some (ExtendExpiry.target t hours minutes seconds) }
        = none →
      ∃ rest, (ExtendExpiry w p clusterID hours minutes seconds h).2 =
        h2 ++ Request.clusterUpdate clusterID
          { expirationTimestamp := some (ExtendExpiry.target t hours minutes seconds) } :: rest := by
  refine ⟨?_, by decide, ?_⟩
  · have eh := Duration_exact hours Hour 2562047 (by decide) (by exact_mod_cast hh)
      (by decide) (by decide)
    have em := Duration_exact minutes Minute 153722867 (by decide) (by exact_mod_cast hm)
      (by decide) (by decide)
    have es := Duration_exact seconds Second 9223372036 (by decide) (by exact_mod_cast hs)
      (by decide) (by decide)
    unfold ExtendExpiry.target
    rw [eh, em, es]
    by_cases h0 : hours = 0 <;> by_cases m0 : minutes = 0 <;> by_cases s0 : seconds = 0 <;>
      simp [h0, m0, s0, Time.Add, Time.UTC, Hour, Minute, Second] <;> ring
  · intro w p clusterID h h1 h2 ocmCluster cluster hread htrans ht hbuild
    exact ExtendExpiry_submits w p clusterID hours minutes seconds h h1 h2 ocmCluster cluster _
      hread htrans (by rw [ht]) hbuild


/-- Witness of C3 (amended): 2024-01-01T00:00:00Z extended by 2h30m15s. -/
theorem ExtendExpiry_target_exact_witness :
    ExtendExpiry.target (utcTime 2024 1 1 0 0 0) 2 30 15 = utcTime 2024 1 1 2 30 15 :=
  (ExtendExpiry_target_exact (utcTime 2024 1 1 0 0 0) 2 30 15 (by decide) (by decide)
    (by decide)).1.trans (by decide)

/-- Counterexample to C3 as stated: 2562048 is an unsigned 64-bit number of
hours, yet `time.Duration(2562048) * time.Hour` wraps to a negative duration,
and the timestamp computed, and sent to the provider, lies about 292 years
before the current expiration instead of 292 years after it. -/
theorem ExtendExpiry_target_wraps :
    2562048 < 2 ^ 64 ∧
    ExtendExpiry.target (utcTime 2024 1 1 0 0 0) 2562048 0 0 =
      { unixNano := (utcTime 2024 1 1 0 0 0).unixNano - 9223371273709551616, loc := none } ∧
    (ExtendExpiry.target (utcTime 2024 1 1 0 0 0) 2562048 0 0).unixNano ≠
      (utcTime 2024 1 1 0 0 0).unixNano + (3600 * 2562048 + 60 * 0 + 0) * Second ∧
    ((ExtendExpiry (honest threeNodes [] []) ⟨2⟩ "c1" 2562048 0 0 []).2)[2]? =
      some (Request.clusterUpdate "c1" { expirationTimestamp := some ⟨-7519304073709551616, none⟩ }) := by
  refine ⟨by decide, by decide, by decide, by decide⟩


/-! ## Addon installation -/

/-- The loop of `InstallAddons` over a list in two parts: an error in the first
part is the result; otherwise the second part continues from the count and the
history the first part left. -/
theorem InstallAddons.loop_append (w : Provider) (p : RetryPolicy) (clusterID : String) :
    ∀ (pre post : List String) (num : Nat) (h : Hist),
      InstallAddons.loop w p clusterID (pre ++ post) num h =
        match InstallAddons.loop w p clusterID pre num h with
        | ((n, none), h1) => InstallAddons.loop w p clusterID post n h1
        | ((n, some e), h1) => ((n, some e), h1) := by
  intro pre
  induction pre with
  | nil => intro post num h; simp [InstallAddons.loop]
  | cons a pre ih =>
    intro post num h
    simp only [List.cons_append, InstallAddons.loop]
    rcases p.Do (InstallAddons.catalogAttempt w a) h with ⟨⟨r, e⟩, h1⟩
    cases e with
    | some e => rfl
    | none =>
      simp only
      rcases GetCluster w p clusterID h1 with ⟨g, h2⟩
      cases g with
      | error e => rfl
      | ok cluster =>
        simp only
        by_cases hin : a ∈ cluster.addons
        · simp only [hin, decide_True, if_true]
          exact ih post num h2
        · simp only [hin, decide_False, Bool.false_eq_true, if_false]
          by_cases hen : (Resp.Body r : AddOn).enabled = true
          · simp only [hen, if_true]
            cases w.addonBuildError (Resp.Body r) with
            | some m => rfl
            | none =>
              simp only
              rcases p.Do (InstallAddons.installAttempt w clusterID (Resp.Body r)) h2
                with ⟨⟨r3, e3⟩, h3⟩
              cases e3 with
              | some e => rfl
              | none => exact ih post (num + 1) h3
          · simp only [hen, Bool.false_eq_true, if_false]
            exact ih post num h2


/-- With `resp.Error()` nil the guard `resp != nil && resp.Error() != nil` is false. -/
theorem Resp.guard_false {α : Type} (r : Option (Resp α)) (he : Resp.Error r = none) :
    (r.isSome && (Resp.Error r).isSome) = false := by
  simp [he]

/-- A catalog read whose `Send()` succeeds is made once. -/
theorem catalog_read_succeeds (w : Provider) (p : RetryPolicy) (addonID : String) (h : Hist)
    (hs : (w.addonGet h addonID).Succeeded) :
    p.Do (InstallAddons.catalogAttempt w addonID) h =
      (((w.addonGet h addonID).resp, none), h ++ [Request.addonGet addonID]) := by
  apply retryDo_first
  unfold InstallAddons.catalogAttempt
  simp only [hs.1, Resp.guard_false _ hs.2, Bool.false_eq_true, if_false]

/-- An installation write whose `Send()` succeeds is made once. -/
theorem install_write_succeeds (w : Provider) (p : RetryPolicy) (clusterID : String)
    (addon : AddOn) (h : Hist) (hs : (w.addonsAdd h clusterID addon).Succeeded) :
    p.Do (InstallAddons.installAttempt w clusterID addon) h =
      (((w.addonsAdd h clusterID addon).resp, none),
        h ++ [Request.addonsAdd clusterID addon]) := by
  apply retryDo_first
  unfold InstallAddons.installAttempt
  simp only [hs.1, hs.2]

/-- A cluster read whose `Send()` succeeds is made once and returns the body. -/
theorem getOCMCluster_succeeds (w : Provider) (p : RetryPolicy) (clusterID : String) (h : Hist)
    (hs : (w.clusterGet h clusterID).Succeeded) :
    getOCMCluster w p clusterID h =
      (.ok (Resp.Body (w.clusterGet h clusterID).resp), h ++ [Request.clusterGet clusterID]) := by
  have hd : p.Do (getOCMCluster.attempt w clusterID) h =
      (((w.clusterGet h clusterID).resp, none), h ++ [Request.clusterGet clusterID]) := by
    apply retryDo_first
    unfold getOCMCluster.attempt
    simp only [hs.1, Resp.guard_false _ hs.2, Bool.false_eq_true, if_false]
  unfold getOCMCluster
  simp only [hd, hs.2]

/-- When the cluster read and the addon listing succeed, `GetCluster` sends
exactly these two requests and returns a cluster. -/
theorem GetCluster_succeeds (w : Provider) (p : RetryPolicy) (clusterID : String) (h : Hist)
    (hg : ∀ h0 c, (w.clusterGet h0 c).Succeeded) (hl : ∀ h0 c, (w.addonsList h0 c).Succeeded) :
    ∃ cluster c, GetCluster w p clusterID h =
      (.ok cluster, h ++ [Request.clusterGet clusterID, Request.addonsList c]) := by
  unfold GetCluster
  rw [getOCMCluster_succeeds w p clusterID h (hg _ _)]
  simp only
  generalize Resp.Body (w.clusterGet h clusterID).resp = oc
  have hs := hl (h ++ [Request.clusterGet clusterID]) oc.ID
  have hd : p.Do (ocmToSPICluster.attempt w oc) (h ++ [Request.clusterGet clusterID]) =
      (((w.addonsList (h ++ [Request.clusterGet clusterID]) oc.ID).resp, none),
        h ++ [Request.clusterGet clusterID] ++ [Request.addonsList oc.ID]) := by
    apply retryDo_first
    unfold ocmToSPICluster.attempt
    simp only [hs.1, Resp.guard_false _ hs.2, Bool.false_eq_true, if_false]
  unfold ocmToSPICluster
  simp only [hd, hs.2]
  exact ⟨_, oc.ID, by rw [List.append_assoc]; rfl⟩


/-- When every call succeeds, the loop of `InstallAddons` ends without error and
adds to the count the number of installation writes it has sent. -/
theorem InstallAddons.loop_succeeds (w : Provider) (p : RetryPolicy) (clusterID : String)
    (hw : AllSucceed w) :
    ∀ (addonIDs : List String) (num : Nat) (h : Hist),
      ∃ sent, InstallAddons.loop w p clusterID addonIDs num h =
        ((num + sent.countP Request.isInstall, none), h ++ sent) := by
  intro addonIDs
  induction addonIDs with
  | nil => intro num h; exact ⟨[], by simp [InstallAddons.loop]⟩
  | cons a rest ih =>
    intro num h
    obtain ⟨cluster, c, hg⟩ := GetCluster_succeeds w p clusterID (h ++ [Request.addonGet a])
      hw.clusterGet hw.addonsList
    simp only [InstallAddons.loop, catalog_read_succeeds w p a h (hw.addonGet h a), hg]
    by_cases hin : a ∈ cluster.addons
    · simp only [hin, decide_True, if_true]
      obtain ⟨sent, hs⟩ := ih num
        (h ++ [Request.addonGet a] ++ [Request.clusterGet clusterID, Request.addonsList c])
      exact ⟨[Request.addonGet a, Request.clusterGet clusterID, Request.addonsList c] ++ sent,
        by rw [hs]; simp [Request.isInstall, List.countP_cons]⟩
    · simp only [hin, decide_False, Bool.false_eq_true, if_false]
      by_cases hen : (Resp.Body (w.addonGet h a).resp : AddOn).enabled = true
      · simp only [hen, if_true, hw.build,
          install_write_succeeds w p clusterID _ _ (hw.addonsAdd _ _ _)]
        obtain ⟨sent, hs⟩ := ih (num + 1)
          (h ++ [Request.addonGet a] ++ [Request.clusterGet clusterID, Request.addonsList c]
            ++ [Request.addonsAdd clusterID (Resp.Body (w.addonGet h a).resp)])
        exact ⟨[Request.addonGet a, Request.clusterGet clusterID, Request.addonsList c,
          Request.addonsAdd clusterID (Resp.Body (w.addonGet h a).resp)] ++ sent,
          by rw [hs]; simp [Request.isInstall, List.countP_cons]; omega⟩
      · simp only [hen, Bool.false_eq_true, if_false]
        obtain ⟨sent, hs⟩ := ih num
          (h ++ [Request.addonGet a] ++ [Request.clusterGet clusterID, Request.addonsList c])
        exact ⟨[Request.addonGet a, Request.clusterGet clusterID, Request.addonsList c] ++ sent,
          by rw [hs]; simp [Request.isInstall, List.countP_cons]⟩

/-- C4: on a provider all of whose calls succeed, `InstallAddons` returns
without error the number of installation writes it has sent; for the addon
after any processed list `pre`, it adds 0 and sends no installation write when
the id is in the addon set read from the cluster (the requests are the catalog
read, the cluster read and the addon listing), and adds 1 and sends exactly
one installation write when the id is not in that set and the catalog
definition is enabled. -/
theorem InstallAddons_counts_installation_writes (w : Provider) (p : RetryPolicy)
    (clusterID : String) (h : Hist) (hw : AllSucceed w) :
    (∀ addonIDs, ∃ sent, InstallAddons w p clusterID addonIDs h =
      ((sent.countP Request.isInstall, none), h ++ sent)) ∧
    (∀ (pre : List String) (addonID : String) (n : Nat) (h1 : Hist),
      InstallAddons w p clusterID pre h = ((n, none), h1) →
      ∃ cluster c,
        GetCluster w p clusterID (h1 ++ [Request.addonGet addonID]) = (.ok cluster,
          h1 ++ [Request.addonGet addonID, Request.clusterGet clusterID, Request.addonsList c]) ∧
        (addonID ∈ cluster.addons →
          InstallAddons w p clusterID (pre ++ [addonID]) h = ((n, none),
            h1 ++ [Request.addonGet addonID, Request.clusterGet clusterID,
              Request.addonsList c])) ∧
        (addonID ∉ cluster.addons →
          (Resp.Body (w.addonGet h1 addonID).resp : AddOn).enabled = true →
          InstallAddons w p clusterID (pre ++ [addonID]) h = ((n + 1, none),
            h1 ++ [Request.addonGet addonID, Request.clusterGet clusterID,
              Request.addonsList c,
              Request.addonsAdd clusterID (Resp.Body (w.addonGet h1 addonID).resp)]))) := by
  constructor
  · intro addonIDs
    obtain ⟨sent, hs⟩ := InstallAddons.loop_succeeds w p clusterID hw addonIDs 0 h
    exact ⟨sent, by unfold InstallAddons; rw [hs, Nat.zero_add]⟩
  · intro pre addonID n h1 hpre
    obtain ⟨cluster, c, hg⟩ := GetCluster_succeeds w p clusterID
      (h1 ++ [Request.addonGet addonID]) hw.clusterGet hw.addonsList
    have hstep : InstallAddons w p clusterID (pre ++ [addonID]) h =
        InstallAddons.loop w p clusterID [addonID] n h1 := by
      unfold InstallAddons at hpre ⊢
      rw [InstallAddons.loop_append, hpre]
    refine ⟨cluster, c, by rw [hg]; simp, ?_, ?_⟩
    · intro hin
      rw [hstep]
      simp [InstallAddons.loop, catalog_read_succeeds w p addonID h1 (hw.addonGet h1 addonID),
        hg, hin]
    · intro hin hen
      rw [hstep]
      simp [InstallAddons.loop, catalog_read_succeeds w p addonID h1 (hw.addonGet h1 addonID),
        hg, hin, hen, hw.build, install_write_succeeds w p clusterID _ _ (hw.addonsAdd _ _ _)]


/-- The provider `honest` satisfies `AllSucceed`. -/
theorem honest_AllSucceed (init : OcmCluster) (catalog : List AddOn) (installed : List String) :
    AllSucceed (honest init catalog installed) :=
  ⟨fun _ _ => ⟨rfl, rfl⟩, fun _ _ => ⟨rfl, rfl⟩, fun _ _ => ⟨rfl, rfl⟩, fun _ _ _ => ⟨rfl, rfl⟩,
    fun _ => rfl⟩

/-- Witness of C4: on `addonProvider`, the installed addon "c" adds 0 and sends
no installation write; the new enabled addon "a" adds 1 and sends one. -/
theorem InstallAddons_counts_installation_writes_witness :
    InstallAddons addonProvider ⟨2⟩ "c1" ["c"] [] = ((0, none),
      [Request.addonGet "c", Request.clusterGet "c1", Request.addonsList "c1"]) ∧
    InstallAddons addonProvider ⟨2⟩ "c1" ["a"] [] = ((1, none),
      [Request.addonGet "a", Request.clusterGet "c1", Request.addonsList "c1",
        Request.addonsAdd "c1" { id := "a", enabled := true }]) := by
  have hw : AllSucceed addonProvider := honest_AllSucceed _ _ _
  constructor
  · obtain ⟨cluster, c, hg, hskip, -⟩ :=
      (InstallAddons_counts_installation_writes addonProvider ⟨2⟩ "c1" [] hw).2 [] "c" 0 [] rfl
    have hv : GetCluster addonProvider ⟨2⟩ "c1" ([] ++ [Request.addonGet "c"]) =
        (.ok threeNodesRead,
          [Request.addonGet "c", Request.clusterGet "c1", Request.addonsList "c1"]) := rfl
    rw [hv] at hg
    simp only [List.nil_append, Prod.mk.injEq, Except.ok.injEq, List.cons.injEq,
      Request.addonsList.injEq, and_true, true_and] at hg
    obtain ⟨rfl, rfl⟩ := hg
    exact hskip (by decide)
  · obtain ⟨cluster, c, hg, -, hadd⟩ :=
      (InstallAddons_counts_installation_writes addonProvider ⟨2⟩ "c1" [] hw).2 [] "a" 0 [] rfl
    have hv : GetCluster addonProvider ⟨2⟩ "c1" ([] ++ [Request.addonGet "a"]) =
        (.ok threeNodesRead,
          [Request.addonGet "a", Request.clusterGet "c1", Request.addonsList "c1"]) := rfl
    rw [hv] at hg
    simp only [List.nil_append, Prod.mk.injEq, Except.ok.injEq, List.cons.injEq,
      Request.addonsList.injEq, and_true, true_and] at hg
    obtain ⟨rfl, rfl⟩ := hg
    exact hadd (by decide) rfl


/-- C5: let the addons before position `i` (the list `pre`) have been processed
without error.  If for the addon at position `i` the retried catalog read, the
cluster read, the build of the request or the retried installation write
fails, `InstallAddons` returns count 0 and an error, and the history it leaves
is the history at that failure, whatever addons (`post`) follow: no request is
sent for them. -/
theorem InstallAddons_stops_at_first_error (w : Provider) (p : RetryPolicy)
    (clusterID : String) (pre : List String) (addonID : String) (post : List String)
    (h : Hist) (n : Nat) (h0 : Hist)
    (hpre : InstallAddons w p clusterID pre h = ((n, none), h0)) :
    (∀ r e h1, p.Do (InstallAddons.catalogAttempt w addonID) h0 = ((r, some e), h1) →
      InstallAddons w p clusterID (pre ++ addonID :: post) h = ((0, some e), h1)) ∧
    (∀ r h1 e h2, p.Do (InstallAddons.catalogAttempt w addonID) h0 = ((r, none), h1) →
      GetCluster w p clusterID h1 = (.error e, h2) →
      InstallAddons w p clusterID (pre ++ addonID :: post) h =
        ((0, some (Err.gettingClusterStateForAddon addonID)), h2)) ∧
    (∀ r h1 cluster h2 m, p.Do (InstallAddons.catalogAttempt w addonID) h0 = ((r, none), h1) →
      GetCluster w p clusterID h1 = (.ok cluster, h2) →
      addonID ∉ cluster.addons → (Resp.Body r : AddOn).enabled = true →
      w.addonBuildError (Resp.Body r) = some m →
      InstallAddons w p clusterID (pre ++ addonID :: post) h = ((0, some (Err.build m)), h2)) ∧
    (∀ r h1 cluster h2 r3 e h3,
      p.Do (InstallAddons.catalogAttempt w addonID) h0 = ((r, none), h1) →
      GetCluster w p clusterID h1 = (.ok cluster, h2) →
      addonID ∉ cluster.addons → (Resp.Body r : AddOn).enabled = true →
      w.addonBuildError (Resp.Body r) = none →
      p.Do (InstallAddons.installAttempt w clusterID (Resp.Body r)) h2 = ((r3, some e), h3) →
      InstallAddons w p clusterID (pre ++ addonID :: post) h = ((0, some e), h3)) := by
  have hstep : InstallAddons w p clusterID (pre ++ addonID :: post) h =
      InstallAddons.loop w p clusterID (addonID :: post) n h0 := by
    unfold InstallAddons at hpre ⊢
    rw [InstallAddons.loop_append, hpre]
  rw [hstep]
  refine ⟨?_, ?_, ?_, ?_⟩
  · intro r e h1 hc
    simp only [InstallAddons.loop, hc]
  · intro r h1 e h2 hc hg
    simp only [InstallAddons.loop, hc, hg]
  · intro r h1 cluster h2 m hc hg hin hen hb
    simp [InstallAddons.loop, hc, hg, hin, hen, hb]
  · intro r h1 cluster h2 r3 e h3 hc hg hin hen hb hi
    simp [InstallAddons.loop, hc, hg, hin, hen, hb, hi]

/-- Witness of C5: the catalog read of "x" fails at position 1 of
`["c", "x", "a"]`; the requests sent are those for "c" and the three attempts
for "x", and none for "a". -/
theorem InstallAddons_stops_at_first_error_witness :
    InstallAddons brokenCatalog ⟨2⟩ "c1" ["c", "x", "a"] [] =
      ((0, some (Err.retriesExhausted 3 (Err.transport "timeout"))),
        [Request.addonGet "c", Request.clusterGet "c1", Request.addonsList "c1",
          Request.addonGet "x", Request.addonGet "x", Request.addonGet "x"]) :=
  (InstallAddons_stops_at_first_error brokenCatalog ⟨2⟩ "c1" ["c"] "x" ["a"] [] 0
    [Request.addonGet "c", Request.clusterGet "c1", Request.addonsList "c1"] rfl).1
    none _ _ rfl


/-! ## The pollers -/

/-- A tick whose check fails with a "forbidden" error ends the loop with that
error, a nil value, and no sleep. -/
theorem pollLoop_forbidden {α : Type} (check : Nat → α × Option String) (since : Nat → Int)
    (T I : Int) (timeoutError : String) (fuel k : Nat) (tr : List PollEvent) (msg : String)
    (hc : (check k).2 = some msg) (hmsg : stringsContains msg "forbidden" = true) :
    pollLoop check since T I timeoutError (fuel + 1) k tr =
      some ((none, some msg), tr ++ [PollEvent.check]) := by
  simp [pollLoop, hc, hmsg]

/-- A tick whose check fails otherwise, at an elapsed time of at least the
timeout, ends the loop with the timeout error and a nil value. -/
theorem pollLoop_timeout {α : Type} (check : Nat → α × Option String) (since : Nat → Int)
    (T I : Int) (timeoutError : String) (fuel k : Nat) (tr : List PollEvent) (msg : String)
    (hc : (check k).2 = some msg) (hmsg : stringsContains msg "forbidden" = false)
    (hel : T ≤ since k) :
    pollLoop check since T I timeoutError (fuel + 1) k tr =
      some ((none, some timeoutError), tr ++ [PollEvent.check]) := by
  simp [pollLoop, hc, hmsg, not_lt.mpr hel]

/-- A tick whose check fails otherwise, at an elapsed time below the timeout,
sleeps one interval and goes to the next tick. -/
theorem pollLoop_wait {α : Type} (check : Nat → α × Option String) (since : Nat → Int)
    (T I : Int) (timeoutError : String) (fuel k : Nat) (tr : List PollEvent) (msg : String)
    (hc : (check k).2 = some msg) (hmsg : stringsContains msg "forbidden" = false)
    (hel : since k < T) :
    pollLoop check since T I timeoutError (fuel + 1) k tr =
      pollLoop check since T I timeoutError fuel (k + 1)
        (tr ++ [PollEvent.check, PollEvent.sleep I]) := by
  simp [pollLoop, hc, hmsg, hel]

/-- A check that fails (not "forbidden") at every tick up to the first tick `k + d`
whose elapsed time has reached the timeout: the loop started at tick `k` makes
`d` waits and ends at tick `k + d` with the timeout error. -/
theorem pollLoop_fails_until_timeout {α : Type} (check : Nat → α × Option String)
    (since : Nat → Int) (T I : Int) (timeoutError : String) :
    ∀ (d k fuel : Nat) (tr : List PollEvent), d < fuel →
      (∀ j, k ≤ j → j ≤ k + d →
        ∃ msg, (check j).2 = some msg ∧ stringsContains msg "forbidden" = false) →
      (∀ j, k ≤ j → j < k + d → since j < T) → T ≤ since (k + d) →
      pollLoop check since T I timeoutError fuel k tr =
        some ((none, some timeoutError), tr ++ waits I d ++ [PollEvent.check]) := by
  intro d
  induction d with
  | zero =>
    intro k fuel tr hf hfail _ hreach
    obtain ⟨fuel, rfl⟩ : ∃ f, fuel = f + 1 := ⟨fuel - 1, by omega⟩
    obtain ⟨msg, hc, hmsg⟩ := hfail k (le_refl _) (le_refl _)
    rw [pollLoop_timeout check since T I timeoutError fuel k tr msg hc hmsg hreach]
    simp [waits]
  | succ d ih =>
    intro k fuel tr hf hfail hbelow hreach
    obtain ⟨fuel, rfl⟩ : ∃ f, fuel = f + 1 := ⟨fuel - 1, by omega⟩
    obtain ⟨msg, hc, hmsg⟩ := hfail k (le_refl _) (by omega)
    rw [pollLoop_wait check since T I timeoutError fuel k tr msg hc hmsg
      (hbelow k (le_refl _) (by omega))]
    rw [ih (k + 1) fuel _ (by omega) (fun j h1 h2 => hfail j (by omega) (by omega))
      (fun j h1 h2 => hbelow j (by omega) (by omega))
      (by rw [show k + 1 + d = k + (d + 1) by omega]; exact hreach)]
    simp [waits]


/-- C6: for each of the five pollers and every timeout, if the first check
returns an error whose message contains "forbidden", the poller returns that
same error (with a nil value for `pollDeployment` and `pollCsvList`) after
exactly one check and without sleeping, whatever fuel (at least one tick) it
runs on.  For `pollCsvList` the check is the listing followed by the scan of
its items; a failed listing without items is such a check. -/
theorem pollers_forbidden_on_first_check (c : Kube) (pollingTimeout : Int) (fuel : Nat)
    (msg : String) (hmsg : stringsContains msg "forbidden" = true) :
    (∀ name, c.getClusterRoleBinding 0 name = some msg →
      pollClusterRoleBinding c pollingTimeout name (fuel + 1) =
        some (some msg, [PollEvent.check])) ∧
    (∀ ns name, c.getRoleBinding 0 ns name = some msg →
      pollRoleBinding c pollingTimeout ns name (fuel + 1) =
        some (some msg, [PollEvent.check])) ∧
    (∀ ns name, c.getConfigMap 0 ns name = some msg →
      pollLockFile c pollingTimeout ns name (fuel + 1) =
        some (some msg, [PollEvent.check])) ∧
    (∀ ns name, (c.getDeployment 0 ns name).2 = some msg →
      pollDeployment c pollingTimeout ns name (fuel + 1) =
        some ((none, some msg), [PollEvent.check])) ∧
    (∀ ns name, (pollCsvList.check c ns name 0).2 = some msg →
      pollCsvList c pollingTimeout ns name (fuel + 1) =
        some ((none, some msg), [PollEvent.check])) ∧
    (∀ ns name, c.listCSV 0 ns = ([], some msg) →
      pollCsvList c pollingTimeout ns name (fuel + 1) =
        some ((none, some msg), [PollEvent.check])) := by
  refine ⟨?_, ?_, ?_, ?_, ?_, ?_⟩
  · intro name hc
    unfold pollClusterRoleBinding
    rw [pollLoop_forbidden _ _ _ _ _ fuel 0 [] msg hc hmsg]
    rfl
  · intro ns name hc
    unfold pollRoleBinding
    rw [pollLoop_forbidden _ _ _ _ _ fuel 0 [] msg hc hmsg]
    rfl
  · intro ns name hc
    unfold pollLockFile
    rw [pollLoop_forbidden _ _ _ _ _ fuel 0 [] msg hc hmsg]
    rfl
  · intro ns name hc
    unfold pollDeployment
    rw [pollLoop_forbidden _ _ _ _ _ fuel 0 [] msg hc hmsg]
    rfl
  · intro ns name hc
    unfold pollCsvList
    rw [pollLoop_forbidden _ _ _ _ _ fuel 0 [] msg hc hmsg]
    rfl
  · intro ns name hc
    unfold pollCsvList
    rw [pollLoop_forbidden _ _ _ _ _ fuel 0 [] msg
      (by simp [pollCsvList.check, hc, pollCsvList.scan]) hmsg]
    rfl

/-- Witness of C6: on the cluster API that denies every read, each poller
returns the permission error after one check. -/
theorem pollers_forbidden_on_first_check_witness :
    pollClusterRoleBinding deniedKube 30 "crb" 1 =
      some (some "clusterrolebindings is forbidden: User cannot get resource",
        [PollEvent.check]) ∧
    pollCsvList deniedKube 30 "ns" "operator" 1 =
      some ((none, some "clusterserviceversions is forbidden: User cannot list resource"),
        [PollEvent.check]) :=
  ⟨(pollers_forbidden_on_first_check deniedKube 30 0
      "clusterrolebindings is forbidden: User cannot get resource" (by decide)).1 "crb" rfl,
   (pollers_forbidden_on_first_check deniedKube 30 0
      "clusterserviceversions is forbidden: User cannot list resource"
      (by decide)).2.2.2.2.2 "ns" "operator" rfl⟩

/-- C7: at a tick whose check fails with an error that does not contain
"forbidden", the loop shared by the five pollers stops with the timeout error
and a nil value when the elapsed time is at least the timeout, and sleeps one
interval and goes to the next check when it is below.  Hence, when the check
fails in this way at every tick up to the first tick `n` at which the elapsed
time has reached the timeout, each poller returns its timeout error (and a nil
value) after `n` sleeps and `n + 1` checks. -/
theorem pollers_time_out (c : Kube) (pollingTimeout : Int) :
    (∀ {α : Type} (check : Nat → α × Option String) (I : Int) (timeoutError : String)
        (fuel k : Nat) (tr : List PollEvent) (msg : String),
      (check k).2 = some msg → stringsContains msg "forbidden" = false →
      (timeoutDuration pollingTimeout ≤ c.since k →
        pollLoop check c.since (timeoutDuration pollingTimeout) I timeoutError (fuel + 1) k tr =
          some ((none, some timeoutError), tr ++ [PollEvent.check])) ∧
      (c.since k < timeoutDuration pollingTimeout →
        pollLoop check c.since (timeoutDuration pollingTimeout) I timeoutError (fuel + 1) k tr =
          pollLoop check c.since (timeoutDuration pollingTimeout) I timeoutError fuel (k + 1)
            (tr ++ [PollEvent.check, PollEvent.sleep I]))) ∧
    (∀ (n fuel : Nat), n < fuel →
      (∀ j, j < n → c.since j < timeoutDuration pollingTimeout) →
      timeoutDuration pollingTimeout ≤ c.since n →
      (∀ name,
        (∀ j, j ≤ n → ∃ msg, c.getClusterRoleBinding j name = some msg ∧
          stringsContains msg "forbidden" = false) →
        pollClusterRoleBinding c pollingTimeout name fuel =
          some (some ("Failed to get clusterRolebinding " ++ name ++ " before timeout"),
            waits (intervalDuration 5) n ++ [PollEvent.check])) ∧
      (∀ ns name,
        (∀ j, j ≤ n → ∃ msg, c.getRoleBinding j ns name = some msg ∧
          stringsContains msg "forbidden" = false) →
        pollRoleBinding c pollingTimeout ns name fuel =
          some (some ("Failed to get rolebinding " ++ name ++ " before timeout"),
            waits (intervalDuration 5) n ++ [PollEvent.check])) ∧
      (∀ ns name,
        (∀ j, j ≤ n → ∃ msg, c.getConfigMap j ns name = some msg ∧
          stringsContains msg "forbidden" = false) →
        pollLockFile c pollingTimeout ns name fuel =
          some (some ("Failed to get configMap " ++ name ++ " before timeout"),
            waits (intervalDuration 30) n ++ [PollEvent.check])) ∧
      (∀ ns name,
        (∀ j, j ≤ n → ∃ msg, (c.getDeployment j ns name).2 = some msg ∧
          stringsContains msg "forbidden" = false) →
        pollDeployment c pollingTimeout ns name fuel =
          some ((none, some ("Failed to get " ++ name ++ " Deployment before timeout")),
            waits (intervalDuration 5) n ++ [PollEvent.check])) ∧
      (∀ ns name,
        (∀ j, j ≤ n → ∃ msg, (pollCsvList.check c ns name j).2 = some msg ∧
          stringsContains msg "forbidden" = false) →
        pollCsvList c pollingTimeout ns name fuel =
          some ((none, some ("Failed to get " ++ name ++
            " clusterServiceVersion before timeout")),
            waits (intervalDuration 5) n ++ [PollEvent.check]))) := by
  constructor
  · intro α check I timeoutError fuel k tr msg hc hmsg
    exact ⟨pollLoop_timeout check c.since _ I timeoutError fuel k tr msg hc hmsg,
      pollLoop_wait check c.since _ I timeoutError fuel k tr msg hc hmsg⟩
  · intro n fuel hf hbelow hreach
    have key : ∀ {α : Type} (check : Nat → α × Option String) (I : Int) (te : String),
        (∀ j, j ≤ n → ∃ msg, (check j).2 = some msg ∧
          stringsContains msg "forbidden" = false) →
        pollLoop check c.since (timeoutDuration pollingTimeout) I te fuel 0 [] =
          some ((none, some te), waits I n ++ [PollEvent.check]) := by
      intro α check I te hfail
      have := pollLoop_fails_until_timeout check c.since (timeoutDuration pollingTimeout) I te
        n 0 fuel [] hf (fun j _ h2 => hfail j (by omega)) (fun j _ h2 => hbelow j (by omega))
        (by simpa using hreach)
      simpa using this
    refine ⟨?_, ?_, ?_, ?_, ?_⟩
    · intro name hfail
      unfold pollClusterRoleBinding
      rw [key _ _ _ hfail]; rfl
    · intro ns name hfail
      unfold pollRoleBinding
      rw [key _ _ _ hfail]; rfl
    · intro ns name hfail
      unfold pollLockFile
      rw [key _ _ _ hfail]; rfl
    · intro ns name hfail
      unfold pollDeployment
      exact key _ _ _ hfail
    · intro ns name hfail
      unfold pollCsvList
      exact key _ _ _ hfail


/-- Witness of C7: with a timeout of one minute and nothing on the cluster, the
lock-file poller checks at 0s, 30s and 60s and then returns its timeout error. -/
theorem pollers_time_out_witness :
    pollLockFile absentKube 1 "ns" "lock" 3 =
      some (some "Failed to get configMap lock before timeout",
        [PollEvent.check, PollEvent.sleep 30000000000, PollEvent.check,
          PollEvent.sleep 30000000000, PollEvent.check]) :=
  (((pollers_time_out absentKube 1).2 2 3 (by decide)
      (fun j hj => by interval_cases j <;> decide) (by decide)).2.2.1 "ns" "lock"
      (fun _ _ => ⟨"configmaps not found", rfl, by decide⟩)).trans (by decide)


/-! ## Structured errors under the retry executor -/

/-- The branch of line 511: had `Send()` returned a structured error without
returning it as its error, the wrapped operation of `ocmToSPICluster` would
return nil, because it reads the never-assigned `resp`.  The contract of
`Send()` excludes that state. -/
theorem ocmToSPICluster_attempt_drops_structured_error (w : Provider) (c : OcmCluster)
    (h : Hist) (hs : (w.addonsList h c.ID).err = none) :
    (ocmToSPICluster.attempt w c h).1.2 = none := by
  unfold ocmToSPICluster.attempt
  simp only [hs]
  split <;> rfl

/-- A response that carries a structured error is not nil. -/
theorem Resp.isSome_of_error {α : Type} (r : Option (Resp α)) (e : OcmError)
    (hr : Resp.Error r = some e) : r.isSome = true := by
  cases r with
  | none => simp [Resp.Error] at hr
  | some x => rfl

/-- The retry executor runs an operation again when it returned an error and
attempts are left, whatever the error is. -/
theorem retryDo_again {ρ : Type} (op : Hist → (ρ × Option Err) × Hist) (more made : Nat)
    (h h1 : Hist) (r : ρ) (x : Err) (hop : op h = ((r, some x), h1)) :
    retryDo op (more + 1) made h = retryDo op more (made + 1) h1 := by
  simp [retryDo, hop]

/-- C8: on a provider that keeps the contract of the SDK's `Send()`, every
wrapped operation (cluster add, delete, update and get, credentials get, addon
catalog get, addon-installation list and add) returns a non-nil error made
from the structured error of a response that carries one, each returns a
non-nil error on any error of `Send()`, and the retry executor runs an
operation again on whatever error it returned. -/
theorem wrapped_operations_return_structured_error (w : Provider) (hw : SendContract w)
    (h : Hist) (clusterID : String) (body : OcmCluster) (addon : AddOn) (c : OcmCluster) :
    (∀ e, Resp.Error (w.clustersAdd h body).resp = some e →
      (LaunchCluster.attempt w body h).1.2 = some (Err.apiError e)) ∧
    (∀ e, Resp.Error (w.clusterDelete h clusterID).resp = some e →
      (DeleteCluster.attempt w clusterID h).1.2 =
        some (Err.couldntDeleteCluster clusterID (Err.transport e.Error))) ∧
    (∀ e, Resp.Error (w.clusterUpdate h clusterID body).resp = some e →
      (updateAttempt w clusterID body h).1.2 =
        some (Err.couldntUpdateCluster clusterID (Err.transport e.Error))) ∧
    (∀ e, Resp.Error (w.clusterGet h clusterID).resp = some e →
      (getOCMCluster.attempt w clusterID h).1.2 =
        some (Err.couldntRetrieveCluster clusterID (Err.transport e.Error))) ∧
    (∀ e, Resp.Error (w.credentialsGet h clusterID).resp = some e →
      (ClusterKubeconfig.attempt w clusterID h).1.2 = some (Err.transport e.Error)) ∧
    (∀ e, Resp.Error (w.addonGet h clusterID).resp = some e →
      (InstallAddons.catalogAttempt w clusterID h).1.2 = some (Err.transport e.Error)) ∧
    (∀ e, Resp.Error (w.addonsList h c.ID).resp = some e →
      (ocmToSPICluster.attempt w c h).1.2 =
        some (Err.couldntRetrieveAddons c.ID (Err.transport e.Error))) ∧
    (∀ e, Resp.Error (w.addonsAdd h clusterID addon).resp = some e →
      (InstallAddons.installAttempt w clusterID addon h).1.2 = some (Err.transport e.Error)) ∧
    (∀ m, (w.clustersAdd h body).err = some m →
      (LaunchCluster.attempt w body h).1.2 ≠ none) ∧
    (∀ m, (w.clusterDelete h clusterID).err = some m →
      (DeleteCluster.attempt w clusterID h).1.2 ≠ none) ∧
    (∀ m, (w.clusterUpdate h clusterID body).err = some m →
      (updateAttempt w clusterID body h).1.2 ≠ none) ∧
    (∀ m, (w.clusterGet h clusterID).err = some m →
      (getOCMCluster.attempt w clusterID h).1.2 ≠ none) ∧
    (∀ m, (w.credentialsGet h clusterID).err = some m →
      (ClusterKubeconfig.attempt w clusterID h).1.2 ≠ none) ∧
    (∀ m, (w.addonGet h clusterID).err = some m →
      (InstallAddons.catalogAttempt w clusterID h).1.2 ≠ none) ∧
    (∀ m, (w.addonsList h c.ID).err = some m →
      (ocmToSPICluster.attempt w c h).1.2 ≠ none) ∧
    (∀ m, (w.addonsAdd h clusterID addon).err = some m →
      (InstallAddons.installAttempt w clusterID addon h).1.2 ≠ none) ∧
    (∀ {ρ : Type} (op : Hist → (ρ × Option Err) × Hist) (more made : Nat) (h0 h1 : Hist)
        (r : ρ) (x : Err), op h0 = ((r, some x), h1) →
      retryDo op (more + 1) made h0 = retryDo op more (made + 1) h1) := by
  refine ⟨?_, ?_, ?_, ?_, ?_, ?_, ?_, ?_, ?_, ?_, ?_, ?_, ?_, ?_, ?_, ?_, ?_⟩
  · intro e he
    simp [LaunchCluster.attempt, Resp.isSome_of_error _ e he, he, errResp]
  · intro e he
    simp [DeleteCluster.attempt, hw.clusterDelete h clusterID e he]
  · intro e he
    simp [updateAttempt, hw.clusterUpdate h clusterID body e he]
  · intro e he
    simp [getOCMCluster.attempt, hw.clusterGet h clusterID e he]
  · intro e he
    simp [ClusterKubeconfig.attempt, hw.credentialsGet h clusterID e he]
  · intro e he
    simp [InstallAddons.catalogAttempt, hw.addonGet h clusterID e he]
  · intro e he
    simp [ocmToSPICluster.attempt, hw.addonsList h c.ID e he]
  · intro e he
    simp [InstallAddons.installAttempt, hw.addonsAdd h clusterID addon e he]
  · intro m hm
    unfold LaunchCluster.attempt
    simp only [hm]
    split
    · rename_i hg
      cases he : Resp.Error (w.clustersAdd h body).resp with
      | none => simp [he] at hg
      | some e => simp [errResp]
    · simp
  · intro m hm
    simp [DeleteCluster.attempt, hm]
  · intro m hm
    simp [updateAttempt, hm]
  · intro m hm
    simp [getOCMCluster.attempt, hm]
  · intro m hm
    simp [ClusterKubeconfig.attempt, hm]
  · intro m hm
    simp [InstallAddons.catalogAttempt, hm]
  · intro m hm
    simp [ocmToSPICluster.attempt, hm]
  · intro m hm
    simp [InstallAddons.installAttempt, hm]
  · intro ρ op more made h0 h1 r x hop
    exact retryDo_again op more made h0 h1 r x hop

/-- The provider `rejecting` keeps the contract of `Send()`. -/
theorem rejecting_keeps_contract : SendContract rejecting := by
  have key : ∀ {α : Type} (a : α) (reason : String), (rejectedSent a reason).Conforms := by
    intro α a reason e he
    have he2 : some ({ reason := reason } : OcmError) = some e := he
    cases he2
    rfl
  exact ⟨fun _ _ => key _ _, fun _ _ => key _ _, fun _ _ _ => key _ _, fun _ _ => key _ _,
    fun _ _ => key _ _, fun _ _ => key _ _, fun _ _ => key _ _, fun _ _ _ => key _ _⟩

/-- Witness of C8: on the provider that answers every request with the
structured error "quota exceeded", the wrapped operation of the addon listing
returns an error made from it, and the listing is retried like the read of the
cluster: three attempts each. -/
theorem wrapped_operations_return_structured_error_witness :
    (ocmToSPICluster.attempt rejecting threeNodes []).1.2 =
      some (Err.couldntRetrieveAddons "c1" (Err.transport "quota exceeded")) ∧
    (LaunchCluster.attempt rejecting threeNodes []).1.2 =
      some (Err.apiError { reason := "quota exceeded" }) ∧
    ocmToSPICluster rejecting ⟨2⟩ threeNodes [] =
      (.error (Err.retriesExhausted 3
        (Err.couldntRetrieveAddons "c1" (Err.transport "quota exceeded"))),
        [Request.addonsList "c1", Request.addonsList "c1", Request.addonsList "c1"]) ∧
    (getOCMCluster rejecting ⟨2⟩ "c1" []).2 =
      [Request.clusterGet "c1", Request.clusterGet "c1", Request.clusterGet "c1"] :=
  ⟨(wrapped_operations_return_structured_error rejecting rejecting_keeps_contract [] "c1"
      threeNodes { id := "a", enabled := true } threeNodes).2.2.2.2.2.2.1
      { reason := "quota exceeded" } rfl,
   (wrapped_operations_return_structured_error rejecting rejecting_keeps_contract [] "c1"
      threeNodes { id := "a", enabled := true } threeNodes).1 { reason := "quota exceeded" } rfl,
   rfl, rfl⟩


/-! ## Region resolution -/

/-- One round of the sampling loop on a non-empty list whose total is its length. -/
theorem LaunchCluster.sample_succ (items : List CloudRegion) (draws : Nat → Nat)
    (hpos : 0 < items.length) (left k : Nat) (region : String) :
    ∃ y, drawn items draws k = some y ∧ y ∈ items ∧
      LaunchCluster.sample items items.length draws (left + 1) k region =
        if y.enabled then .ok y.id
        else LaunchCluster.sample items items.length draws left (k + 1) y.id := by
  have hlt : draws k % items.length < items.length := Nat.mod_lt _ hpos
  refine ⟨items[draws k % items.length], ?_, List.getElem_mem _, ?_⟩
  · unfold drawn
    exact List.getElem?_eq_getElem hlt
  · have hnp : ¬ ((items.length : Int) ≤ 0) := by omega
    simp only [LaunchCluster.sample, hnp, if_false, Int.toNat_ofNat,
      List.getElem?_eq_getElem hlt]

/-- The sampling loop returns the region of the first draw that hits an enabled region. -/
theorem LaunchCluster.sample_first_hit (items : List CloudRegion) (draws : Nat → Nat)
    (hpos : 0 < items.length) :
    ∀ (left k : Nat) (region : String) (j : Nat) (x : CloudRegion), k ≤ j → j < k + left →
      (∀ i, k ≤ i → i < j → ∀ y, drawn items draws i = some y → y.enabled = false) →
      drawn items draws j = some x → x.enabled = true →
      LaunchCluster.sample items items.length draws left k region = .ok x.id := by
  intro left
  induction left with
  | zero => intro k region j x h1 h2; omega
  | succ left ih =>
    intro k region j x h1 h2 hmiss hj hx
    obtain ⟨y, hy, -, hs⟩ := LaunchCluster.sample_succ items draws hpos left k region
    rw [hs]
    by_cases hjk : j = k
    · subst hjk
      rw [hy] at hj
      cases hj
      simp [hx]
    · have hyd := hmiss k (le_refl _) (by omega) y hy
      simp only [hyd, Bool.false_eq_true, if_false]
      exact ih (k + 1) y.id j x (by omega) (by omega)
        (fun i hi1 hi2 => hmiss i (by omega) hi2) hj hx

/-- When no draw hits an enabled region, the sampling loop returns the region
of its last draw. -/
theorem LaunchCluster.sample_no_hit (items : List CloudRegion) (draws : Nat → Nat)
    (hpos : 0 < items.length) :
    ∀ (left k : Nat) (region : String) (x : CloudRegion),
      (∀ j, k ≤ j → j < k + (left + 1) → ∀ y, drawn items draws j = some y → y.enabled = false) →
      drawn items draws (k + left) = some x →
      LaunchCluster.sample items items.length draws (left + 1) k region = .ok x.id := by
  intro left
  induction left with
  | zero =>
    intro k region x hmiss hx
    obtain ⟨y, hy, -, hs⟩ := LaunchCluster.sample_succ items draws hpos 0 k region
    rw [hs]
    have hyd := hmiss k (le_refl _) (by omega) y hy
    rw [Nat.add_zero, hy] at hx
    cases hx
    simp [hyd, LaunchCluster.sample]
  | succ left ih =>
    intro k region x hmiss hx
    obtain ⟨y, hy, -, hs⟩ := LaunchCluster.sample_succ items draws hpos (left + 1) k region
    rw [hs]
    have hyd := hmiss k (le_refl _) (by omega) y hy
    simp only [hyd, Bool.false_eq_true, if_false]
    exact ih (k + 1) y.id x (fun j h1 h2 => hmiss j (by omega) (by omega))
      (by rw [show k + 1 + left = k + (left + 1) by omega]; exact hx)

/-- The sampling loop with at least one round returns the id of a listed region. -/
theorem LaunchCluster.sample_mem (items : List CloudRegion) (draws : Nat → Nat)
    (hpos : 0 < items.length) :
    ∀ (left k : Nat) (region : String),
      ∃ r, r ∈ items ∧
        LaunchCluster.sample items items.length draws (left + 1) k region = .ok r.id := by
  intro left
  induction left with
  | zero =>
    intro k region
    obtain ⟨y, -, hmem, hs⟩ := LaunchCluster.sample_succ items draws hpos 0 k region
    exact ⟨y, hmem, by rw [hs]; cases y.enabled <;> simp [LaunchCluster.sample]⟩
  | succ left ih =>
    intro k region
    obtain ⟨y, -, hmem, hs⟩ := LaunchCluster.sample_succ items draws hpos (left + 1) k region
    rw [hs]
    cases hye : y.enabled
    · simpa using ih (k + 1) y.id
    · exact ⟨y, hmem, by simp⟩

/-- The sampling loop with `left` rounds from draw `k` reads the draws `k` to
`k + left - 1` only. -/
theorem LaunchCluster.sample_congr (items : List CloudRegion) (total : Int)
    (draws1 draws2 : Nat → Nat) :
    ∀ (left k : Nat) (region : String), (∀ j, k ≤ j → j < k + left → draws1 j = draws2 j) →
      LaunchCluster.sample items total draws1 left k region =
        LaunchCluster.sample items total draws2 left k region := by
  intro left
  induction left with
  | zero => intro k region _; rfl
  | succ left ih =>
    intro k region hd
    simp only [LaunchCluster.sample, hd k (le_refl _) (by omega)]
    split
    · rfl
    · split
      · rfl
      · split
        · rfl
        · exact ih (k + 1) _ (fun j h1 h2 => hd j (by omega) (by omega))


/-- The region block with the region "random" and a listing without transport error. -/
theorem LaunchCluster.resolveRegion_random_eq (w : Provider) (cfg : Config) (draws : Nat → Nat)
    (h : Hist) (items : List CloudRegion) (hcfg : cfg.region = "random")
    (herr : (w.regionsList h cfg.cloudProviderID).err = none)
    (hbody : Resp.Body (w.regionsList h cfg.cloudProviderID).resp =
      { items := items, total := items.length }) :
    LaunchCluster.resolveRegion w cfg draws h =
      match LaunchCluster.sample items items.length draws items.length 0 "random" with
      | .ok region1 => (.ok (region1, { cfg with region := region1 }),
          h ++ [Request.regionsList cfg.cloudProviderID])
      | .error e => (.error e, h ++ [Request.regionsList cfg.cloudProviderID])
      | .panic => (.panic, h ++ [Request.regionsList cfg.cloudProviderID]) := by
  unfold LaunchCluster.resolveRegion
  simp only [hcfg, if_true, herr, hbody]

/-- C10 (amended): with the region "random" and a non-empty region list, region
resolution always ends: it lists the regions once, reads at most as many draws
as there are regions, selects a listed region and writes it back to the
configuration.  The region selected is that of the first draw that hits an
enabled region; when none of the draws hits one, it is the region of the last
draw, a disabled one. -/
theorem resolveRegion_random (w : Provider) (cfg : Config) (draws : Nat → Nat) (h : Hist)
    (items : List CloudRegion) (hcfg : cfg.region = "random")
    (herr : (w.regionsList h cfg.cloudProviderID).err = none)
    (hbody : Resp.Body (w.regionsList h cfg.cloudProviderID).resp =
      { items := items, total := items.length })
    (hne : items ≠ []) :
    (∃ r, r ∈ items ∧ LaunchCluster.resolveRegion w cfg draws h =
      (.ok (r.id, { cfg with region := r.id }),
        h ++ [Request.regionsList cfg.cloudProviderID])) ∧
    (∀ j x, j < items.length →
      (∀ i, i < j → ∀ y, drawn items draws i = some y → y.enabled = false) →
      drawn items draws j = some x → x.enabled = true →
      (LaunchCluster.resolveRegion w cfg draws h).1 = .ok (x.id, { cfg with region := x.id })) ∧
    ((∀ j, j < items.length → ∀ y, drawn items draws j = some y → y.enabled = false) →
      ∀ x, drawn items draws (items.length - 1) = some x → x.enabled = false ∧
        (LaunchCluster.resolveRegion w cfg draws h).1 =
          .ok (x.id, { cfg with region := x.id })) ∧
    (∀ draws2 : Nat → Nat, (∀ j, j < items.length → draws2 j = draws j) →
      LaunchCluster.resolveRegion w cfg draws2 h = LaunchCluster.resolveRegion w cfg draws h) := by
  have hpos : 0 < items.length := List.length_pos.mpr hne
  obtain ⟨n, hn⟩ : ∃ n, items.length = n + 1 := ⟨items.length - 1, by omega⟩
  have heq := LaunchCluster.resolveRegion_random_eq w cfg draws h items hcfg herr hbody
  refine ⟨?_, ?_, ?_, ?_⟩
  · obtain ⟨r, hmem, hs⟩ := LaunchCluster.sample_mem items draws hpos n 0 "random"
    rw [← hn] at hs
    exact ⟨r, hmem, by rw [heq, hs]⟩
  · intro j x hj hmiss hx hen
    rw [heq, LaunchCluster.sample_first_hit items draws hpos items.length 0 "random" j x
      (Nat.zero_le _) (by omega) (fun i _ hi => hmiss i hi) hx hen]
  · intro hmiss x hx
    have hs := LaunchCluster.sample_no_hit items draws hpos n 0 "random" x
      (fun j _ hj => hmiss j (by omega)) (by rw [Nat.zero_add, show n = items.length - 1 by omega]; exact hx)
    rw [← hn] at hs
    exact ⟨hmiss (items.length - 1) (by omega) x hx, by rw [heq, hs]⟩
  · intro draws2 hd
    rw [heq, LaunchCluster.resolveRegion_random_eq w cfg draws2 h items hcfg herr hbody,
      LaunchCluster.sample_congr items items.length draws2 draws items.length 0 "random"
        (fun j _ hj => hd j (by omega))]

/-- Witness of C10 (amended): the draws 1, 2, 0 hit us-west-1, eu-west-1 and
then the enabled us-east-1, which is selected and written back. -/
theorem resolveRegion_random_witness :
    (LaunchCluster.resolveRegion regionProvider randomConfig (fun k => k + 1) []).1 =
      .ok ("us-east-1", { randomConfig with region := "us-east-1" }) :=
  (resolveRegion_random regionProvider randomConfig (fun k => k + 1) [] threeRegions rfl rfl rfl
    (by decide)).2.1 2 { id := "us-east-1", enabled := true } (by decide)
    (fun i hi y hy => by
      interval_cases i
      · cases hy; rfl
      · cases hy; rfl)
    rfl rfl

/-- Counterexample to C10 as stated: the list has exactly one enabled region,
us-east-1, among two disabled ones; when every draw returns index 1 the three
rounds of the loop all pick the disabled us-west-1, and that region is selected
and written back to the configuration. -/
theorem resolveRegion_may_select_disabled :
    threeRegions.filter (fun r => r.enabled) = [{ id := "us-east-1", enabled := true }] ∧
    LaunchCluster.resolveRegion regionProvider randomConfig (fun _ => 1) [] =
      (.ok ("us-west-1", { randomConfig with region := "us-west-1" }),
        [Request.regionsList "aws"]) := by
  constructor
  · decide
  · rfl


/-! ## The state translator -/

/-- C12: `ocmStateToInternalState` is total: it maps the provider states
error, installing, pending, ready and uninstalling to the internal state of the
same name, and its result is unknown if and only if the input is none of these
five. -/
theorem ocmStateToInternalState_total (state : String) :
    ocmStateToInternalState "error" = ClusterState.error ∧
    ocmStateToInternalState "installing" = ClusterState.installing ∧
    ocmStateToInternalState "pending" = ClusterState.pending ∧
    ocmStateToInternalState "ready" = ClusterState.ready ∧
    ocmStateToInternalState "uninstalling" = ClusterState.uninstalling ∧
    (ocmStateToInternalState state = ClusterState.unknown ↔
      state ∉ ["error", "installing", "pending", "ready", "uninstalling"]) := by
  refine ⟨by decide, by decide, by decide, by decide, by decide, ?_⟩
  unfold ocmStateToInternalState
  split_ifs <;> simp_all

/-! ## Ownership properties -/

/-- C13: `GenerateProperties` resolves the owner with priority CI job over
override over OS user: "prow" when the job id is not -1, else the override when
it is not empty, else the OS user name, with an error exactly when that lookup
is made and fails; on success the result has exactly the two keys
`MadeByOSDe2e` (value "true") and `OwnedBy` (the owner). -/
theorem GenerateProperties_owner (cfg : Config) (host : Host) :
    (cfg.jobID ≠ -1 →
      GenerateProperties cfg host = .ok [(MadeByOSDe2e, "true"), (OwnedBy, "prow")]) ∧
    (cfg.jobID = -1 → cfg.userOverride ≠ "" →
      GenerateProperties cfg host =
        .ok [(MadeByOSDe2e, "true"), (OwnedBy, cfg.userOverride)]) ∧
    (cfg.jobID = -1 → cfg.userOverride = "" → ∀ user, host.currentUser = .ok user →
      GenerateProperties cfg host = .ok [(MadeByOSDe2e, "true"), (OwnedBy, user)]) ∧
    (cfg.jobID = -1 → cfg.userOverride = "" → ∀ m, host.currentUser = .error m →
      GenerateProperties cfg host = .error (Err.unableToGetCurrentUser (Err.osUser m))) ∧
    ((∃ e, GenerateProperties cfg host = .error e) ↔
      cfg.jobID = -1 ∧ cfg.userOverride = "" ∧ ∃ m, host.currentUser = .error m) ∧
    (∀ props, GenerateProperties cfg host = .ok props →
      props.map Prod.fst = [MadeByOSDe2e, OwnedBy] ∧ MadeByOSDe2e ≠ OwnedBy ∧
      props.lookup MadeByOSDe2e = some "true") := by
  refine ⟨?_, ?_, ?_, ?_, ?_, ?_⟩
  · intro hj
    simp [GenerateProperties, hj]
  · intro hj ho
    simp [GenerateProperties, hj, ho]
  · intro hj ho user hu
    simp [GenerateProperties, hj, ho, hu]
  · intro hj ho m hu
    simp [GenerateProperties, hj, ho, hu]
  · unfold GenerateProperties
    by_cases hj : cfg.jobID = -1
    · by_cases ho : cfg.userOverride = ""
      · cases hu : host.currentUser <;> simp [hj, ho]
      · simp [hj, ho]
    · simp [hj]
  · intro props hp
    unfold GenerateProperties at hp
    have hk : MadeByOSDe2e ≠ OwnedBy := by decide
    by_cases hj : cfg.jobID = -1
    · by_cases ho : cfg.userOverride = ""
      · cases hu : host.currentUser <;> simp [hj, ho, hu] at hp
        subst hp
        exact ⟨rfl, hk, by simp [List.lookup]⟩
      · simp [hj, ho] at hp
        subst hp
        exact ⟨rfl, hk, by simp [List.lookup]⟩
    · simp [hj] at hp
      subst hp
      exact ⟨rfl, hk, by simp [List.lookup]⟩


/-- Witness of C13: the CI job 7 owns its clusters as "prow" whatever the
override; without a job the override "alice" wins over the OS user "dev". -/
theorem GenerateProperties_owner_witness :
    GenerateProperties { multiAZConfig with userOverride := "alice" } devHost =
      .ok [("MadeByOSDe2e", "true"), ("OwnedBy", "prow")] ∧
    GenerateProperties { multiAZConfig with jobID := -1, userOverride := "alice" } devHost =
      .ok [("MadeByOSDe2e", "true"), ("OwnedBy", "alice")] :=
  ⟨(GenerateProperties_owner { multiAZConfig with userOverride := "alice" } devHost).1
      (by decide),
   (GenerateProperties_owner { multiAZConfig with jobID := -1, userOverride := "alice" }
      devHost).2.1 rfl (by decide)⟩

/-! ## The creation request -/

/-- The region block leaves every configuration value but the region as it was,
and sends at most the region listing. -/
theorem LaunchCluster.resolveRegion_frame (w : Provider) (cfg : Config) (draws : Nat → Nat)
    (h : Hist) :
    (∀ region cfg1, (LaunchCluster.resolveRegion w cfg draws h).1 = .ok (region, cfg1) →
      cfg1 = { cfg with region := cfg1.region }) ∧
    ((LaunchCluster.resolveRegion w cfg draws h).2 = h ∨
      (LaunchCluster.resolveRegion w cfg draws h).2 =
        h ++ [Request.regionsList cfg.cloudProviderID]) := by
  unfold LaunchCluster.resolveRegion
  simp only
  split
  · split
    · exact ⟨fun _ _ hc => (by cases hc), Or.inr rfl⟩
    · split
      · exact ⟨fun _ _ hc => (by cases hc; rfl), Or.inr rfl⟩
      · exact ⟨fun _ _ hc => (by cases hc), Or.inr rfl⟩
      · exact ⟨fun _ _ hc => (by cases hc), Or.inr rfl⟩
  · exact ⟨fun _ _ hc => (by cases hc; rfl), Or.inl rfl⟩

/-- With multi-AZ requested, the description built has nine compute nodes. -/
theorem LaunchCluster.request_multiAZ (cfg : Config) (region : String)
    (props : List (String × String)) (now : Time) (clusterName : String)
    (hmulti : cfg.multiAZ = true) :
    (LaunchCluster.request cfg region props now clusterName).nodesCompute = some 9 := by
  unfold LaunchCluster.request
  simp only [hmulti, if_true]
  split <;> rfl

/-- With multi-AZ requested, every creation request that `LaunchCluster` sends
has nine compute nodes. -/
theorem LaunchCluster.sent_requests_multiAZ (cfg : Config) (hmulti : cfg.multiAZ = true)
    (w : Provider) (p : RetryPolicy) (host : Host) (clusterName : String) (h : Hist) :
    ∃ sent, (LaunchCluster w p cfg host clusterName h).2 = h ++ sent ∧
      ∀ body, Request.clustersAdd body ∈ sent → body.nodesCompute = some 9 := by
  obtain ⟨hcfg, hhist⟩ := LaunchCluster.resolveRegion_frame w cfg host.draws h
  have hpre : ∃ pre, (LaunchCluster.resolveRegion w cfg host.draws h).2 = h ++ pre ∧
      ∀ body, Request.clustersAdd body ∉ pre := by
    rcases hhist with hh | hh
    · exact ⟨[], by simp [hh], by simp⟩
    · exact ⟨[Request.regionsList cfg.cloudProviderID], hh, by simp⟩
  obtain ⟨pre, hpre, hnone⟩ := hpre
  unfold LaunchCluster
  rcases hr : LaunchCluster.resolveRegion w cfg host.draws h with ⟨r, h1⟩
  rw [hr] at hpre hcfg
  simp only at hpre hcfg
  subst hpre
  have done : ∃ sent, h ++ pre = h ++ sent ∧
      ∀ body, Request.clustersAdd body ∈ sent → body.nodesCompute = some 9 :=
    ⟨pre, rfl, fun body hb => absurd hb (hnone body)⟩
  cases r with
  | error e => exact done
  | panic => exact done
  | ok rc =>
    obtain ⟨region, cfg1⟩ := rc
    have hm1 : cfg1.multiAZ = true := by
      rw [hcfg region cfg1 rfl]; exact hmulti
    simp only
    cases GenerateProperties cfg1 host with
    | error e => exact done
    | ok props =>
      simp only
      cases w.clusterBuildError (LaunchCluster.request cfg1 region props host.now clusterName)
        with
      | some m => exact done
      | none =>
        simp only
        obtain ⟨k, -, -, hk⟩ := retryDo_hist
          (LaunchCluster.attempt w
            (LaunchCluster.request cfg1 region props host.now clusterName))
          (Request.clustersAdd (LaunchCluster.request cfg1 region props host.now clusterName))
          (by intro h0; unfold LaunchCluster.attempt; simp only; split <;> rfl)
          p.more 0 (h ++ pre)
        have hsent : ∃ sent, h ++ pre ++ List.replicate k (Request.clustersAdd
            (LaunchCluster.request cfg1 region props host.now clusterName)) = h ++ sent ∧
            ∀ body, Request.clustersAdd body ∈ sent → body.nodesCompute = some 9 := by
          refine ⟨pre ++ List.replicate k (Request.clustersAdd
            (LaunchCluster.request cfg1 region props host.now clusterName)), by simp, ?_⟩
          intro body hb
          rcases List.mem_append.mp hb with hb | hb
          · exact absurd hb (hnone body)
          · have := (List.mem_replicate.mp hb).2
            cases this
            exact LaunchCluster.request_multiAZ cfg1 region props host.now clusterName hm1
        unfold RetryPolicy.Do
        rcases hd : retryDo (LaunchCluster.attempt w
          (LaunchCluster.request cfg1 region props host.now clusterName)) p.more 0 (h ++ pre)
          with ⟨⟨resp, e⟩, h2⟩
        rw [hd] at hk
        simp only at hk
        subst hk
        cases e <;> exact hsent

/-- Once the region is resolved, the properties are generated and the
description is built, `LaunchCluster` sends the description between one and
`more + 1` times, and nothing else; the configuration it leaves is the one
after the region block. -/
theorem LaunchCluster.sends_request (w : Provider) (p : RetryPolicy) (cfg : Config)
    (host : Host) (clusterName : String) (h h1 : Hist) (region : String) (cfg1 : Config)
    (props : List (String × String))
    (hregion : LaunchCluster.resolveRegion w cfg host.draws h = (.ok (region, cfg1), h1))
    (hprops : GenerateProperties cfg1 host = .ok props)
    (hbuild : w.clusterBuildError
      (LaunchCluster.request cfg1 region props host.now clusterName) = none) :
    ∃ k, 1 ≤ k ∧ k ≤ p.more + 1 ∧
      (LaunchCluster w p cfg host clusterName h).2 = h1 ++ List.replicate k
        (Request.clustersAdd (LaunchCluster.request cfg1 region props host.now clusterName)) ∧
      (LaunchCluster w p cfg host clusterName h).1.2 = cfg1 := by
  obtain ⟨k, hk1, hk2, hk⟩ := retryDo_hist
    (LaunchCluster.attempt w (LaunchCluster.request cfg1 region props host.now clusterName))
    (Request.clustersAdd (LaunchCluster.request cfg1 region props host.now clusterName))
    (by intro h0; unfold LaunchCluster.attempt; simp only; split <;> rfl)
    p.more 0 h1
  refine ⟨k, hk1, hk2, ?_⟩
  unfold LaunchCluster RetryPolicy.Do
  simp only [hregion, hprops, hbuild]
  rcases hd : retryDo (LaunchCluster.attempt w
    (LaunchCluster.request cfg1 region props host.now clusterName)) p.more 0 h1
    with ⟨⟨resp, e⟩, h2⟩
  rw [hd] at hk
  simp only at hk
  subst hk
  cases e <;> exact ⟨rfl, rfl⟩

/-- When the first `Send()` of the creation request succeeds, `LaunchCluster`
sends it once and returns the id of the cluster in the response. -/
theorem LaunchCluster.succeeds (w : Provider) (p : RetryPolicy) (cfg : Config)
    (host : Host) (clusterName : String) (h h1 : Hist) (region : String) (cfg1 : Config)
    (props : List (String × String))
    (hregion : LaunchCluster.resolveRegion w cfg host.draws h = (.ok (region, cfg1), h1))
    (hprops : GenerateProperties cfg1 host = .ok props)
    (hbuild : w.clusterBuildError
      (LaunchCluster.request cfg1 region props host.now clusterName) = none)
    (hsend : (w.clustersAdd h1
      (LaunchCluster.request cfg1 region props host.now clusterName)).Succeeded) :
    LaunchCluster w p cfg host clusterName h =
      ((.ok (Resp.Body (w.clustersAdd h1
          (LaunchCluster.request cfg1 region props host.now clusterName)).resp : OcmCluster).ID,
        cfg1),
        h1 ++ [Request.clustersAdd
          (LaunchCluster.request cfg1 region props host.now clusterName)]) := by
  have hd : p.Do (LaunchCluster.attempt w
      (LaunchCluster.request cfg1 region props host.now clusterName)) h1 =
      (((w.clustersAdd h1
        (LaunchCluster.request cfg1 region props host.now clusterName)).resp, none),
        h1 ++ [Request.clustersAdd
          (LaunchCluster.request cfg1 region props host.now clusterName)]) := by
    apply retryDo_first
    unfold LaunchCluster.attempt
    simp only [hsend.1, Resp.guard_false _ hsend.2, Bool.false_eq_true, if_false, Option.map_none']
  unfold LaunchCluster
  simp only [hregion, hprops, hbuild, hd]

/-- C11: for every configuration in which multi-AZ is requested, the cluster
description that `LaunchCluster` builds has a compute-node count of exactly 9,
whatever the machine type and the other values.  `LaunchCluster` submits that
description: once the region is resolved, the properties are generated and the
description is built, the requests it sends are between one and `more + 1`
copies of the creation request with that description (one copy, and the id of
the response returned, when the first `Send()` succeeds); and no creation
request it ever sends has another count. -/
theorem LaunchCluster_multiAZ_nine_compute_nodes (cfg : Config) (hmulti : cfg.multiAZ = true) :
    (∀ (region : String) (props : List (String × String)) (now : Time) (clusterName : String),
      (LaunchCluster.request cfg region props now clusterName).nodesCompute = some 9) ∧
    (∀ (w : Provider) (p : RetryPolicy) (host : Host) (clusterName : String) (h : Hist),
      ∃ sent, (LaunchCluster w p cfg host clusterName h).2 = h ++ sent ∧
        ∀ body, Request.clustersAdd body ∈ sent → body.nodesCompute = some 9) ∧
    (∀ (w : Provider) (p : RetryPolicy) (host : Host) (clusterName : String) (h h1 : Hist)
        (region : String) (cfg1 : Config) (props : List (String × String)),
      LaunchCluster.resolveRegion w cfg host.draws h = (.ok (region, cfg1), h1) →
      GenerateProperties cfg1 host = .ok props →
      w.clusterBuildError (LaunchCluster.request cfg1 region props host.now clusterName) = none →
      (LaunchCluster.request cfg1 region props host.now clusterName).nodesCompute = some 9 ∧
      (∃ k, 1 ≤ k ∧ k ≤ p.more + 1 ∧
        (LaunchCluster w p cfg host clusterName h).2 = h1 ++ List.replicate k
          (Request.clustersAdd
            (LaunchCluster.request cfg1 region props host.now clusterName))) ∧
      ((w.clustersAdd h1
          (LaunchCluster.request cfg1 region props host.now clusterName)).Succeeded →
        LaunchCluster w p cfg host clusterName h =
          ((.ok (Resp.Body (w.clustersAdd h1
              (LaunchCluster.request cfg1 region props host.now clusterName)).resp
              : OcmCluster).ID, cfg1),
            h1 ++ [Request.clustersAdd
              (LaunchCluster.request cfg1 region props host.now clusterName)]))) := by
  refine ⟨fun region props now clusterName =>
    LaunchCluster.request_multiAZ cfg region props now clusterName hmulti,
    fun w p host clusterName h =>
      LaunchCluster.sent_requests_multiAZ cfg hmulti w p host clusterName h, ?_⟩
  intro w p host clusterName h h1 region cfg1 props hregion hprops hbuild
  have hm1 : cfg1.multiAZ = true := by
    have := (LaunchCluster.resolveRegion_frame w cfg host.draws h).1 region cfg1
      (by rw [hregion])
    rw [this]; exact hmulti
  refine ⟨LaunchCluster.request_multiAZ cfg1 region props host.now clusterName hm1, ?_, ?_⟩
  · obtain ⟨k, hk1, hk2, hk, -⟩ := LaunchCluster.sends_request w p cfg host clusterName h h1
      region cfg1 props hregion hprops hbuild
    exact ⟨k, hk1, hk2, hk⟩
  · intro hsend
    exact LaunchCluster.succeeds w p cfg host clusterName h h1 region cfg1 props hregion hprops
      hbuild hsend

/-- Witness of C11: with multi-AZ requested, `LaunchCluster` sends one creation
request on the provider without failures, and that request has nine compute
nodes, with the machine type "m5.xlarge" as well as with none. -/
theorem LaunchCluster_multiAZ_nine_compute_nodes_witness :
    (LaunchCluster (honest threeNodes [] []) ⟨2⟩ multiAZConfig devHost "e2e-1" []).2 =
      [Request.clustersAdd (LaunchCluster.request multiAZConfig "us-east-1"
        [("MadeByOSDe2e", "true"), ("OwnedBy", "prow")] devHost.now "e2e-1")] ∧
    (LaunchCluster.request multiAZConfig "us-east-1"
      [("MadeByOSDe2e", "true"), ("OwnedBy", "prow")] devHost.now "e2e-1").nodesCompute =
      some 9 ∧
    (LaunchCluster.request multiAZConfig "us-east-1"
      [("MadeByOSDe2e", "true"), ("OwnedBy", "prow")] devHost.now
      "e2e-1").nodesComputeMachineTypeID = some "m5.xlarge" ∧
    (∀ body, Request.clustersAdd body ∈
      (LaunchCluster (honest threeNodes [] []) ⟨2⟩
        { multiAZConfig with computeMachineType := "" } devHost "e2e-1" []).2 →
      body.nodesCompute = some 9 ∧ body.nodesComputeMachineTypeID = none) :=
  have hw := (LaunchCluster_multiAZ_nine_compute_nodes multiAZConfig rfl).2.2
    (honest threeNodes [] []) ⟨2⟩ devHost "e2e-1" [] [] "us-east-1" multiAZConfig
    [("MadeByOSDe2e", "true"), ("OwnedBy", "prow")] rfl rfl rfl
  ⟨congrArg Prod.snd (hw.2.2 ⟨rfl, rfl⟩), hw.1, by decide, by
    intro body hb
    have hrun : (LaunchCluster (honest threeNodes [] []) ⟨2⟩
        { multiAZConfig with computeMachineType := "" } devHost "e2e-1" []).2 =
        [Request.clustersAdd (LaunchCluster.request
          { multiAZConfig with computeMachineType := "" } "us-east-1"
          [("MadeByOSDe2e", "true"), ("OwnedBy", "prow")] devHost.now "e2e-1")] := rfl
    rw [hrun] at hb
    simp only [List.mem_singleton, Request.clustersAdd.injEq] at hb
    subst hb
    exact ⟨by decide, by decide⟩⟩


/-! ## The listing check of `pollCsvList` -/

/-- On a listing that is not empty, the scan leaves the verdict of the last
item, whatever the listing call returned and whatever the earlier items are. -/
theorem pollCsvList.scan_last (csvDisplayName : String) (last : CSV) :
    ∀ (items : List CSV) (err : Option String),
      pollCsvList.scan csvDisplayName (items ++ [last]) err =
        if csvDisplayName = last.displayName then none
        else some "No matching clusterServiceVersion in CSV List" := by
  intro items
  induction items with
  | nil =>
    intro err
    simp only [List.nil_append, pollCsvList.scan]
  | cons a rest ih =>
    intro err
    simp only [List.cons_append, pollCsvList.scan]
    split <;> exact ih _

/-- C14 (the code at the failing input): when the listing call succeeds and
returns no item, the check of `pollCsvList` passes, and the poller returns
success with the empty listing after one check, although no item (hence no last
item) carries the requested display name.  On a listing that is not empty the
last item decides: the wanted operator listed before another one does not
pass. -/
theorem pollCsvList_passes_on_empty_listing :
    emptyListingKube.listCSV 0 "ns" = ([], none) ∧
    (pollCsvList.check emptyListingKube "ns" "operator" 0).2 = none ∧
    pollCsvList emptyListingKube 30 "ns" "operator" 1 =
      some ((some [], none), [PollEvent.check]) ∧
    (pollCsvList.check lastOtherKube "ns" "operator" 0).2 =
      some "No matching clusterServiceVersion in CSV List" := by
  refine ⟨rfl, rfl, rfl, by decide⟩


/-! ## Termination of the pollers -/

/-- The rounded-up quotient times the divisor is at least the dividend, and one
less is not. -/
theorem ceilDiv_spec (T I : Int) (hI : 0 < I) :
    T ≤ ceilDiv T I * I ∧ (ceilDiv T I - 1) * I < T := by
  unfold ceilDiv
  have h1 := Int.ediv_mul_le (-T) (ne_of_gt hI)
  have h2 := Int.lt_ediv_add_one_mul_self (-T) hI
  constructor
  · linarith
  · linarith

/-- On an advancing clock the elapsed time at tick `k` is at least `k` intervals. -/
theorem Advances.elapsed {since : Nat → Int} {I : Int} (hc : Advances since I) :
    ∀ k : Nat, (k : Int) * I ≤ since k := by
  intro k
  induction k with
  | zero => simpa using hc.1
  | succ k ih =>
    have := hc.2 k
    push_cast
    linarith

/-- A tick that does not end the loop: the check failed, not with "forbidden",
at an elapsed time below the timeout. -/
theorem stopsAt_false {α : Type} (check : Nat → α × Option String) (since : Nat → Int)
    (T : Int) (k : Nat) (hs : stopsAt check since T k = false) :
    ∃ msg, (check k).2 = some msg ∧ stringsContains msg "forbidden" = false ∧ since k < T := by
  unfold stopsAt at hs
  cases hc : (check k).2 with
  | none => simp [hc] at hs
  | some msg =>
    simp only [hc, Bool.or_eq_false_iff, decide_eq_false_iff_not, not_le] at hs
    exact ⟨msg, rfl, hs.1, hs.2⟩

/-- The loop started at tick `k` runs to the first tick `k + d` that ends it. -/
theorem pollLoop_runs_to_stop {α : Type} (check : Nat → α × Option String)
    (since : Nat → Int) (T I : Int) (timeoutError : String) :
    ∀ (d k fuel : Nat) (tr : List PollEvent), d < fuel →
      (∀ j, k ≤ j → j < k + d → stopsAt check since T j = false) →
      stopsAt check since T (k + d) = true →
      pollLoop check since T I timeoutError fuel k tr =
        some (tickResult check timeoutError (k + d), tr ++ waits I d ++ [PollEvent.check]) := by
  intro d
  induction d with
  | zero =>
    intro k fuel tr hf _ hstop
    obtain ⟨fuel, rfl⟩ : ∃ f, fuel = f + 1 := ⟨fuel - 1, by omega⟩
    simp only [Nat.add_zero] at hstop ⊢
    unfold stopsAt at hstop
    unfold tickResult
    cases hc : (check k).2 with
    | none => simp [pollLoop, hc, waits]
    | some msg =>
      simp only [hc, Bool.or_eq_true, decide_eq_true_eq] at hstop
      by_cases hfb : stringsContains msg "forbidden" = true
      · simp [pollLoop, hc, hfb, waits]
      · have hel : ¬ (since k < T) := by
          rcases hstop with h1 | h1
          · exact absurd h1 hfb
          · exact not_lt.mpr h1
        simp [pollLoop, hc, hfb, hel, waits]
  | succ d ih =>
    intro k fuel tr hf hgo hstop
    obtain ⟨fuel, rfl⟩ : ∃ f, fuel = f + 1 := ⟨fuel - 1, by omega⟩
    obtain ⟨msg, hc, hmsg, hel⟩ := stopsAt_false check since T k (hgo k (le_refl _) (by omega))
    rw [pollLoop_wait check since T I timeoutError fuel k tr msg hc hmsg hel]
    rw [ih (k + 1) fuel _ (by omega) (fun j h1 h2 => hgo j (by omega) (by omega))
      (by rw [show k + 1 + d = k + (d + 1) by omega]; exact hstop)]
    rw [show k + 1 + d = k + (d + 1) by omega]
    simp [waits]

/-- On an advancing clock with a positive interval the loop of a poller ends,
at the first tick that ends it, within the bound on the number of ticks. -/
theorem pollLoop_ends {α : Type} (check : Nat → α × Option String) (since : Nat → Int)
    (T I : Int) (timeoutError : String) (hI : 0 < I) (hc : Advances since I) :
    EndsWithin check since T I timeoutError id
      (fun fuel => pollLoop check since T I timeoutError fuel 0 []) := by
  have hceil := ceilDiv_spec T I hI
  have hex : ∃ n, stopsAt check since T n = true := by
    refine ⟨(max (ceilDiv T I) 0).toNat, ?_⟩
    have hN := hc.elapsed (max (ceilDiv T I) 0).toNat
    rw [Int.toNat_of_nonneg (le_max_right _ _)] at hN
    have hge : ceilDiv T I * I ≤ max (ceilDiv T I) 0 * I :=
      Int.mul_le_mul_of_nonneg_right (le_max_left _ _) (le_of_lt hI)
    have hT : T ≤ since (max (ceilDiv T I) 0).toNat := by linarith [hceil.1]
    unfold stopsAt
    cases (check (max (ceilDiv T I) 0).toNat).2 with
    | none => rfl
    | some msg => simp [hT]
  refine ⟨Nat.find hex, ?_, Nat.find_spec hex, ?_, ?_⟩
  · rcases Nat.eq_zero_or_pos (Nat.find hex) with h0 | hpos
    · rw [h0]; exact le_max_right _ _
    · have hprev : stopsAt check since T (Nat.find hex - 1) = false := by
        have := Nat.find_min hex (show Nat.find hex - 1 < Nat.find hex by omega)
        simpa using this
      obtain ⟨msg, -, -, hel⟩ := stopsAt_false check since T _ hprev
      have hlow := hc.elapsed (Nat.find hex - 1)
      have hcast : ((Nat.find hex - 1 : Nat) : Int) = (Nat.find hex : Int) - 1 := by omega
      rw [hcast] at hlow
      have hlt : ((Nat.find hex : Int) - 1) * I < ceilDiv T I * I := by linarith [hceil.1]
      have := lt_of_mul_lt_mul_right hlt (le_of_lt hI)
      exact le_trans (by omega) (le_max_left _ _)
  · intro j hj
    have := Nat.find_min hex hj
    simpa using this
  · intro fuel hf
    have := pollLoop_runs_to_stop check since T I timeoutError (Nat.find hex) 0 fuel [] hf
      (fun j _ hj => by
        have := Nat.find_min hex (show j < Nat.find hex by omega)
        simpa using this)
      (by simpa using Nat.find_spec hex)
    simpa using this


/-- C15 (amended): on a clock on which every tick advances the elapsed time by
at least the poll interval, for every check each poller terminates: its events
are checks one after another, separated by one sleep of the interval; it ends
at the first tick whose check succeeds, fails with "forbidden", or fails at an
elapsed time of at least the timeout, with that tick's result; and it makes at
most `max (ceil (timeout / interval)) 0 + 1` checks. -/
theorem pollers_terminate (c : Kube) (pollingTimeout : Int) :
    (Advances c.since (intervalDuration 5) →
      (∀ name, EndsWithin (fun k => ((), c.getClusterRoleBinding k name)) c.since
        (timeoutDuration pollingTimeout) (intervalDuration 5)
        ("Failed to get clusterRolebinding " ++ name ++ " before timeout") Prod.snd
        (pollClusterRoleBinding c pollingTimeout name)) ∧
      (∀ ns name, EndsWithin (fun k => ((), c.getRoleBinding k ns name)) c.since
        (timeoutDuration pollingTimeout) (intervalDuration 5)
        ("Failed to get rolebinding " ++ name ++ " before timeout") Prod.snd
        (pollRoleBinding c pollingTimeout ns name)) ∧
      (∀ ns name, EndsWithin (fun k => c.getDeployment k ns name) c.since
        (timeoutDuration pollingTimeout) (intervalDuration 5)
        ("Failed to get " ++ name ++ " Deployment before timeout") id
        (pollDeployment c pollingTimeout ns name)) ∧
      (∀ ns name, EndsWithin (pollCsvList.check c ns name) c.since
        (timeoutDuration pollingTimeout) (intervalDuration 5)
        ("Failed to get " ++ name ++ " clusterServiceVersion before timeout") id
        (pollCsvList c pollingTimeout ns name))) ∧
    (Advances c.since (intervalDuration 30) →
      ∀ ns name, EndsWithin (fun k => ((), c.getConfigMap k ns name)) c.since
        (timeoutDuration pollingTimeout) (intervalDuration 30)
        ("Failed to get configMap " ++ name ++ " before timeout") Prod.snd
        (pollLockFile c pollingTimeout ns name)) := by
  have h5 : 0 < intervalDuration 5 := by decide
  have h30 : 0 < intervalDuration 30 := by decide
  have snd : ∀ (check : Nat → Unit × Option String) (I : Int) (te : String), 0 < I →
      Advances c.since I →
      EndsWithin check c.since (timeoutDuration pollingTimeout) I te Prod.snd
        (fun fuel => (pollLoop check c.since (timeoutDuration pollingTimeout) I te fuel 0
          []).map (fun r => (r.1.2, r.2))) := by
    intro check I te hI hc
    obtain ⟨n, hb, hs, hmin, hrun⟩ :=
      pollLoop_ends check c.since (timeoutDuration pollingTimeout) I te hI hc
    exact ⟨n, hb, hs, hmin, fun fuel hf => by simp only [hrun fuel hf, Option.map_some', id]⟩
  constructor
  · intro hc
    exact ⟨fun name => snd _ _ _ h5 hc, fun ns name => snd _ _ _ h5 hc,
      fun ns name => pollLoop_ends _ c.since (timeoutDuration pollingTimeout) _ _ h5 hc,
      fun ns name => pollLoop_ends _ c.since (timeoutDuration pollingTimeout) _ _ h5 hc⟩
  · intro hc ns name
    exact snd _ _ _ h30 hc

/-- The clock of `absentKube` advances thirty seconds per tick. -/
theorem absentKube_advances : Advances absentKube.since (intervalDuration 30) := by
  constructor
  · decide
  · intro k
    have h30 : intervalDuration 30 = 30 * Second := by decide
    show (k : Int) * (30 * Second) + intervalDuration 30 ≤ ((k + 1 : Nat) : Int) * (30 * Second)
    rw [h30]
    push_cast
    linarith

/-- Witness of C15 (amended): on `absentKube` with a timeout of one minute the
lock-file poller ends within `ceil(60s / 30s) = 2` ticks. -/
theorem pollers_terminate_witness :
    EndsWithin (fun k => ((), absentKube.getConfigMap k "ns" "lock")) absentKube.since
      (timeoutDuration 1) (intervalDuration 30)
      ("Failed to get configMap " ++ "lock" ++ " before timeout") Prod.snd
      (pollLockFile absentKube 1 "ns" "lock") ∧
    max (ceilDiv (timeoutDuration 1) (intervalDuration 30)) 0 = 2 :=
  ⟨(pollers_terminate absentKube 1).2 absentKube_advances "ns" "lock", by decide⟩

/-- Counterexample to C15 as stated: with a timeout of minus one minute, on a
clock that advances thirty seconds per tick, the lock-file poller makes one
check (and returns its timeout error), which is more than
`ceil(timeout / interval) + 1 = -1`. -/
theorem pollLockFile_negative_timeout :
    0 < intervalDuration 30 ∧
    (0 ≤ absentKube.since 0 ∧
      ∀ k, absentKube.since k + intervalDuration 30 ≤ absentKube.since (k + 1)) ∧
    pollLockFile absentKube (-1) "ns" "lock" 1 =
      some (some "Failed to get configMap lock before timeout", [PollEvent.check]) ∧
    ceilDiv (timeoutDuration (-1)) (intervalDuration 30) + 1 = -1 :=
  ⟨by decide, absentKube_advances, by decide, by decide⟩


/-! ## Waiting for a CSV to be installed -/

/-- One run of the condition of `ensureCSVIsInstalled`, by what the read returned. -/
theorem ensureCSVIsInstalled.condition_cases (api : OperatorAPI) (csvName ns : String)
    (h : OpHist) :
    (∀ csv, api.csvGet h ns csvName = .ok csv → csv.phase = CSVPhaseSucceeded →
      ensureCSVIsInstalled.condition api csvName ns () h =
        (((true, none), ()), h ++ [OpRequest.csvGet ns csvName])) ∧
    (∀ csv, api.csvGet h ns csvName = .ok csv → csv.phase ≠ CSVPhaseSucceeded →
      ensureCSVIsInstalled.condition api csvName ns () h =
        (((false, none), ()), h ++ [OpRequest.csvGet ns csvName])) ∧
    (∀ e, api.csvGet h ns csvName = .error e → e.notFound = true →
      ensureCSVIsInstalled.condition api csvName ns () h =
        (((false, none), ()), h ++ [OpRequest.csvGet ns csvName])) ∧
    (∀ e, api.csvGet h ns csvName = .error e → e.notFound = false →
      ensureCSVIsInstalled.condition api csvName ns () h =
        (((false, some e), ()), h ++ [OpRequest.csvGet ns csvName])) := by
  have hempty : (default : CSV).phase ≠ CSVPhaseSucceeded := by decide
  refine ⟨?_, ?_, ?_, ?_⟩
  · intro csv hr hp
    simp [ensureCSVIsInstalled.condition, readObj, hr, hp]
  · intro csv hr hp
    simp [ensureCSVIsInstalled.condition, readObj, hr, hp]
  · intro e hr hn
    simp [ensureCSVIsInstalled.condition, readObj, hr, hn, hempty]
  · intro e hr hn
    simp [ensureCSVIsInstalled.condition, readObj, hr, hn]

/-- A poll of the condition of `ensureCSVIsInstalled` that returns nil has made
`j + 1` reads, the last of which returned the CSV with the phase "Succeeded". -/
theorem ensureCSVIsInstalled.poll_success (api : OperatorAPI) (csvName ns : String) :
    ∀ (more : Nat) (h : OpHist),
      (PollImmediate (ensureCSVIsInstalled.condition api csvName ns) more () h).1.1 = none →
      ∃ j csv, j ≤ more ∧
        api.csvGet (h ++ List.replicate j (OpRequest.csvGet ns csvName)) ns csvName = .ok csv ∧
        csv.phase = CSVPhaseSucceeded ∧
        (PollImmediate (ensureCSVIsInstalled.condition api csvName ns) more () h).2 =
          h ++ List.replicate (j + 1) (OpRequest.csvGet ns csvName) := by
  intro more
  induction more with
  | zero =>
    intro h hs
    obtain ⟨c1, c2, c3, c4⟩ := ensureCSVIsInstalled.condition_cases api csvName ns h
    cases hr : api.csvGet h ns csvName with
    | ok csv =>
      by_cases hp : csv.phase = CSVPhaseSucceeded
      · exact ⟨0, csv, le_refl _, by simpa using hr, hp, by simp [PollImmediate, c1 csv hr hp]⟩
      · simp [PollImmediate, c2 csv hr hp] at hs
    | error e =>
      cases hn : e.notFound with
      | true => simp [PollImmediate, c3 e hr hn] at hs
      | false => simp [PollImmediate, c4 e hr hn] at hs
  | succ more ih =>
    intro h hs
    obtain ⟨c1, c2, c3, c4⟩ := ensureCSVIsInstalled.condition_cases api csvName ns h
    have next : (PollImmediate (ensureCSVIsInstalled.condition api csvName ns) more ()
        (h ++ [OpRequest.csvGet ns csvName])).1.1 = none →
        ∃ j csv, j ≤ more + 1 ∧
          api.csvGet (h ++ List.replicate j (OpRequest.csvGet ns csvName)) ns csvName = .ok csv ∧
          csv.phase = CSVPhaseSucceeded ∧
          (PollImmediate (ensureCSVIsInstalled.condition api csvName ns) more ()
            (h ++ [OpRequest.csvGet ns csvName])).2 =
            h ++ List.replicate (j + 1) (OpRequest.csvGet ns csvName) := by
      intro hn
      obtain ⟨j, csv, hj, hget, hp, hh⟩ := ih _ hn
      refine ⟨j + 1, csv, by omega, ?_, hp, ?_⟩
      · rw [List.replicate_succ]; simpa using hget
      · rw [hh, List.replicate_succ (n := j + 1)]; simp
    cases hr : api.csvGet h ns csvName with
    | ok csv =>
      by_cases hp : csv.phase = CSVPhaseSucceeded
      · exact ⟨0, csv, Nat.zero_le _, by simpa using hr, hp,
          by simp [PollImmediate, c1 csv hr hp]⟩
      · simp only [PollImmediate, c2 csv hr hp] at hs ⊢
        exact next hs
    | error e =>
      cases hn : e.notFound with
      | true =>
        simp only [PollImmediate, c3 e hr hn] at hs ⊢
        exact next hs
      | false => simp [PollImmediate, c4 e hr hn] at hs

/-- C17: `ensureCSVIsInstalled` returns success only if one of its reads
returned the named CSV with the phase "Succeeded" (the reads before it being
the earlier ticks of the same poll).  At a tick whose read reports not-found,
or the CSV in another phase, the poll goes on to the next tick (and ends with
the timeout error when no run is left); a read error other than not-found ends
the poll at once with that error. -/
theorem ensureCSVIsInstalled_success_needs_succeeded (api : OperatorAPI) (csvName ns : String)
    (h : OpHist) :
    ((ensureCSVIsInstalled api csvName ns h).1 = none →
      ∃ j csv, j ≤ api.runs h ∧
        api.csvGet (h ++ List.replicate j (OpRequest.csvGet ns csvName)) ns csvName = .ok csv ∧
        csv.phase = CSVPhaseSucceeded ∧
        (ensureCSVIsInstalled api csvName ns h).2 =
          h ++ List.replicate (j + 1) (OpRequest.csvGet ns csvName)) ∧
    (∀ (more : Nat) (hk : OpHist),
      ((∃ e, api.csvGet hk ns csvName = .error e ∧ e.notFound = true) ∨
        (∃ csv, api.csvGet hk ns csvName = .ok csv ∧ csv.phase ≠ CSVPhaseSucceeded)) →
      PollImmediate (ensureCSVIsInstalled.condition api csvName ns) (more + 1) () hk =
        PollImmediate (ensureCSVIsInstalled.condition api csvName ns) more ()
          (hk ++ [OpRequest.csvGet ns csvName]) ∧
      PollImmediate (ensureCSVIsInstalled.condition api csvName ns) 0 () hk =
        ((some ErrWaitTimeout, ()), hk ++ [OpRequest.csvGet ns csvName])) ∧
    (∀ (more : Nat) (hk : OpHist) (e : ApiError),
      api.csvGet hk ns csvName = .error e → e.notFound = false →
      PollImmediate (ensureCSVIsInstalled.condition api csvName ns) more () hk =
        ((some e, ()), hk ++ [OpRequest.csvGet ns csvName])) := by
  refine ⟨?_, ?_, ?_⟩
  · intro hs
    exact ensureCSVIsInstalled.poll_success api csvName ns (api.runs h) h hs
  · intro more hk hread
    obtain ⟨-, c2, c3, -⟩ := ensureCSVIsInstalled.condition_cases api csvName ns hk
    have hc : ensureCSVIsInstalled.condition api csvName ns () hk =
        (((false, none), ()), hk ++ [OpRequest.csvGet ns csvName]) := by
      rcases hread with ⟨e, hr, hn⟩ | ⟨csv, hr, hp⟩
      · exact c3 e hr hn
      · exact c2 csv hr hp
    exact ⟨by simp only [PollImmediate, hc], by simp only [PollImmediate, hc]⟩
  · intro more hk e hr hn
    obtain ⟨-, -, -, c4⟩ := ensureCSVIsInstalled.condition_cases api csvName ns hk
    cases more <;> simp only [PollImmediate, c4 e hr hn]

/-- Witness of C17: on `smoothAPI` the CSV is read as not found twice and then
with the phase "Succeeded", and `ensureCSVIsInstalled` returns nil after the
third read. -/
theorem ensureCSVIsInstalled_success_needs_succeeded_witness :
    ensureCSVIsInstalled smoothAPI "op.v1" "ns" [] =
      (none, [OpRequest.csvGet "ns" "op.v1", OpRequest.csvGet "ns" "op.v1",
        OpRequest.csvGet "ns" "op.v1"]) ∧
    ∃ j csv, j ≤ smoothAPI.runs [] ∧
      smoothAPI.csvGet ([] ++ List.replicate j (OpRequest.csvGet "ns" "op.v1")) "ns" "op.v1" =
        .ok csv ∧ csv.phase = CSVPhaseSucceeded :=
  have hw := (ensureCSVIsInstalled_success_needs_succeeded smoothAPI "op.v1" "ns" []).1 rfl
  ⟨rfl, by
    obtain ⟨j, csv, hj, hget, hp, -⟩ := hw
    exact ⟨j, csv, hj, hget, hp⟩⟩


/-! ## The re-created Subscription -/

/-- A poll whose condition appends no create request appends none. -/
theorem PollImmediate_noCreate {σ : Type}
    (condition : σ → OpHist → ((Bool × Option ApiError) × σ) × OpHist)
    (hc : ∀ s, NoCreate (condition s)) :
    ∀ (more : Nat) (s : σ), NoCreate (PollImmediate condition more s) := by
  intro more
  induction more with
  | zero =>
    intro s h
    obtain ⟨t, ht, hp⟩ := hc s h
    refine ⟨t, ?_, hp⟩
    simp only [PollImmediate]
    split <;> simp_all
  | succ more ih =>
    intro s h
    obtain ⟨t, ht, hp⟩ := hc s h
    simp only [PollImmediate]
    split
    · exact ⟨t, by simp_all, hp⟩
    · exact ⟨t, by simp_all, hp⟩
    · rename_i s1 h1 heq
      obtain ⟨t2, ht2, hp2⟩ := ih s1 h1
      have h1eq : h1 = h ++ t := by rw [heq] at ht; exact ht
      refine ⟨t ++ t2, by rw [ht2, h1eq, List.append_assoc], ?_⟩
      intro r hr
      rcases List.mem_append.mp hr with hr | hr
      · exact hp r hr
      · exact hp2 r hr

/-- The condition of `getInstallPlan` sends one read of the Subscription. -/
theorem getInstallPlan.condition_sends_a_read (api : OperatorAPI) (subNamespace subName : String)
    (sub : Subscription) : NoCreate (getInstallPlan.condition api subNamespace subName sub) := by
  intro h
  refine ⟨[OpRequest.subGet subNamespace subName], ?_, by simp [OpRequest.isCreate]⟩
  unfold getInstallPlan.condition
  simp only
  split
  · rfl
  · split <;> rfl

/-- The condition of `ensureCSVIsInstalled` sends one read of the CSV. -/
theorem ensureCSVIsInstalled.condition_sends_a_csv_read (api : OperatorAPI) (csvName ns : String)
    (s : Unit) : NoCreate (ensureCSVIsInstalled.condition api csvName ns s) := by
  intro h
  refine ⟨[OpRequest.csvGet ns csvName], ?_, by simp [OpRequest.isCreate]⟩
  unfold ensureCSVIsInstalled.condition
  simp only
  split
  · split
    · rfl
    · split <;> rfl
  · split <;> rfl

/-- From an appended list without create request to a longer one. -/
theorem NoCreate.step {h h1 h2 : OpHist} {t : List OpRequest} (h1eq : h1 = h ++ t)
    (hp : ∀ r, r ∈ t → r.isCreate = false) (hnext : ∃ t2, h2 = h1 ++ t2 ∧
      ∀ r, r ∈ t2 → r.isCreate = false) :
    ∃ t3, h2 = h ++ t3 ∧ ∀ r, r ∈ t3 → r.isCreate = false := by
  obtain ⟨t2, ht2, hp2⟩ := hnext
  refine ⟨t ++ t2, by rw [ht2, h1eq, List.append_assoc], ?_⟩
  intro r hr
  rcases List.mem_append.mp hr with hr | hr
  · exact hp r hr
  · exact hp2 r hr

/-- `getInstallPlan` creates no Subscription. -/
theorem getInstallPlan_noCreate (api : OperatorAPI) (sub : Subscription) :
    NoCreate (getInstallPlan api sub) := by
  intro h
  obtain ⟨t, ht, hp⟩ := PollImmediate_noCreate _
    (getInstallPlan.condition_sends_a_read api sub.ns sub.name) (api.runs h) sub h
  unfold getInstallPlan
  simp only
  rcases hd : PollImmediate (getInstallPlan.condition api sub.ns sub.name) (api.runs h) sub h
    with ⟨⟨e, sub1⟩, h1⟩
  rw [hd] at ht
  simp only at ht
  cases e with
  | some e => exact ⟨t, ht, hp⟩
  | none =>
    simp only
    cases sub1.installPlanRef with
    | none => exact ⟨t, ht, hp⟩
    | some ref =>
      simp only
      have hn : ∃ t2, h1 ++ [OpRequest.installPlanGet sub.ns ref] = h1 ++ t2 ∧
          ∀ r, r ∈ t2 → r.isCreate = false :=
        ⟨[OpRequest.installPlanGet sub.ns ref], rfl, by simp [OpRequest.isCreate]⟩
      split <;> exact NoCreate.step ht hp hn

/-- `approveInstallPlan` creates no Subscription. -/
theorem approveInstallPlan_noCreate (api : OperatorAPI) (ip : InstallPlan) :
    NoCreate (approveInstallPlan api ip) := by
  intro h
  exact ⟨_, rfl, by simp [OpRequest.isCreate]⟩

/-- `ensureCSVIsInstalled` creates no Subscription. -/
theorem ensureCSVIsInstalled_noCreate (api : OperatorAPI) (csvName ns : String) :
    NoCreate (ensureCSVIsInstalled api csvName ns) := by
  intro h
  exact PollImmediate_noCreate _ (ensureCSVIsInstalled.condition_sends_a_csv_read api csvName ns)
    (api.runs h) () h

/-- The steps "get the InstallPlan, approve it, wait for the CSV" create no
Subscription. -/
theorem checkUpgrade.install_noCreate (api : OperatorAPI) (sub : Subscription)
    (csv subNamespace : String) : NoCreate (checkUpgrade.install api sub csv subNamespace) := by
  intro h
  obtain ⟨t1, ht1, hp1⟩ := getInstallPlan_noCreate api sub h
  unfold checkUpgrade.install
  rcases hg : getInstallPlan api sub h with ⟨g, h1⟩
  rw [hg] at ht1
  simp only at ht1
  cases g with
  | panic => exact ⟨t1, ht1, hp1⟩
  | error e => exact ⟨t1, ht1, hp1⟩
  | ok ip =>
    simp only
    obtain ⟨t2, ht2, hp2⟩ := approveInstallPlan_noCreate api ip h1
    rcases ha : approveInstallPlan api ip h1 with ⟨a, h2⟩
    rw [ha] at ht2
    simp only at ht2
    have s2 := NoCreate.step ht1 hp1 ⟨t2, ht2, hp2⟩
    cases a with
    | some e => exact s2
    | none =>
      simp only
      obtain ⟨t12, ht12, hp12⟩ := s2
      obtain ⟨t3, ht3, hp3⟩ := ensureCSVIsInstalled_noCreate api csv subNamespace h2
      rcases he : ensureCSVIsInstalled api csv subNamespace h2 with ⟨e, h3⟩
      rw [he] at ht3
      simp only at ht3
      have s3 := NoCreate.step ht12 hp12 ⟨t3, ht3, hp3⟩
      cases e <;> exact s3

/-- The second part of `checkUpgrade` creates no Subscription. -/
theorem checkUpgrade.upgrade_noCreate (api : OperatorAPI)
    (subNamespace subName previousCSV : String) (sub : Subscription) (startingCSV : String) :
    NoCreate (checkUpgrade.upgrade api subNamespace subName previousCSV sub startingCSV) := by
  intro h
  obtain ⟨t1, ht1, hp1⟩ := checkUpgrade.install_noCreate api sub previousCSV subNamespace h
  unfold checkUpgrade.upgrade
  rcases hi : checkUpgrade.install api sub previousCSV subNamespace h with ⟨r, h1⟩
  rw [hi] at ht1
  simp only at ht1
  cases r with
  | error a => exact ⟨t1, ht1, hp1⟩
  | ok u =>
    simp only
    have s2 : ∃ t, h1 ++ [OpRequest.subGet subNamespace subName] = h ++ t ∧
        ∀ r, r ∈ t → r.isCreate = false :=
      NoCreate.step ht1 hp1 ⟨[OpRequest.subGet subNamespace subName], rfl,
        by simp [OpRequest.isCreate]⟩
    split
    · exact s2
    · split
      · exact s2
      · rename_i spec hspec
        obtain ⟨t2, ht2, hp2⟩ := s2
        have s3 : ∀ body, ∃ t, h1 ++ [OpRequest.subGet subNamespace subName] ++
            [OpRequest.subUpdate subNamespace body] = h ++ t ∧
            ∀ r, r ∈ t → r.isCreate = false :=
          fun body => NoCreate.step ht2 hp2 ⟨[OpRequest.subUpdate subNamespace body], rfl,
            by simp [OpRequest.isCreate]⟩
        split
        · exact s3 _
        · obtain ⟨t3, ht3, hp3⟩ := s3 _
          exact NoCreate.step ht3 hp3 (checkUpgrade.install_noCreate api _ startingCSV
            subNamespace _)


/-- An `Eventually` whose function sends the one request `q` per run sends it
at least once, and nothing else. -/
theorem Eventually_hist (f : OpHist → Bool × OpHist) (q : OpRequest)
    (hf : ∀ h, (f h).2 = h ++ [q]) :
    ∀ (more : Nat) (h : OpHist),
      ∃ k, 1 ≤ k ∧ (Eventually f more h).2 = h ++ List.replicate k q := by
  intro more
  induction more with
  | zero => intro h; exact ⟨1, le_refl _, by simp [Eventually, hf]⟩
  | succ more ih =>
    intro h
    have h1 := hf h
    simp only [Eventually]
    split
    · rename_i h2 heq
      rw [heq] at h1
      exact ⟨1, le_refl _, by simpa using h1⟩
    · rename_i h2 heq
      rw [heq] at h1
      simp only at h1
      obtain ⟨k, hk1, hk⟩ := ih h2
      refine ⟨k + 1, by omega, ?_⟩
      rw [hk, h1, List.replicate_succ]
      simp

/-- The requests of the first part of `checkUpgrade`: either none of them is a
create, or they are the read, the two deletes, the reads of the old
InstallPlan, and last the create of the Subscription built from the one read. -/
theorem checkUpgrade.reinstall_sent (api : OperatorAPI)
    (subNamespace subName previousCSV : String) (h : OpHist) :
    (∃ t, (checkUpgrade.reinstall api subNamespace subName previousCSV h).2 = h ++ t ∧
      ∀ r, r ∈ t → r.isCreate = false) ∨
    (∃ original spec k installName,
      api.subGet h subNamespace subName = .ok original ∧ original.spec = some spec ∧
      (checkUpgrade.reinstall api subNamespace subName previousCSV h).2 =
        h ++ ([OpRequest.subGet subNamespace subName, OpRequest.subDelete subNamespace subName,
          OpRequest.csvDelete subNamespace original.currentCSV] ++
          List.replicate k (OpRequest.installPlanGet subNamespace installName) ++
          [OpRequest.subCreate subNamespace
            (checkUpgrade.recreated spec subNamespace subName previousCSV)])) := by
  have rok : ∀ a : Subscription, readObj (Except.ok a) = (a, none) := fun _ => rfl
  unfold checkUpgrade.reinstall
  cases hget : api.subGet h subNamespace subName with
  | error e =>
    left
    exact ⟨[OpRequest.subGet subNamespace subName], by simp [readObj],
      by simp [OpRequest.isCreate]⟩
  | ok original =>
    simp only [rok]
    cases api.subDelete (h ++ [OpRequest.subGet subNamespace subName]) subNamespace subName with
    | some e =>
      left
      exact ⟨[OpRequest.subGet subNamespace subName, OpRequest.subDelete subNamespace subName],
        by simp, by simp [OpRequest.isCreate]⟩
    | none =>
      simp only
      cases api.csvDelete (h ++ [OpRequest.subGet subNamespace subName] ++
        [OpRequest.subDelete subNamespace subName]) subNamespace original.currentCSV with
      | some e =>
        left
        exact ⟨[OpRequest.subGet subNamespace subName,
          OpRequest.subDelete subNamespace subName,
          OpRequest.csvDelete subNamespace original.currentCSV],
          by simp, by simp [OpRequest.isCreate]⟩
      | none =>
        simp only
        cases hinst : original.install with
        | none =>
          left
          exact ⟨[OpRequest.subGet subNamespace subName,
            OpRequest.subDelete subNamespace subName,
            OpRequest.csvDelete subNamespace original.currentCSV],
            by simp, by simp [OpRequest.isCreate]⟩
        | some installName =>
          simp only
          obtain ⟨k, -, hk⟩ := Eventually_hist (fun h0 =>
            ((readObj (api.installPlanGet h0 subNamespace installName)).2.elim false
              (fun e => e.notFound),
              h0 ++ [OpRequest.installPlanGet subNamespace installName]))
            (OpRequest.installPlanGet subNamespace installName) (fun _ => rfl)
            (api.runs (h ++ [OpRequest.subGet subNamespace subName] ++
              [OpRequest.subDelete subNamespace subName] ++
              [OpRequest.csvDelete subNamespace original.currentCSV]))
            (h ++ [OpRequest.subGet subNamespace subName] ++
              [OpRequest.subDelete subNamespace subName] ++
              [OpRequest.csvDelete subNamespace original.currentCSV])
          rcases hev : Eventually (fun h0 =>
            ((readObj (api.installPlanGet h0 subNamespace installName)).2.elim false
              (fun e => e.notFound),
              h0 ++ [OpRequest.installPlanGet subNamespace installName]))
            (api.runs (h ++ [OpRequest.subGet subNamespace subName] ++
              [OpRequest.subDelete subNamespace subName] ++
              [OpRequest.csvDelete subNamespace original.currentCSV]))
            (h ++ [OpRequest.subGet subNamespace subName] ++
              [OpRequest.subDelete subNamespace subName] ++
              [OpRequest.csvDelete subNamespace original.currentCSV]) with ⟨b, h4⟩
          rw [hev] at hk
          simp only at hk
          have hquiet : ∃ t, h4 = h ++ t ∧ ∀ r, r ∈ t → r.isCreate = false := by
            refine ⟨[OpRequest.subGet subNamespace subName,
              OpRequest.subDelete subNamespace subName,
              OpRequest.csvDelete subNamespace original.currentCSV] ++
              List.replicate k (OpRequest.installPlanGet subNamespace installName),
              by rw [hk]; simp, ?_⟩
            intro r hr
            rcases List.mem_append.mp hr with hr | hr
            · simp only [List.mem_cons, List.mem_singleton, List.not_mem_nil, or_false] at hr
              rcases hr with rfl | rfl | rfl <;> rfl
            · rw [(List.mem_replicate.mp hr).2]; rfl
          cases b with
          | false => left; exact hquiet
          | true =>
            simp only
            cases hspec : original.spec with
            | none => left; exact hquiet
            | some spec =>
              right
              refine ⟨original, spec, k, installName, rfl, hspec, ?_⟩
              simp only
              have hfinal : ∀ e : Except Abort (Subscription × String),
                  (e, h4 ++ [OpRequest.subCreate subNamespace
                    (checkUpgrade.recreated spec subNamespace subName previousCSV)]).2 =
                  h ++ ([OpRequest.subGet subNamespace subName,
                    OpRequest.subDelete subNamespace subName,
                    OpRequest.csvDelete subNamespace original.currentCSV] ++
                    List.replicate k (OpRequest.installPlanGet subNamespace installName) ++
                    [OpRequest.subCreate subNamespace
                      (checkUpgrade.recreated spec subNamespace subName previousCSV)]) := by
                intro e
                rw [hk]
                simp
              split <;> exact hfinal _


/-- C16: every request of `checkUpgrade` that creates a Subscription is the one
create of the run, sent after the delete of the original Subscription; it is
sent to the namespace `subNamespace` and its body has the name `subName` and
the namespace `subNamespace` (those of the original), manual approval, the
starting CSV `previousCSV`, and the package, channel, catalog source and
catalog source namespace of the Subscription read first. -/
theorem checkUpgrade_recreated_subscription (api : OperatorAPI)
    (subNamespace subName previousCSV : String) (h : OpHist) :
    ∃ sent, (checkUpgrade api subNamespace subName previousCSV h).2 = h ++ sent ∧
      ∀ ns body, OpRequest.subCreate ns body ∈ sent →
        ∃ original spec pre post,
          api.subGet h subNamespace subName = .ok original ∧ original.spec = some spec ∧
          sent = pre ++ OpRequest.subCreate ns body :: post ∧
          OpRequest.subDelete subNamespace subName ∈ pre ∧
          (∀ r, r ∈ pre ++ post → r.isCreate = false) ∧
          ns = subNamespace ∧ body.name = subName ∧ body.ns = subNamespace ∧
          body.spec = some
            { package := spec.package, channel := spec.channel,
              catalogSource := spec.catalogSource,
              catalogSourceNamespace := spec.catalogSourceNamespace,
              installPlanApproval := ApprovalManual, startingCSV := previousCSV } := by
  have htail : ∃ t2, (checkUpgrade api subNamespace subName previousCSV h).2 =
      (checkUpgrade.reinstall api subNamespace subName previousCSV h).2 ++ t2 ∧
      ∀ r, r ∈ t2 → r.isCreate = false := by
    unfold checkUpgrade
    rcases checkUpgrade.reinstall api subNamespace subName previousCSV h with ⟨r, h1⟩
    cases r with
    | error a => exact ⟨[], by simp, by simp⟩
    | ok v =>
      obtain ⟨sub, startingCSV⟩ := v
      exact checkUpgrade.upgrade_noCreate api subNamespace subName previousCSV sub startingCSV h1
  obtain ⟨t2, ht2, hp2⟩ := htail
  rcases checkUpgrade.reinstall_sent api subNamespace subName previousCSV h with
    ⟨t, ht, hp⟩ | ⟨original, spec, k, installName, hget, hspec, hsent⟩
  · refine ⟨t ++ t2, by rw [ht2, ht, List.append_assoc], ?_⟩
    intro ns body hmem
    exfalso
    rcases List.mem_append.mp hmem with hm | hm
    · simpa [OpRequest.isCreate] using hp _ hm
    · simpa [OpRequest.isCreate] using hp2 _ hm
  · have hpre : ∀ r, r ∈ [OpRequest.subGet subNamespace subName,
        OpRequest.subDelete subNamespace subName,
        OpRequest.csvDelete subNamespace original.currentCSV] ++
        List.replicate k (OpRequest.installPlanGet subNamespace installName) →
        r.isCreate = false := by
      intro r hr
      rcases List.mem_append.mp hr with hr | hr
      · simp only [List.mem_cons, List.mem_singleton, List.not_mem_nil, or_false] at hr
        rcases hr with rfl | rfl | rfl <;> rfl
      · rw [(List.mem_replicate.mp hr).2]; rfl
    refine ⟨([OpRequest.subGet subNamespace subName, OpRequest.subDelete subNamespace subName,
      OpRequest.csvDelete subNamespace original.currentCSV] ++
      List.replicate k (OpRequest.installPlanGet subNamespace installName) ++
      [OpRequest.subCreate subNamespace
        (checkUpgrade.recreated spec subNamespace subName previousCSV)]) ++ t2,
      by rw [ht2, hsent, List.append_assoc], ?_⟩
    intro ns body hmem
    have hthis : OpRequest.subCreate ns body = OpRequest.subCreate subNamespace
        (checkUpgrade.recreated spec subNamespace subName previousCSV) := by
      rcases List.mem_append.mp hmem with hm | hm
      · rcases List.mem_append.mp hm with hm | hm
        · exact absurd (hpre _ hm) (by simp [OpRequest.isCreate])
        · simpa using hm
      · exact absurd (hp2 _ hm) (by simp [OpRequest.isCreate])
    cases hthis
    refine ⟨original, spec, [OpRequest.subGet subNamespace subName,
      OpRequest.subDelete subNamespace subName,
      OpRequest.csvDelete subNamespace original.currentCSV] ++
      List.replicate k (OpRequest.installPlanGet subNamespace installName), t2, hget, hspec,
      by simp, by simp, ?_, rfl, rfl, rfl, rfl⟩
    intro r hr
    rcases List.mem_append.mp hr with hr | hr
    · exact hpre r hr
    · exact hp2 r hr

/-- Witness of C16: on `smoothAPI` the run of `checkUpgrade` for the operator
"op" passes, and the fifth request it sends creates the Subscription "op" in
"ns" with manual approval, the starting CSV "op.v1" and the package, channel
and catalog of the original. -/
theorem checkUpgrade_recreated_subscription_witness :
    (checkUpgrade smoothAPI "ns" "op" "op.v1" []).1 = .ok () ∧
    ((checkUpgrade smoothAPI "ns" "op" "op.v1" []).2)[4]? =
      some (OpRequest.subCreate "ns"
        { name := "op", ns := "ns", currentCSV := "", installPlanRef := none, install := none,
          spec := some
            { package := "op-pkg", channel := "stable", catalogSource := "cat",
              catalogSourceNamespace := "cat-ns", installPlanApproval := "Manual",
              startingCSV := "op.v1" } }) ∧
    ∃ sent, (checkUpgrade smoothAPI "ns" "op" "op.v1" []).2 = [] ++ sent :=
  ⟨rfl, by decide, by
    obtain ⟨sent, hs, -⟩ := checkUpgrade_recreated_subscription smoothAPI "ns" "op" "op.v1" []
    exact ⟨sent, hs⟩⟩


end Osde2e
